import Mathlib

/-!
# libyang: the identityref type plugin and the revisions extension plugin

A shallow embedding of `src/plugins_types/identityref.c` (and, further down, of
`src/plugins_exts/revisions.c`).

* Pointers to identities are handles `(module index, identity index)` into the
  context's module table, so `&mod->identities[0]` is `⟨mod, 0⟩` and pointer
  equality is equality of handles.
* The library routines the two files call but do not define (`lyplg_type_check_hints`,
  `lyplg_type_identity_find`, `lyplg_type_make_implemented`, ...) are the fields of
  `externals`; every statement about the plugin code quantifies over them.
* Every call that leaves the plugin is recorded, in order, in a trace of `Event`s.
-/

namespace Libyang

/-- The library's return codes (`LY_ERR`); `LY_SUCCESS` is the zero value tested by `if (ret)`. -/
inductive LY_ERR where
  | LY_SUCCESS | LY_EMEM | LY_ESYS | LY_EINVAL | LY_EEXIST | LY_ENOTFOUND | LY_EINT
  | LY_EVALID | LY_EDENIED | LY_EINCOMPLETE | LY_ERECOMPILE | LY_ENOT | LY_EOTHER | LY_EPLUGIN
  deriving DecidableEq, Repr, Inhabited

/-- Validation error codes (`LY_VECODE`). -/
inductive LY_VECODE where
  | LYVE_SUCCESS | LYVE_SYNTAX | LYVE_SYNTAX_YANG | LYVE_SYNTAX_YIN | LYVE_REFERENCE
  | LYVE_XPATH | LYVE_SEMANTICS | LYVE_SYNTAX_XML | LYVE_SYNTAX_JSON | LYVE_DATA | LYVE_OTHER
  deriving DecidableEq, Repr, Inhabited

/-- The value formats (`LY_VALUE_FORMAT`). -/
inductive LY_VALUE_FORMAT where
  | LY_VALUE_CANON | LY_VALUE_SCHEMA | LY_VALUE_SCHEMA_RESOLVED | LY_VALUE_XML
  | LY_VALUE_JSON | LY_VALUE_LYB | LY_VALUE_STR_NS
  deriving DecidableEq, Repr, Inhabited

open LY_ERR LY_VECODE LY_VALUE_FORMAT

/-- A `struct lysc_ident *`: the owning module's index in the context and the
identity's index in that module's identity table. -/
structure ident_ptr where
  mod : Nat
  index : Nat
  deriving DecidableEq, Repr, Inhabited

/-- The fields of `struct lysc_ident` the plugins read, and the identity's bases. -/
structure lysc_ident where
  name : String
  flags : Nat
  bases : List ident_ptr
  deriving DecidableEq, Repr, Inhabited

/-- The fields of `struct lys_module` the plugins read. -/
structure lys_module where
  name : String
  revision : String
  implemented : Bool
  identities : List lysc_ident
  deriving DecidableEq, Repr, Inhabited

/-- The context: its module table. -/
structure ly_ctx where
  modules : List lys_module
  deriving DecidableEq, Repr, Inhabited

/-- The module a module index points to. -/
def ly_ctx.module_at (ctx : ly_ctx) (m : Nat) : lys_module :=
  ctx.modules.getD m default

/-- The identity an identity pointer points to. -/
def ly_ctx.ident_at (ctx : ly_ctx) (p : ident_ptr) : lysc_ident :=
  (ctx.module_at p.mod).identities.getD p.index default

/-- The expression `ident->module->name`. -/
def ly_ctx.ident_module_name (ctx : ly_ctx) (p : ident_ptr) : String :=
  (ctx.module_at p.mod).name

/-- The expression `ident->name`. -/
def ly_ctx.ident_name (ctx : ly_ctx) (p : ident_ptr) : String :=
  (ctx.ident_at p).name

/-- A `struct lysc_type_identityref`, with the address that identifies it. -/
structure lysc_type_identityref where
  addr : Nat
  basetype : Nat
  bases : List ident_ptr
  deriving DecidableEq, Repr, Inhabited

/-- The part of `struct lysc_node` that matters to the store callback: the node's
address and the index of its module. -/
structure lysc_node where
  addr : Nat
  module : Nat
  deriving DecidableEq, Repr, Inhabited

/-- An error item as `ly_err_new` fills it in. -/
structure ly_err_item where
  no : LY_ERR
  vecode : LY_VECODE
  msg : String
  deriving DecidableEq, Repr, Inhabited

/-- The call `ly_err_new(err, ecode, vecode, NULL, NULL, fmt, ...)`: returns `ecode` and
sets `*err` to the new item. -/
def ly_err_new (ecode : LY_ERR) (vecode : LY_VECODE) (msg : String) : LY_ERR × Option ly_err_item :=
  (ecode, some { no := ecode, vecode := vecode, msg := msg })

/-- Format-specific data for resolving prefixes (`void *prefix_data`): a table from
prefixes to module indices; `NULL` is the empty table. -/
abbrev prefix_data := List (String × Nat)

/-- What `lyplg_type_identity_find` hands back: the return code, `*ident` (read only
when the code is `LY_SUCCESS`) and `*err`. -/
structure find_result where
  ret : LY_ERR
  ident : ident_ptr
  err : Option ly_err_item
  deriving DecidableEq, Repr, Inhabited

/-- The store option `LYPLG_TYPE_STORE_DYNAMIC`. -/
def LYPLG_TYPE_STORE_DYNAMIC : Nat := 0x01

/-- The store option `LYPLG_TYPE_STORE_IMPLEMENT`. -/
def LYPLG_TYPE_STORE_IMPLEMENT : Nat := 0x02

/-- The library routines called by the plugins whose bodies are outside these files. -/
structure externals where
  /-- The call `lyplg_type_check_hints(hints, value, value_len, basetype, NULL, err)`. -/
  check_hints : Nat → String → Nat → LY_ERR × Option ly_err_item
  /-- The call `lyplg_type_identity_find(value, value_len, format, prefix_data, ctx, ctx_node, &ident, err)`. -/
  identity_find : String → LY_VALUE_FORMAT → prefix_data → Option lysc_node → find_result
  /-- The call `lyplg_type_make_implemented(mod, NULL, unres)`, for a module index and the
  address of the caller's unres structure. -/
  make_implemented : Nat → Nat → LY_ERR
  /-- The call `lys_identity_iffeature_value(ident)`. -/
  iffeature_value : ident_ptr → LY_ERR
  /-- The call `lyplg_type_identity_isderived(base, der)`. -/
  identity_isderived : ident_ptr → ident_ptr → LY_ERR
  /-- The call `lyplg_type_check_status(ctx_node, flags, format, prefix_data, name, err)`. -/
  check_status : lysc_node → Nat → LY_VALUE_FORMAT → prefix_data → String → LY_ERR × Option ly_err_item
  /-- The prefix of a module in a format other than JSON, canonical and LYB. -/
  module_prefix_in : Nat → LY_VALUE_FORMAT → prefix_data → String
  /-- Whether `asprintf` fails (returns -1) when asked to build this string. -/
  asprintf_fails : String → Bool
  /-- The return code of `lydict_insert(ctx, value, len, &str)`. -/
  lydict_insert : String → LY_ERR
  /-- The return code of `lydict_insert_zc(ctx, value, &str)`. -/
  lydict_insert_zc : String → LY_ERR

/-- The calls that leave the plugin, as recorded in a trace. -/
inductive Event where
  | check_hints (value : String)
  | identity_find (value : String) (format : LY_VALUE_FORMAT)
  | make_implemented (mod unres : Nat)
  | iffeature_value (ident : ident_ptr)
  | identity_isderived (base ident : ident_ptr)
  | check_status (flags : Nat) (name : String)
  | asprintf (str : String)
  | lydict_insert (str : String)
  | lydict_insert_zc (str : String)
  | free_value
  | free_simple (canonical : Option String)
  deriving DecidableEq, Repr

/-! ## identityref_check_base -/

/-- The first loop of `identityref_check_base`: `LY_ARRAY_FOR(type->bases, u)` with a
`break` at the first base for which `lyplg_type_identity_isderived` returns zero.
Given the bases from index `u` on, returns the value of `u` when the loop is left. -/
def identityref_check_base.scan (ext : externals) (ident : ident_ptr) : List ident_ptr → Nat → Nat
  | [], u => u
  | b :: bs, u =>
    if ext.identity_isderived b ident = LY_SUCCESS then u
    else identityref_check_base.scan ext ident bs (u + 1)

/-- What one `sprintf(str + (u ? strlen(str) : 0), "%s\"%s:%s\"", ...)` leaves in `str`. -/
def identityref_check_base.sprintf (ctx : ly_ctx) (u : Nat) (str : Option String) (base : ident_ptr) : String :=
  (if u ≠ 0 then str.getD "" else "") ++ (if u ≠ 0 then ", " else "") ++ "\""
    ++ ctx.ident_module_name base ++ ":" ++ ctx.ident_name base ++ "\""

/-- The second loop of `identityref_check_base`: for the bases from index `u` on, with
the running `str_len` and `str`, returns `u`, `str_len` and `str` when the loop ends. -/
def identityref_check_base.build (ctx : ly_ctx) :
    List ident_ptr → Nat → Nat → Option String → Nat × Nat × Option String
  | [], u, str_len, str => (u, str_len, str)
  | base :: rest, u, str_len, str =>
    let str_len := str_len + ((if u ≠ 0 then 2 else 0) + 1 + (ctx.ident_module_name base).length
      + 1 + (ctx.ident_name base).length + 1)
    let str := some (identityref_check_base.sprintf ctx u str base)
    identityref_check_base.build ctx rest (u + 1) str_len str

/-- How `%s` prints `str`: a null pointer comes out as `(null)`. -/
def fmt_s (str : Option String) : String := str.getD "(null)"

/-- The function `identityref_check_base`: the return code and `*err`. -/
def identityref_check_base (ext : externals) (ctx : ly_ctx) (ident : ident_ptr)
    (type : lysc_type_identityref) (value : String) : LY_ERR × Option ly_err_item :=
  let u := identityref_check_base.scan ext ident type.bases 0
  if u = type.bases.length then
    let r := identityref_check_base.build ctx type.bases 0 1 none
    if r.1 = 1 then
      ly_err_new LY_EVALID LYVE_DATA
        ("Invalid identityref \"" ++ value ++ "\" value - identity not derived from the base "
          ++ fmt_s r.2.2 ++ ".")
    else
      ly_err_new LY_EVALID LYVE_DATA
        ("Invalid identityref \"" ++ value ++ "\" value - identity not derived from all the bases "
          ++ fmt_s r.2.2 ++ ".")
  else (LY_SUCCESS, none)

/-- The calls to `lyplg_type_identity_isderived` made by the first loop of
`identityref_check_base`, in order. -/
def identityref_check_base.calls (ext : externals) (ident : ident_ptr) : List ident_ptr → List Event
  | [] => []
  | b :: bs =>
    Event.identity_isderived b ident ::
      (if ext.identity_isderived b ident = LY_SUCCESS then []
       else identityref_check_base.calls ext ident bs)

/-! ## identityref_ident2str, identityref_check_ident -/

/-- Modelled from the spec: lyplg_type_get_prefix, whose body is not among the sources.
In the JSON format (and the canonical and binary ones, which carry the same bytes) a
module is named by its own name; in every other format the prefix comes from the
format's prefix data. -/
def lyplg_type_get_prefix (ext : externals) (ctx : ly_ctx) (mod : Nat) (format : LY_VALUE_FORMAT)
    (pdata : prefix_data) : String :=
  match format with
  | LY_VALUE_CANON => (ctx.module_at mod).name
  | LY_VALUE_JSON => (ctx.module_at mod).name
  | LY_VALUE_LYB => (ctx.module_at mod).name
  | _ => ext.module_prefix_in mod format pdata

/-- The function `identityref_ident2str`: the return code and `*str`; the length stored
in `*str_len`, when asked for, is the length of `*str`. -/
def identityref_ident2str (ext : externals) (ctx : ly_ctx) (ident : ident_ptr)
    (format : LY_VALUE_FORMAT) (pdata : prefix_data) : LY_ERR × Option String :=
  let str := ( lyplg_type_get_prefix ext ctx ident.mod format pdata) ++ ":" ++ ctx.ident_name ident
  if ext.asprintf_fails str then (LY_EMEM, none) else (LY_SUCCESS, some str)

/-- What `identityref_check_ident` hands back: the return code, `*err` and the calls made. -/
structure check_ident_result where
  ret : LY_ERR
  err : Option ly_err_item
  trace : List Event
  deriving DecidableEq, Repr

/-- The function `identityref_check_ident`. -/
def identityref_check_ident (ext : externals) (ctx : ly_ctx) (ident : ident_ptr) (value : String)
    (options : Nat) (unres : Nat) : check_ident_result :=
  if (ctx.module_at ident.mod).implemented = false then
    if options &&& LYPLG_TYPE_STORE_IMPLEMENT ≠ 0 then
      { ret := ext.make_implemented ident.mod unres, err := none,
        trace := [Event.make_implemented ident.mod unres] }
    else
      let e := ly_err_new LY_EVALID LYVE_DATA
        ("Invalid identityref \"" ++ value ++ "\" value - identity found in non-implemented module \""
          ++ ctx.ident_module_name ident ++ "\".")
      { ret := e.1, err := e.2, trace := [] }
  else if ext.iffeature_value ident = LY_ENOT then
    let e := ly_err_new LY_EVALID LYVE_DATA
      ("Invalid identityref \"" ++ value ++ "\" value - identity is disabled by if-feature.")
    { ret := e.1, err := e.2, trace := [Event.iffeature_value ident] }
  else
    { ret := LY_SUCCESS, err := none, trace := [Event.iffeature_value ident] }

/-! ## lyplg_type_store_identityref -/

/-- The fields of `struct lyd_value` an identityref uses; `none` is a null pointer. -/
structure lyd_value where
  realtype : Option Nat
  ident : Option ident_ptr
  _canonical : Option String
  deriving DecidableEq, Repr, Inhabited

/-- Modelled from the spec: lyplg_type_free_simple, whose body is not among the
sources: it releases the interned canonical string and clears the field; the two weak
references need no release. -/
def lyplg_type_free_simple (storage : lyd_value) : lyd_value :=
  { storage with _canonical := none }

/-- The state of `lyplg_type_store_identityref` at its `cleanup` label and at its return:
`ret`, `*storage`, `*err`, the local `options` and the calls made so far. -/
structure store_result where
  ret : LY_ERR
  storage : lyd_value
  err : Option ly_err_item
  options : Nat
  trace : List Event
  deriving DecidableEq, Repr

/-- The statement `options &= ~LYPLG_TYPE_STORE_DYNAMIC` on a `uint32_t`. -/
def clear_dynamic (options : Nat) : Nat :=
  options &&& (0xFFFFFFFF ^^^ LYPLG_TYPE_STORE_DYNAMIC)

/-- The block "store canonical value" of `lyplg_type_store_identityref`, which ends at
the `cleanup` label; `storage` already holds the identity and `tr` is the trace so far. -/
def lyplg_type_store_identityref.store_canonical (ext : externals) (ctx : ly_ctx)
    (value : String) (options : Nat) (format : LY_VALUE_FORMAT) (ident : ident_ptr)
    (storage : lyd_value) (tr : List Event) : store_result :=
  if format = LY_VALUE_CANON then
    if options &&& LYPLG_TYPE_STORE_DYNAMIC ≠ 0 then
      let r := ext.lydict_insert_zc value
      { ret := r,
        storage := if r = LY_SUCCESS then { storage with _canonical := some value } else storage,
        err := none, options := clear_dynamic options,
        trace := tr ++ [Event.lydict_insert_zc value] }
    else
      let r := ext.lydict_insert value
      { ret := r,
        storage := if r = LY_SUCCESS then { storage with _canonical := some value } else storage,
        err := none, options := options, trace := tr ++ [Event.lydict_insert value] }
  else
    -- JSON format with prefix is the canonical one
    let a := identityref_ident2str ext ctx ident LY_VALUE_JSON []
    let tr := tr ++ [Event.asprintf
      (( lyplg_type_get_prefix ext ctx ident.mod LY_VALUE_JSON []) ++ ":" ++ ctx.ident_name ident)]
    if a.1 ≠ LY_SUCCESS then
      { ret := a.1, storage := storage, err := none, options := options, trace := tr }
    else
      let canon := a.2.getD ""
      let r := ext.lydict_insert_zc canon
      { ret := r,
        storage := if r = LY_SUCCESS then { storage with _canonical := some canon } else storage,
        err := none, options := options, trace := tr ++ [Event.lydict_insert_zc canon] }

/-- The function `lyplg_type_store_identityref` from `if (ctx_node)` (check status) to the
`cleanup` label. -/
def lyplg_type_store_identityref.from_status (ext : externals) (ctx : ly_ctx)
    (value : String) (options : Nat) (format : LY_VALUE_FORMAT) (pdata : prefix_data)
    (ctx_node : Option lysc_node) (ident : ident_ptr) (storage : lyd_value) (tr : List Event) :
    store_result :=
  match ctx_node with
  | some node =>
    -- check status
    let s := ext.check_status node (ctx.ident_at ident).flags format pdata (ctx.ident_name ident)
    let tr := tr ++ [Event.check_status (ctx.ident_at ident).flags (ctx.ident_name ident)]
    if s.1 ≠ LY_SUCCESS then
      { ret := s.1, storage := storage, err := s.2, options := options, trace := tr }
    else
      -- store value
      lyplg_type_store_identityref.store_canonical ext ctx value options format ident
        { storage with ident := some ident } tr
  | none =>
    -- store value
    lyplg_type_store_identityref.store_canonical ext ctx value options format ident
      { storage with ident := some ident } tr

/-- The function `lyplg_type_store_identityref` from the call of `identityref_check_base`
to the `cleanup` label. -/
def lyplg_type_store_identityref.from_base (ext : externals) (ctx : ly_ctx)
    (type : lysc_type_identityref) (value : String) (options : Nat) (format : LY_VALUE_FORMAT)
    (pdata : prefix_data) (ctx_node : Option lysc_node) (ident : ident_ptr) (storage : lyd_value)
    (tr : List Event) : store_result :=
  -- check that the identity is derived form all the bases
  let b := identityref_check_base ext ctx ident type value
  let tr := tr ++ identityref_check_base.calls ext ident type.bases
  if b.1 ≠ LY_SUCCESS then
    { ret := b.1, storage := storage, err := b.2, options := options, trace := tr }
  else
    lyplg_type_store_identityref.from_status ext ctx value options format pdata ctx_node ident
      storage tr

/-- The function `lyplg_type_store_identityref` from the call of `identityref_check_ident`
to the `cleanup` label. -/
def lyplg_type_store_identityref.from_ident (ext : externals) (ctx : ly_ctx)
    (type : lysc_type_identityref) (value : String) (options : Nat) (format : LY_VALUE_FORMAT)
    (pdata : prefix_data) (ctx_node : Option lysc_node) (unres : Nat) (ident : ident_ptr)
    (storage : lyd_value) (tr : List Event) : store_result :=
  -- check if the identity is enabled
  let c := identityref_check_ident ext ctx ident value options unres
  let tr := tr ++ c.trace
  if c.ret ≠ LY_SUCCESS then
    { ret := c.ret, storage := storage, err := c.err, options := options, trace := tr }
  else
    lyplg_type_store_identityref.from_base ext ctx type value options format pdata ctx_node ident
      storage tr

/-- The body of `lyplg_type_store_identityref` up to the `cleanup` label. `value` is the
`value_len` bytes the caller passes; with `LYPLG_TYPE_STORE_DYNAMIC` they are a buffer
of that exact size, the string `lydict_insert_zc` takes over. -/
def lyplg_type_store_identityref.body (ext : externals) (ctx : ly_ctx)
    (type : lysc_type_identityref) (value : String) (options : Nat) (format : LY_VALUE_FORMAT)
    (pdata : prefix_data) (hints : Nat) (ctx_node : Option lysc_node) (unres : Nat) : store_result :=
  -- init storage
  let storage : lyd_value := { realtype := some type.addr, ident := none, _canonical := none }
  -- check hints
  let h := ext.check_hints hints value type.basetype
  let tr := [Event.check_hints value]
  if h.1 ≠ LY_SUCCESS then
    { ret := h.1, storage := storage, err := h.2, options := options, trace := tr }
  else
    -- find a matching identity
    let f := ext.identity_find value format pdata ctx_node
    let tr := tr ++ [Event.identity_find value format]
    if f.ret ≠ LY_SUCCESS then
      { ret := f.ret, storage := storage, err := f.err, options := options, trace := tr }
    else
      lyplg_type_store_identityref.from_ident ext ctx type value options format pdata ctx_node
        unres f.ident storage tr

/-- The code of `lyplg_type_store_identityref` from the `cleanup` label on. -/
def lyplg_type_store_identityref.cleanup (r : store_result) : store_result :=
  let t := if r.options &&& LYPLG_TYPE_STORE_DYNAMIC ≠ 0 then r.trace ++ [Event.free_value] else r.trace
  if r.ret ≠ LY_SUCCESS then
    { r with storage := lyplg_type_free_simple r.storage,
             trace := t ++ [Event.free_simple r.storage._canonical] }
  else { r with trace := t }

/-- The function `lyplg_type_store_identityref`. -/
def lyplg_type_store_identityref (ext : externals) (ctx : ly_ctx)
    (type : lysc_type_identityref) (value : String) (options : Nat) (format : LY_VALUE_FORMAT)
    (pdata : prefix_data) (hints : Nat) (ctx_node : Option lysc_node) (unres : Nat) : store_result :=
  lyplg_type_store_identityref.cleanup
    (lyplg_type_store_identityref.body ext ctx type value options format pdata hints ctx_node unres)

/-! ## lyplg_type_compare_identityref, lyplg_type_print_identityref -/

/-- The function `lyplg_type_compare_identityref`. -/
def lyplg_type_compare_identityref (val1 val2 : lyd_value) : LY_ERR :=
  if val1.realtype ≠ val2.realtype then LY_ENOT
  else if val1.ident = val2.ident then LY_SUCCESS
  else LY_ENOT

/-- What `lyplg_type_print_identityref` hands back: the returned string (`none` is `NULL`)
and what it writes to `*dynamic` and `*value_len` (`none`: nothing is written). -/
structure print_result where
  ret : Option String
  dynamic : Option Nat
  value_len : Option Nat
  deriving DecidableEq, Repr

/-- The function `lyplg_type_print_identityref`, called with both output pointers set. -/
def lyplg_type_print_identityref (ext : externals) (ctx : ly_ctx) (value : lyd_value)
    (format : LY_VALUE_FORMAT) (pdata : prefix_data) : print_result :=
  if format = LY_VALUE_CANON ∨ format = LY_VALUE_JSON ∨ format = LY_VALUE_LYB then
    { ret := value._canonical, dynamic := some 0,
      value_len := some (value._canonical.getD "").length }
  else
    -- print the value in the specific format
    let a := identityref_ident2str ext ctx (value.ident.getD default) format pdata
    if a.1 ≠ LY_SUCCESS then { ret := none, dynamic := none, value_len := none }
    else { ret := a.2, dynamic := some 1, value_len := some (a.2.getD "").length }

/-! ## The library routines as the specification describes them

Used to build concrete contexts; the statements about the plugin code do not depend
on them. -/

/-- Modelled from the spec: the derivation walk of lyplg_type_identity_isderived, whose
body is not among the sources: `identity` equals `candidate-base` or one of its bases is
derived from it, walking the derived-from edges depth-first for at most `fuel` edges. -/
def ly_ctx.isderived_walk (ctx : ly_ctx) : Nat → ident_ptr → ident_ptr → Bool
  | 0, base, ident => decide (ident = base)
  | fuel + 1, base, ident =>
    decide (ident = base) || (ctx.ident_at ident).bases.any (fun b => ctx.isderived_walk fuel base b)

/-- The number of identities in the context: no walk over an acyclic registry is longer. -/
def ly_ctx.ident_count (ctx : ly_ctx) : Nat :=
  (ctx.modules.map (fun m => m.identities.length)).sum

/-- Modelled from the spec: lyplg_type_identity_isderived, whose body is not among the
sources: success iff `der` equals `base` or transitively derives from it. -/
def lyplg_type_identity_isderived (ctx : ly_ctx) (base der : ident_ptr) : LY_ERR :=
  if ctx.isderived_walk ctx.ident_count base der then LY_SUCCESS else LY_ENOTFOUND

/-- Modelled from the spec: the prefix-resolution function of a format, which is not
among the sources: the JSON, canonical and binary formats name a module by its name (an
unprefixed name belongs to the module of the schema node); the other formats look the
prefix up in the prefix data (an unprefixed name is looked up as the empty prefix). -/
def resolve_module (ctx : ly_ctx) (format : LY_VALUE_FORMAT) (pdata : prefix_data)
    (ctx_node : Option lysc_node) (pfx : Option String) : Option Nat :=
  let by_name : Option Nat := match pfx with
    | some p => ctx.modules.findIdx? (fun m => m.name = p)
    | none => ctx_node.map (fun n => n.module)
  match format with
  | LY_VALUE_CANON => by_name
  | LY_VALUE_JSON => by_name
  | LY_VALUE_LYB => by_name
  | _ => (pdata.find? (fun e => e.1 = pfx.getD "")).map (fun e => e.2)

/-- Splits `value` at its first colon into the prefix, if any, and the name. -/
def split_qname (value : String) : Option String × String :=
  match value.data.span (fun c => c ≠ ':') with
  | (name, []) => (none, String.mk name)
  | (pfx, _ :: name) => (some (String.mk pfx), String.mk name)

/-- Modelled from the spec: lyplg_type_identity_find (Find), whose body is not among
the sources: the prefix is resolved to a module by the format's prefix resolution and
the name is searched in that module's identity table. -/
def lyplg_type_identity_find (ctx : ly_ctx) (value : String) (format : LY_VALUE_FORMAT)
    (pdata : prefix_data) (ctx_node : Option lysc_node) : find_result :=
  let q := split_qname value
  match resolve_module ctx format pdata ctx_node q.1 with
  | none =>
    let e := ly_err_new LY_EVALID LYVE_DATA
      ("Invalid identityref \"" ++ value ++ "\" value - unable to map prefix to YANG schema.")
    { ret := e.1, ident := default, err := e.2 }
  | some m =>
    match (ctx.module_at m).identities.findIdx? (fun i => i.name = q.2) with
    | none =>
      let e := ly_err_new LY_EVALID LYVE_DATA
        ("Invalid identityref \"" ++ value ++ "\" value - identity not found in module \""
          ++ (ctx.module_at m).name ++ "\".")
      { ret := e.1, ident := default, err := e.2 }
    | some i => { ret := LY_SUCCESS, ident := { mod := m, index := i }, err := none }

/-- The library routines over a context as the specification describes them, for a run
in which no allocation fails and the hint and status checks pass; `disabled` lists the
identities whose if-feature evaluates to false. -/
def spec_externals (ctx : ly_ctx) (disabled : List ident_ptr) : externals where
  check_hints := fun _ _ _ => (LY_SUCCESS, none)
  identity_find := lyplg_type_identity_find ctx
  make_implemented := fun _ _ => LY_SUCCESS
  iffeature_value := fun i => if i ∈ disabled then LY_ENOT else LY_SUCCESS
  identity_isderived := lyplg_type_identity_isderived ctx
  check_status := fun _ _ _ _ _ => (LY_SUCCESS, none)
  module_prefix_in := fun m _ pdata => ((pdata.find? (fun e => e.2 = m)).map (fun e => e.1)).getD "(null)"
  asprintf_fails := fun _ => false
  lydict_insert := fun _ => LY_SUCCESS
  lydict_insert_zc := fun _ => LY_SUCCESS

/-! ## Rendering and concrete contexts used in the statements -/

/-- A base as the diagnostic of `identityref_check_base` writes it:
`"<module-name>:<identity-name>"`, in double quotes. -/
def quoted_base (ctx : ly_ctx) (b : ident_ptr) : String :=
  "\"" ++ ctx.ident_module_name b ++ ":" ++ ctx.ident_name b ++ "\""

/-- The call of `lyplg_type_check_status` the store callback makes when a schema node is
given. -/
def lyplg_type_store_identityref.status_events (ctx : ly_ctx) (ctx_node : Option lysc_node)
    (ident : ident_ptr) : List Event :=
  match ctx_node with
  | some _ => [Event.check_status (ctx.ident_at ident).flags (ctx.ident_name ident)]
  | none => []

/-- The calls the store callback has made when the base check returns. -/
def lyplg_type_store_identityref.checks_trace (ext : externals) (ctx : ly_ctx)
    (type : lysc_type_identityref) (value : String) (options : Nat) (unres : Nat)
    (format : LY_VALUE_FORMAT) (ident : ident_ptr) : List Event :=
  [Event.check_hints value] ++ [Event.identity_find value format]
    ++ (identityref_check_ident ext ctx ident value options unres).trace
    ++ identityref_check_base.calls ext ident type.bases

/-- The canonical string the store callback synthesizes for an identity:
`<module-name>:<identity-name>`. -/
def canonical_name (ctx : ly_ctx) (ident : ident_ptr) : String :=
  ctx.ident_module_name ident ++ ":" ++ ctx.ident_name ident

/-- One implemented module `m` with the identities `a`, `b` and `c`, where `c` is derived
from `a` alone. -/
def ctx_abc : ly_ctx :=
  { modules := [
      { name := "m", revision := "2020-01-01", implemented := true,
        identities := [
          { name := "a", flags := 0, bases := [] },
          { name := "b", flags := 0, bases := [] },
          { name := "c", flags := 0, bases := [{ mod := 0, index := 0 }] } ] } ] }

/-- The identity `m:a` of `ctx_abc`. -/
def ident_a : ident_ptr := { mod := 0, index := 0 }

/-- The identity `m:b` of `ctx_abc`. -/
def ident_b : ident_ptr := { mod := 0, index := 1 }

/-- The identity `m:c` of `ctx_abc`. -/
def ident_c : ident_ptr := { mod := 0, index := 2 }

/-- An identityref type with the two bases `m:b` and `m:a`, in this order. -/
def type_b_a : lysc_type_identityref := { addr := 100, basetype := 0, bases := [ident_b, ident_a] }

/-- An identityref type with the single base `m:a`. -/
def type_a : lysc_type_identityref := { addr := 101, basetype := 0, bases := [ident_a] }

/-- The context `ctx_abc` with its module `m` not implemented. -/
def ctx_abc_unimplemented : ly_ctx :=
  { modules := [
      { name := "m", revision := "2020-01-01", implemented := false,
        identities := [
          { name := "a", flags := 0, bases := [] },
          { name := "b", flags := 0, bases := [] },
          { name := "c", flags := 0, bases := [{ mod := 0, index := 0 }] } ] } ] }

/-- Modelled from the spec: the work the deferred resolver does for a queued module
once it is drained, which is not among the sources: the module becomes implemented. -/
def ly_ctx.implement (ctx : ly_ctx) (m : Nat) : ly_ctx :=
  { modules := go ctx.modules m }
where
  /-- Sets the flag of the module at the given index. -/
  go : List lys_module → Nat → List lys_module
    | [], _ => []
    | md :: rest, 0 => { md with implemented := true } :: rest
    | md :: rest, k + 1 => md :: go rest k

/-! ## The plugin record of the identityref type, lyplg_type_dup_simple -/

/-- What `lyplg_type_dup_simple` hands back: the return code and the duplicate, which
exists only when the canonical string has been interned. -/
structure dup_result where
  ret : LY_ERR
  dup : Option lyd_value
  deriving DecidableEq, Repr

/-- Modelled from the spec: lyplg_type_dup_simple, whose body is not among the sources:
a shallow copy of the type-descriptor reference and of the identity reference plus a new
interning of the canonical string (a null canonical string needs none). -/
def lyplg_type_dup_simple (ext : externals) (original : lyd_value) : dup_result :=
  let r := match original._canonical with
    | some canonical => ext.lydict_insert canonical
    | none => LY_SUCCESS
  if r = LY_SUCCESS then
    { ret := r,
      dup := some { realtype := original.realtype, ident := original.ident,
                    _canonical := original._canonical } }
  else { ret := r, dup := none }

/-- The callbacks and names of a `struct lyplg_type_record`; `none` is a `NULL` callback. -/
structure lyplg_type_record where
  module : String
  revision : Option String
  name : String
  id : String
  store : externals → ly_ctx → lysc_type_identityref → String → Nat → LY_VALUE_FORMAT →
    prefix_data → Nat → Option lysc_node → Nat → store_result
  validate : Option (lyd_value → LY_ERR)
  compare : lyd_value → lyd_value → LY_ERR
  sort : Option (lyd_value → lyd_value → Int)
  print : externals → ly_ctx → lyd_value → LY_VALUE_FORMAT → prefix_data → print_result
  duplicate : externals → lyd_value → dup_result
  free : lyd_value → lyd_value
  lyb_data_len : Int

/-- The first record of the array `plugins_identityref`. -/
def plugins_identityref : lyplg_type_record :=
  { module := "", revision := none, name := "identityref",
    id := "libyang 2 - identityref, version 1",
    store := lyplg_type_store_identityref,
    validate := none,
    compare := lyplg_type_compare_identityref,
    sort := none,
    print := lyplg_type_print_identityref,
    duplicate := lyplg_type_dup_simple,
    free := lyplg_type_free_simple,
    lyb_data_len := -1 }

/-! ## revision_label_scheme_compile -/

/-- The macro `REVISIONS_NAME`. -/
def REVISIONS_NAME : String := "ietf-yang-revisions"

/-- The macro `REVISIONS_REV`. -/
def REVISIONS_REV : String := "2021-11-04"

/-- Statement kinds (`enum ly_stmt`): the two the plugin tests for, some of the others,
and the rest by their code. -/
inductive ly_stmt where
  | LY_STMT_MODULE | LY_STMT_SUBMODULE | LY_STMT_IDENTITY | LY_STMT_CONTAINER | LY_STMT_LEAF
  | LY_STMT_OTHER (code : Nat)
  deriving DecidableEq, Repr, Inhabited

/-- Log levels (`LY_LOG_LEVEL`). -/
inductive LY_LOG_LEVEL where
  | LY_LLERR | LY_LLWRN | LY_LLVRB | LY_LLDBG
  deriving DecidableEq, Repr, Inhabited

open ly_stmt LY_LOG_LEVEL

/-- The field of `struct lysp_ext_instance` the plugin reads. -/
structure lysp_ext_instance where
  name : String
  deriving DecidableEq, Repr, Inhabited

/-- The fields of `struct lysc_ext_instance` the plugin reads and writes, with the
address of the instance; `«def»` is the address of the extension definition. -/
structure lysc_ext_instance where
  addr : Nat
  «def» : Nat
  argument : String
  parent_stmt : ly_stmt
  data : Option ident_ptr
  deriving DecidableEq, Repr, Inhabited

/-- What the plugin reads through `c_ext->parent` taken as a `struct lysc_module *`: the
array `exts` and `mod->parsed`, the parsed module, as prefix data. -/
structure lysc_module where
  exts : List lysc_ext_instance
  parsed : prefix_data
  deriving DecidableEq, Repr, Inhabited

/-- The compile context (`struct lysc_ctx`): the context and the current path. -/
structure lysc_ctx where
  ctx : ly_ctx
  path : String
  deriving DecidableEq, Repr, Inhabited

/-- Modelled from the spec: lysc_ctx_get_path, whose body is not among the sources: the
context path of the statement being compiled. -/
def lysc_ctx_get_path (cctx : lysc_ctx) : String := cctx.path

/-- Modelled from the spec: lysc_ctx_get_ctx, whose body is not among the sources. -/
def lysc_ctx_get_ctx (cctx : lysc_ctx) : ly_ctx := cctx.ctx

/-- Modelled from the spec: ly_ctx_get_module, whose body is not among the sources: the
module of the context with this name and revision, if there is one. -/
def ly_ctx_get_module (ctx : ly_ctx) (name revision : String) : Option Nat :=
  ctx.modules.findIdx? (fun m => decide (m.name = name ∧ m.revision = revision))

/-- The library routines only the extension plugin calls whose bodies are outside these
files. -/
structure compile_externals where
  /-- The call `ly_stmt2str(stmt)`. -/
  ly_stmt2str : ly_stmt → String
  /-- The return code of `lys_compile_extension_instance(cctx, p_ext, c_ext)`. -/
  lys_compile_extension_instance : lysp_ext_instance → lysc_ext_instance → LY_ERR

/-- What a `printf`-style routine prints for a format that is followed by no argument:
`%%` prints `%`; any other conversion reads an argument that is not there, which is
undefined (`none`). -/
def format_without_args : List Char → Option (List Char)
  | [] => some []
  | '%' :: '%' :: rest => (format_without_args rest).map (fun out => '%' :: out)
  | '%' :: _ => none
  | c :: rest => (format_without_args rest).map (fun out => c :: out)

/-- The message `lyplg_ext_log(..., err->msg)` prints: `err->msg` is the format and no
argument follows (`none`: the behaviour is undefined, also for a null `err`). -/
def log_message_of_err (err : Option ly_err_item) : Option String :=
  match err with
  | some e => (format_without_args e.msg.data).map String.mk
  | none => none

/-- The calls that leave `revision_label_scheme_compile`, as recorded in a trace; a call
of `lyplg_ext_log` is recorded with its level, error code, path and the message its
format and arguments give. -/
inductive ext_event where
  | lyplg_ext_log (level : LY_LOG_LEVEL) (err_no : LY_ERR) (path : String) (msg : Option String)
  | ly_ctx_get_module (name revision : String)
  | identity_find (value : String) (format : LY_VALUE_FORMAT) (pdata : prefix_data)
  | identity_isderived (base ident : ident_ptr)
  | ly_err_free
  | lys_compile_extension_instance (data : Option ident_ptr)
  deriving DecidableEq, Repr

/-- What `revision_label_scheme_compile` leaves: the return code, `*c_ext` and the calls
made. -/
structure compile_result where
  ret : LY_ERR
  c_ext : lysc_ext_instance
  trace : List ext_event
  deriving DecidableEq, Repr

/-- The loop "check for duplication" of `revision_label_scheme_compile`: whether it
reaches its `return`, for the entries of `mod_c->exts` from some index on. -/
def revision_label_scheme_compile.duplicated (c_ext : lysc_ext_instance) :
    List lysc_ext_instance → Bool
  | [] => false
  | e :: rest =>
    if e.addr ≠ c_ext.addr ∧ e.«def» = c_ext.«def» then true
    else revision_label_scheme_compile.duplicated c_ext rest

/-- The function `revision_label_scheme_compile` from "locate base identity" on; `parent`
is `*c_ext->parent`. -/
def revision_label_scheme_compile.from_base (ext : externals) (cx : compile_externals)
    (cctx : lysc_ctx) (p_ext : lysp_ext_instance) (c_ext : lysc_ext_instance)
    (parent : lysc_module) : compile_result :=
  -- locate base identity revision-label-scheme-base
  let tr := [ext_event.ly_ctx_get_module REVISIONS_NAME REVISIONS_REV]
  match ly_ctx_get_module (lysc_ctx_get_ctx cctx) REVISIONS_NAME REVISIONS_REV with
  | none => { ret := LY_EINT, c_ext := c_ext, trace := tr }
  | some mod =>
    let base : ident_ptr := { mod := mod, index := 0 }
    let f := ext.identity_find c_ext.argument LY_VALUE_SCHEMA parent.parsed none
    let tr := tr ++ [ext_event.identity_find c_ext.argument LY_VALUE_SCHEMA parent.parsed]
    if f.ret ≠ LY_SUCCESS then
      { ret := LY_EVALID, c_ext := c_ext,
        trace := tr ++ [ext_event.lyplg_ext_log LY_LLERR LY_EVALID (lysc_ctx_get_path cctx)
                          (log_message_of_err f.err),
                        ext_event.ly_err_free] }
    else
      let ident := f.ident
      let ret := ext.identity_isderived base ident
      let tr := tr ++ [ext_event.identity_isderived base ident]
      if ret ≠ LY_SUCCESS then
        { ret := LY_EVALID, c_ext := c_ext,
          trace := tr ++ [ext_event.lyplg_ext_log LY_LLERR LY_EVALID (lysc_ctx_get_path cctx)
            (some ("Argument of the " ++ p_ext.name
              ++ " extension must be an identity derived from "
              ++ (lysc_ctx_get_ctx cctx).ident_module_name base ++ ":"
              ++ (lysc_ctx_get_ctx cctx).ident_name base ++ "."))] }
      else
        -- store identity identifying revision-label scheme used by the module
        let c_ext := { c_ext with data := some ident }
        -- compile possible substatements
        { ret := cx.lys_compile_extension_instance p_ext c_ext, c_ext := c_ext,
          trace := tr ++ [ext_event.lys_compile_extension_instance c_ext.data] }

/-- The function `revision_label_scheme_compile`; `parent` is `*c_ext->parent`, read as a
`struct lysc_module` once the parent statement is known to be a module or submodule. -/
def revision_label_scheme_compile (ext : externals) (cx : compile_externals)
    (cctx : lysc_ctx) (p_ext : lysp_ext_instance) (c_ext : lysc_ext_instance)
    (parent : lysc_module) : compile_result :=
  -- revision-label-scheme can appear only at the top level of a YANG module or submodule
  if c_ext.parent_stmt ≠ LY_STMT_MODULE ∧ c_ext.parent_stmt ≠ LY_STMT_SUBMODULE then
    { ret := LY_EVALID, c_ext := c_ext,
      trace := [ext_event.lyplg_ext_log LY_LLERR LY_EVALID (lysc_ctx_get_path cctx)
        (some ("Extension " ++ p_ext.name
          ++ " is allowed only at the top level of a YANG module or submodule, but it is placed in \""
          ++ cx.ly_stmt2str c_ext.parent_stmt ++ "\" statement."))] }
  -- check for duplication
  else if revision_label_scheme_compile.duplicated c_ext parent.exts = true then
    { ret := LY_EVALID, c_ext := c_ext,
      trace := [ext_event.lyplg_ext_log LY_LLERR LY_EVALID (lysc_ctx_get_path cctx)
        (some ("Extension " ++ p_ext.name ++ " is instantiated multiple times."))] }
  else revision_label_scheme_compile.from_base ext cx cctx p_ext c_ext parent

/-- Modelled from the spec: the context path the schema compiler has set when it calls the
compile operation for an extension instance at the top level of a module, which is built
outside these sources: the module, the extension in curly-brace notation and the argument
of the instance, as in the paths the test expects
(`/aa:{extension='rev:revision-label-scheme'}/testver-scheme`). -/
def lysc_ctx.instance_path (module_name : String) (p_ext : lysp_ext_instance)
    (c_ext : lysc_ext_instance) : String :=
  "/" ++ module_name ++ ":\x7bextension=\x27" ++ p_ext.name ++ "\x27\x7d/" ++ c_ext.argument

/-! ## Concrete contexts for the extension plugin -/

/-- A context with `ietf-yang-revisions` (whose only identity is
`revision-label-scheme-base`), the module `a` of the test, whose identity
`testver-scheme` is derived from that base, and the module `aa` of the test, whose
identity `testver-scheme` has no base. -/
def ctx_rev : ly_ctx :=
  { modules := [
      { name := "ietf-yang-revisions", revision := "2021-11-04", implemented := true,
        identities := [ { name := "revision-label-scheme-base", flags := 0, bases := [] } ] },
      { name := "a", revision := "", implemented := true,
        identities := [ { name := "testver-scheme", flags := 0,
                          bases := [{ mod := 0, index := 0 }] } ] },
      { name := "aa", revision := "", implemented := true,
        identities := [ { name := "testver-scheme", flags := 0, bases := [] } ] } ] }

/-- The context `ctx_rev` without the module `ietf-yang-revisions`. -/
def ctx_without_revisions : ly_ctx :=
  { modules := [
      { name := "aa", revision := "", implemented := true,
        identities := [ { name := "testver-scheme", flags := 0, bases := [] } ] } ] }

/-- The extension instance as parsed: `rev:revision-label-scheme`. -/
def p_ext_rev : lysp_ext_instance := { name := "rev:revision-label-scheme" }

/-- The library routines of the compiler for the concrete runs: statement kinds by their
keywords, and a substatement compilation that succeeds. -/
def cx_rev : compile_externals :=
  { ly_stmt2str := fun s => match s with
      | LY_STMT_MODULE => "module"
      | LY_STMT_SUBMODULE => "submodule"
      | LY_STMT_IDENTITY => "identity"
      | LY_STMT_CONTAINER => "container"
      | LY_STMT_LEAF => "leaf"
      | LY_STMT_OTHER _ => "(unknown)",
    lys_compile_extension_instance := fun _ _ => LY_SUCCESS }

/-- The instance `rev:revision-label-scheme "testver-scheme";` at the top level of a
module. -/
def c_ext_testver : lysc_ext_instance :=
  { addr := 1000, «def» := 500, argument := "testver-scheme", parent_stmt := LY_STMT_MODULE,
    data := none }

/-- The compiled module `a` with that single instance; its prefixes: itself (also
unprefixed) and `rev` for `ietf-yang-revisions`. -/
def parent_a : lysc_module :=
  { exts := [c_ext_testver], parsed := [("", 1), ("a", 1), ("rev", 0)] }

/-- The compiled module `aa` with that single instance; its prefixes: itself (also
unprefixed) and `rev` for `ietf-yang-revisions`. -/
def parent_aa : lysc_module :=
  { exts := [c_ext_testver], parsed := [("", 2), ("aa", 2), ("rev", 0)] }

/-- The compile context of module `a` at the instance. -/
def cctx_a : lysc_ctx :=
  { ctx := ctx_rev,
    path := "/a:\x7bextension=\x27rev:revision-label-scheme\x27\x7d/testver-scheme" }

/-- The compile context of module `aa` at the instance. -/
def cctx_aa : lysc_ctx :=
  { ctx := ctx_rev,
    path := "/aa:\x7bextension=\x27rev:revision-label-scheme\x27\x7d/testver-scheme" }

/-- The instance `rev:revision-label-scheme "scheme-%%";` at the top level of a module:
an argument that names no identity and holds two percent signs. -/
def c_ext_percent : lysc_ext_instance :=
  { addr := 1000, «def» := 500, argument := "scheme-%%", parent_stmt := LY_STMT_MODULE,
    data := none }

/-- The compiled module `aa` with the single instance `c_ext_percent`. -/
def parent_aa_percent : lysc_module :=
  { exts := [c_ext_percent], parsed := [("", 2), ("aa", 2), ("rev", 0)] }

/-- The compile context of module `aa` at the instance `c_ext_percent`. -/
def cctx_aa_percent : lysc_ctx :=
  { ctx := ctx_rev,
    path := "/aa:\x7bextension=\x27rev:revision-label-scheme\x27\x7d/scheme-%%" }

/-- The compiled module `aa` of the context `ctx_without_revisions`, with the single
instance `c_ext_testver`. -/
def parent_without_revisions : lysc_module :=
  { exts := [c_ext_testver], parsed := [("", 0), ("aa", 0)] }

/-- The compile context of module `aa` at the instance, in `ctx_without_revisions`. -/
def cctx_without_revisions : lysc_ctx :=
  { ctx := ctx_without_revisions,
    path := "/aa:\x7bextension=\x27rev:revision-label-scheme\x27\x7d/testver-scheme" }

/-- One implemented module `m` with the identities `a`, `b` derived from `a`, and `c`
derived from `b`. -/
def ctx_chain : ly_ctx :=
  { modules := [
      { name := "m", revision := "2020-01-01", implemented := true,
        identities := [
          { name := "a", flags := 0, bases := [] },
          { name := "b", flags := 0, bases := [{ mod := 0, index := 0 }] },
          { name := "c", flags := 0, bases := [{ mod := 0, index := 1 }] } ] } ] }

/-- The instance `rev:revision-label-scheme "testver-scheme";` inside an `identity`
statement. -/
def c_ext_in_identity : lysc_ext_instance :=
  { addr := 1000, «def» := 500, argument := "testver-scheme", parent_stmt := LY_STMT_IDENTITY,
    data := none }

/-- A second instance of the same extension definition at the top level of the module. -/
def c_ext_second : lysc_ext_instance :=
  { addr := 1001, «def» := 500, argument := "testver-scheme", parent_stmt := LY_STMT_MODULE,
    data := none }

/-- The compiled module `aa` with the two instances `c_ext_testver` and `c_ext_second`. -/
def parent_aa_twice : lysc_module :=
  { exts := [c_ext_testver, c_ext_second], parsed := [("", 2), ("aa", 2), ("rev", 0)] }

/-- The context `ctx_abc` with the identity `c` marked obsolete (`LYS_STATUS_OBSLT`). -/
def ctx_abc_obsolete : ly_ctx :=
  { modules := [
      { name := "m", revision := "2020-01-01", implemented := true,
        identities := [
          { name := "a", flags := 0, bases := [] },
          { name := "b", flags := 0, bases := [] },
          { name := "c", flags := 0x10, bases := [{ mod := 0, index := 0 }] } ] } ] }

/-! ## The buffer of the second loop of identityref_check_base

The loop written once more with the memory it works on: `str` is a heap buffer of
`str_len` bytes, and a write that would pass its end has no result. A name is a C
string: one `Char` for each byte, none of them the null byte. The sizes are those of
objects that are in memory together, so the `size_t` additions do not wrap. -/

/-- The null byte that ends a C string. -/
def c_null : Char := Char.ofNat 0

/-- The call `strlen(buf)`: the number of bytes before the first null byte; no result
when a byte that was never written, or the end of the buffer, comes first. -/
def c_strlen : List (Option Char) → Option Nat
  | [] => none
  | none :: _ => none
  | some c :: rest => if c = c_null then some 0 else (c_strlen rest).map (fun n => n + 1)

/-- A call `ly_realloc(buf, size)` that succeeds (`buf` is `[]` for a null pointer): the
first `size` bytes are kept and the bytes added have not been written. -/
def ly_realloc (buf : List (Option Char)) (size : Nat) : List (Option Char) :=
  buf.take size ++ List.replicate (size - buf.length) none

/-- A call `sprintf(buf + off, ...)` that prints `text`: it writes the bytes of `text`
and a null byte from offset `off` on; no result when that passes the end of the
buffer. -/
def c_sprintf (buf : List (Option Char)) (off : Nat) (text : List Char) :
    Option (List (Option Char)) :=
  if off + text.length + 1 ≤ buf.length then
    some (buf.take off ++ text.map some ++ [some c_null] ++ buf.drop (off + text.length + 1))
  else none

/-- What the format `"%s\"%s:%s\""` prints for the base at index `u`. -/
def identityref_check_base.format (ctx : ly_ctx) (u : Nat) (base : ident_ptr) : String :=
  (if u ≠ 0 then ", " else "") ++ "\"" ++ ctx.ident_module_name base ++ ":"
    ++ ctx.ident_name base ++ "\""

/-- The second loop of `identityref_check_base` on the buffer: for the bases from index
`u` on, with the running `str_len` and the buffer `str`, returns `u`, `str_len` and the
buffer when the loop ends; no result when a `strlen` or a `sprintf` of the loop has
none. -/
def identityref_check_base.build_buffer (ctx : ly_ctx) :
    List ident_ptr → Nat → Nat → List (Option Char) → Option (Nat × Nat × List (Option Char))
  | [], u, str_len, str => some (u, str_len, str)
  | base :: rest, u, str_len, str =>
    let str_len := str_len + ((if u ≠ 0 then 2 else 0) + 1 + (ctx.ident_module_name base).length
      + 1 + (ctx.ident_name base).length + 1)
    let str := ly_realloc str str_len
    match (if u ≠ 0 then c_strlen str else some 0) with
    | none => none
    | some off =>
      match c_sprintf str off (identityref_check_base.format ctx u base).data with
      | none => none
      | some str => identityref_check_base.build_buffer ctx rest (u + 1) str_len str

/-- The bytes `str_len` grows by for the base at index `u`. -/
def identityref_check_base.size_of (ctx : ly_ctx) (u : Nat) (base : ident_ptr) : Nat :=
  (if u ≠ 0 then 2 else 0) + 1 + (ctx.ident_module_name base).length + 1
    + (ctx.ident_name base).length + 1

/-! # Theorems -/

/-! ## identityref_check_base -/

theorem identityref_check_base.scan_eq_iff (ext : externals) (ident : ident_ptr)
    (bs : List ident_ptr) (u : Nat) :
    identityref_check_base.scan ext ident bs u = u + bs.length ↔
      ∀ b ∈ bs, ext.identity_isderived b ident ≠ LY_SUCCESS := by
  induction bs generalizing u with
  | nil => simp [identityref_check_base.scan]
  | cons b bs ih =>
    simp only [identityref_check_base.scan, List.length_cons, List.mem_cons, forall_eq_or_imp]
    split
    · rename_i h
      constructor
      · intro h'; omega
      · intro h'; exact absurd h h'.1
    · rename_i h
      rw [show u + (bs.length + 1) = (u + 1) + bs.length by omega, ih (u + 1)]
      exact ⟨fun h' => ⟨h, h'⟩, fun h' => h'.2⟩

/-- The base check returns `LY_SUCCESS` or `LY_EVALID`. -/
theorem identityref_check_base_ret (ext : externals) (ctx : ly_ctx) (ident : ident_ptr)
    (type : lysc_type_identityref) (value : String) :
    (identityref_check_base ext ctx ident type value).1 = LY_SUCCESS ∨
      (identityref_check_base ext ctx ident type value).1 = LY_EVALID := by
  unfold identityref_check_base
  simp only [ly_err_new]
  split
  · split <;> simp
  · simp

/-- What the code does: the base check succeeds iff the identity is derived from at
least one base of the type. -/
theorem identityref_check_base_success_iff (ext : externals) (ctx : ly_ctx) (ident : ident_ptr)
    (type : lysc_type_identityref) (value : String) :
    (identityref_check_base ext ctx ident type value).1 = LY_SUCCESS ↔
      ∃ b ∈ type.bases, ext.identity_isderived b ident = LY_SUCCESS := by
  have hscan := identityref_check_base.scan_eq_iff ext ident type.bases 0
  simp only [Nat.zero_add] at hscan
  unfold identityref_check_base
  simp only [ly_err_new]
  split
  · rename_i h
    have hall := hscan.mp h
    constructor
    · intro h'; split at h' <;> simp at h'
    · rintro ⟨b, hb, hd⟩; exact absurd hd (hall b hb)
  · rename_i h
    simp only [true_iff]
    by_contra hne
    exact h (hscan.mpr (fun b hb hd => hne ⟨b, hb, hd⟩))

theorem identityref_check_base.build_fst (ctx : ly_ctx) (bs : List ident_ptr) (u n : Nat)
    (str : Option String) : (identityref_check_base.build ctx bs u n str).1 = u + bs.length := by
  induction bs generalizing u n str with
  | nil => simp [identityref_check_base.build]
  | cons b bs ih =>
    simp only [identityref_check_base.build, List.length_cons]
    rw [ih]; omega

theorem identityref_check_base.build_str_go (ctx : ly_ctx) (bs : List ident_ptr) (u n : Nat)
    (acc : String) (hu : u ≠ 0) :
    (identityref_check_base.build ctx bs u n (some acc)).2.2 =
      some (String.intercalate.go acc ", " (bs.map (quoted_base ctx))) := by
  induction bs generalizing u n acc with
  | nil => simp [identityref_check_base.build, String.intercalate.go]
  | cons b bs ih =>
    simp only [identityref_check_base.build, List.map_cons, String.intercalate.go]
    rw [ih _ _ _ (by omega)]
    simp only [identityref_check_base.sprintf, quoted_base, hu, ne_eq, not_false_eq_true,
      if_true, Option.getD_some, String.append_assoc]

/-- The string built by the second loop is the quoted bases joined by `", "`. -/
theorem identityref_check_base.build_str (ctx : ly_ctx) (b : ident_ptr) (bs : List ident_ptr) :
    (identityref_check_base.build ctx (b :: bs) 0 1 none).2.2 =
      some (", ".intercalate ((b :: bs).map (quoted_base ctx))) := by
  simp only [identityref_check_base.build, List.map_cons, String.intercalate]
  rw [identityref_check_base.build_str_go _ _ _ _ _ (by omega)]
  simp only [identityref_check_base.sprintf, quoted_base, ne_eq, not_true_eq_false, if_false,
    String.empty_append]

/-- C1: the base check accepts an identity that is derived from only one of the two bases
of the type: with bases `m:b` and `m:a`, the identity `m:c` (derived from `m:a`, not from
`m:b`) passes `identityref_check_base`, and the store callback stores it. -/
theorem identityref_check_base_accepts_identity_missing_a_base :
    lyplg_type_identity_isderived ctx_abc ident_b ident_c = LY_ENOTFOUND
    ∧ lyplg_type_identity_isderived ctx_abc ident_a ident_c = LY_SUCCESS
    ∧ identityref_check_base (spec_externals ctx_abc []) ctx_abc ident_c type_b_a "m:c"
        = (LY_SUCCESS, none)
    ∧ (lyplg_type_store_identityref (spec_externals ctx_abc []) ctx_abc type_b_a "m:c" 0
        LY_VALUE_JSON [] 0 none 0).ret = LY_SUCCESS := by
  decide

/-! ## lyplg_type_compare_identityref -/

/-- C2: the comparison returns `LY_ENOT` when the type descriptors differ, otherwise
`LY_SUCCESS` exactly when both values reference the same identity; replacing the canonical
strings of either value by any others does not change the result. -/
theorem lyplg_type_compare_identityref_spec (a b : lyd_value) :
    (a.realtype ≠ b.realtype → lyplg_type_compare_identityref a b = LY_ENOT)
    ∧ (a.realtype = b.realtype →
        (lyplg_type_compare_identityref a b = LY_SUCCESS ↔ a.ident = b.ident)
        ∧ (lyplg_type_compare_identityref a b = LY_ENOT ↔ a.ident ≠ b.ident))
    ∧ (∀ ca cb : Option String,
        lyplg_type_compare_identityref { a with _canonical := ca } { b with _canonical := cb }
          = lyplg_type_compare_identityref a b) := by
  refine ⟨?_, ?_, ?_⟩
  · intro h; simp [lyplg_type_compare_identityref, h]
  · intro h
    by_cases hi : a.ident = b.ident <;> simp [lyplg_type_compare_identityref, h, hi]
  · intro ca cb; rfl

/-! ## lyplg_type_store_identityref: how the body unfolds -/

theorem clear_dynamic_land (options : Nat) :
    clear_dynamic options &&& LYPLG_TYPE_STORE_DYNAMIC = 0 := by
  unfold clear_dynamic LYPLG_TYPE_STORE_DYNAMIC
  rw [Nat.and_assoc]
  simp

theorem lyplg_type_get_prefix_json (ext : externals) (ctx : ly_ctx) (ident : ident_ptr)
    (pdata : prefix_data) :
    ( lyplg_type_get_prefix ext ctx ident.mod LY_VALUE_JSON pdata) ++ ":" ++ ctx.ident_name ident
      = canonical_name ctx ident := rfl

/-- Case analysis over the ways the body of the store callback reaches `cleanup`: a
failure of one of the five checks, or the block that stores the canonical value. -/
theorem lyplg_type_store_identityref.body_cases (ext : externals) (ctx : ly_ctx)
    (type : lysc_type_identityref) (value : String) (options : Nat) (format : LY_VALUE_FORMAT)
    (pdata : prefix_data) (hints : Nat) (ctx_node : Option lysc_node) (unres : Nat) (P : store_result → Prop)
    (h_hints : (ext.check_hints hints value type.basetype).1 ≠ LY_SUCCESS →
      P { ret := (ext.check_hints hints value type.basetype).1,
          storage := { realtype := some type.addr, ident := none, _canonical := none },
          err := (ext.check_hints hints value type.basetype).2, options := options,
          trace := [Event.check_hints value] })
    (h_find : (ext.check_hints hints value type.basetype).1 = LY_SUCCESS →
      (ext.identity_find value format pdata ctx_node).ret ≠ LY_SUCCESS →
      P { ret := (ext.identity_find value format pdata ctx_node).ret,
          storage := { realtype := some type.addr, ident := none, _canonical := none },
          err := (ext.identity_find value format pdata ctx_node).err, options := options,
          trace := [Event.check_hints value] ++ [Event.identity_find value format] })
    (h_ident : (ext.check_hints hints value type.basetype).1 = LY_SUCCESS →
      (ext.identity_find value format pdata ctx_node).ret = LY_SUCCESS →
      (identityref_check_ident ext ctx (ext.identity_find value format pdata ctx_node).ident
        value options unres).ret ≠ LY_SUCCESS →
      P { ret := (identityref_check_ident ext ctx (ext.identity_find value format pdata ctx_node).ident
            value options unres).ret,
          storage := { realtype := some type.addr, ident := none, _canonical := none },
          err := (identityref_check_ident ext ctx (ext.identity_find value format pdata ctx_node).ident
            value options unres).err,
          options := options,
          trace := [Event.check_hints value] ++ [Event.identity_find value format]
            ++ (identityref_check_ident ext ctx (ext.identity_find value format pdata ctx_node).ident
                  value options unres).trace })
    (h_base : (ext.check_hints hints value type.basetype).1 = LY_SUCCESS →
      (ext.identity_find value format pdata ctx_node).ret = LY_SUCCESS →
      (identityref_check_ident ext ctx (ext.identity_find value format pdata ctx_node).ident
        value options unres).ret = LY_SUCCESS →
      (identityref_check_base ext ctx (ext.identity_find value format pdata ctx_node).ident type
        value).1 ≠ LY_SUCCESS →
      P { ret := (identityref_check_base ext ctx (ext.identity_find value format pdata ctx_node).ident
            type value).1,
          storage := { realtype := some type.addr, ident := none, _canonical := none },
          err := (identityref_check_base ext ctx (ext.identity_find value format pdata ctx_node).ident
            type value).2,
          options := options,
          trace := lyplg_type_store_identityref.checks_trace ext ctx type value options unres format
            (ext.identity_find value format pdata ctx_node).ident })
    (h_status : (ext.check_hints hints value type.basetype).1 = LY_SUCCESS →
      (ext.identity_find value format pdata ctx_node).ret = LY_SUCCESS →
      (identityref_check_ident ext ctx (ext.identity_find value format pdata ctx_node).ident
        value options unres).ret = LY_SUCCESS →
      (identityref_check_base ext ctx (ext.identity_find value format pdata ctx_node).ident type
        value).1 = LY_SUCCESS →
      ∀ node, ctx_node = some node →
      (ext.check_status node (ctx.ident_at (ext.identity_find value format pdata ctx_node).ident).flags
        format pdata (ctx.ident_name (ext.identity_find value format pdata ctx_node).ident)).1
          ≠ LY_SUCCESS →
      P { ret := (ext.check_status node
            (ctx.ident_at (ext.identity_find value format pdata ctx_node).ident).flags
            format pdata (ctx.ident_name (ext.identity_find value format pdata ctx_node).ident)).1,
          storage := { realtype := some type.addr, ident := none, _canonical := none },
          err := (ext.check_status node
            (ctx.ident_at (ext.identity_find value format pdata ctx_node).ident).flags
            format pdata (ctx.ident_name (ext.identity_find value format pdata ctx_node).ident)).2,
          options := options,
          trace := lyplg_type_store_identityref.checks_trace ext ctx type value options unres format
              (ext.identity_find value format pdata ctx_node).ident
            ++ lyplg_type_store_identityref.status_events ctx ctx_node
              (ext.identity_find value format pdata ctx_node).ident })
    (h_store : (ext.check_hints hints value type.basetype).1 = LY_SUCCESS →
      (ext.identity_find value format pdata ctx_node).ret = LY_SUCCESS →
      (identityref_check_ident ext ctx (ext.identity_find value format pdata ctx_node).ident
        value options unres).ret = LY_SUCCESS →
      (identityref_check_base ext ctx (ext.identity_find value format pdata ctx_node).ident type
        value).1 = LY_SUCCESS →
      (∀ node, ctx_node = some node →
        (ext.check_status node (ctx.ident_at (ext.identity_find value format pdata ctx_node).ident).flags
          format pdata (ctx.ident_name (ext.identity_find value format pdata ctx_node).ident)).1
            = LY_SUCCESS) →
      P (lyplg_type_store_identityref.store_canonical ext ctx value options format
          (ext.identity_find value format pdata ctx_node).ident
          { realtype := some type.addr,
            ident := some (ext.identity_find value format pdata ctx_node).ident,
            _canonical := none }
          (lyplg_type_store_identityref.checks_trace ext ctx type value options unres format
              (ext.identity_find value format pdata ctx_node).ident
            ++ lyplg_type_store_identityref.status_events ctx ctx_node
              (ext.identity_find value format pdata ctx_node).ident))) :
    P (lyplg_type_store_identityref.body ext ctx type value options format pdata hints ctx_node unres) := by
  unfold lyplg_type_store_identityref.body
  by_cases hh : (ext.check_hints hints value type.basetype).1 = LY_SUCCESS
  swap
  · simp only [ne_eq, hh, not_false_eq_true, if_true]; exact h_hints hh
  simp only [ne_eq, hh, not_true_eq_false, if_false]
  by_cases hf : (ext.identity_find value format pdata ctx_node).ret = LY_SUCCESS
  swap
  · simp only [hf, not_false_eq_true, if_true]; exact h_find hh hf
  simp only [hf, not_true_eq_false, if_false]
  unfold lyplg_type_store_identityref.from_ident
  by_cases hc : (identityref_check_ident ext ctx (ext.identity_find value format pdata ctx_node).ident
      value options unres).ret = LY_SUCCESS
  swap
  · simp only [ne_eq, hc, not_false_eq_true, if_true]; exact h_ident hh hf hc
  simp only [ne_eq, hc, not_true_eq_false, if_false]
  unfold lyplg_type_store_identityref.from_base
  by_cases hb : (identityref_check_base ext ctx (ext.identity_find value format pdata ctx_node).ident
      type value).1 = LY_SUCCESS
  swap
  · simp only [ne_eq, hb, not_false_eq_true, if_true]; exact h_base hh hf hc hb
  simp only [ne_eq, hb, not_true_eq_false, if_false]
  unfold lyplg_type_store_identityref.from_status
  cases ctx_node with
  | none =>
    have := h_store hh hf hc hb (by intro node h; cases h)
    simpa [lyplg_type_store_identityref.status_events,
      lyplg_type_store_identityref.checks_trace] using this
  | some node =>
    simp only
    by_cases hs : (ext.check_status node
        (ctx.ident_at (ext.identity_find value format pdata (some node)).ident).flags format pdata
        (ctx.ident_name (ext.identity_find value format pdata (some node)).ident)).1 = LY_SUCCESS
    · simp only [ne_eq, hs, not_true_eq_false, if_false]
      have := h_store hh hf hc hb (by intro n h; cases h; exact hs)
      simpa [lyplg_type_store_identityref.status_events,
        lyplg_type_store_identityref.checks_trace] using this
    · simp only [ne_eq, hs, not_false_eq_true, if_true]
      have := h_status hh hf hc hb node rfl hs
      simpa [lyplg_type_store_identityref.status_events,
        lyplg_type_store_identityref.checks_trace] using this

theorem lyplg_type_store_identityref.cleanup_ret (r : store_result) :
    (lyplg_type_store_identityref.cleanup r).ret = r.ret := by
  unfold lyplg_type_store_identityref.cleanup
  by_cases h : r.ret = LY_SUCCESS <;> simp [h]

theorem lyplg_type_store_identityref.cleanup_storage (r : store_result) :
    (lyplg_type_store_identityref.cleanup r).storage =
      if r.ret = LY_SUCCESS then r.storage else lyplg_type_free_simple r.storage := by
  unfold lyplg_type_store_identityref.cleanup
  by_cases h : r.ret = LY_SUCCESS <;> simp [h]

theorem lyplg_type_store_identityref.cleanup_trace (r : store_result) :
    (lyplg_type_store_identityref.cleanup r).trace =
      r.trace ++ (if r.options &&& LYPLG_TYPE_STORE_DYNAMIC ≠ 0 then [Event.free_value] else [])
        ++ (if r.ret = LY_SUCCESS then [] else [Event.free_simple r.storage._canonical]) := by
  unfold lyplg_type_store_identityref.cleanup
  by_cases h : r.ret = LY_SUCCESS <;>
    by_cases hd : r.options &&& LYPLG_TYPE_STORE_DYNAMIC = 0 <;> simp [h, hd]

theorem identityref_ident2str_eq (ext : externals) (ctx : ly_ctx) (ident : ident_ptr)
    (format : LY_VALUE_FORMAT) (pdata : prefix_data) :
    identityref_ident2str ext ctx ident format pdata =
      if ext.asprintf_fails
          (( lyplg_type_get_prefix ext ctx ident.mod format pdata) ++ ":" ++ ctx.ident_name ident)
      then (LY_EMEM, none)
      else (LY_SUCCESS,
        some (( lyplg_type_get_prefix ext ctx ident.mod format pdata) ++ ":" ++ ctx.ident_name ident)) :=
  rfl

/-- The block that stores the canonical value either fails and leaves the storage as it
was, or sets the canonical string: the input bytes in the canonical format, the
synthesized `<module-name>:<identity-name>` otherwise. -/
theorem lyplg_type_store_identityref.store_canonical_storage (ext : externals) (ctx : ly_ctx)
    (value : String) (options : Nat) (format : LY_VALUE_FORMAT) (ident : ident_ptr)
    (storage : lyd_value) (tr : List Event) :
    (lyplg_type_store_identityref.store_canonical ext ctx value options format ident storage tr).storage
      = if (lyplg_type_store_identityref.store_canonical ext ctx value options format ident storage
            tr).ret = LY_SUCCESS
        then { storage with
               _canonical := some (if format = LY_VALUE_CANON then value else canonical_name ctx ident) }
        else storage := by
  unfold lyplg_type_store_identityref.store_canonical
  rw [identityref_ident2str_eq, lyplg_type_get_prefix_json]
  by_cases hf : format = LY_VALUE_CANON
  · by_cases hd : options &&& LYPLG_TYPE_STORE_DYNAMIC = 0 <;> simp [hf, hd]
  · by_cases ha : ext.asprintf_fails (canonical_name ctx ident) = true <;> simp [hf, ha]

/-- The trace and the local `options` the block that stores the canonical value leaves. -/
theorem lyplg_type_store_identityref.store_canonical_trace (ext : externals) (ctx : ly_ctx)
    (value : String) (options : Nat) (format : LY_VALUE_FORMAT) (ident : ident_ptr)
    (storage : lyd_value) (tr : List Event) :
    (lyplg_type_store_identityref.store_canonical ext ctx value options format ident storage tr).trace
      = tr ++ (if format = LY_VALUE_CANON then
                if options &&& LYPLG_TYPE_STORE_DYNAMIC ≠ 0 then [Event.lydict_insert_zc value]
                else [Event.lydict_insert value]
              else if ext.asprintf_fails (canonical_name ctx ident) = true then
                [Event.asprintf (canonical_name ctx ident)]
              else [Event.asprintf (canonical_name ctx ident),
                    Event.lydict_insert_zc (canonical_name ctx ident)])
    ∧ (lyplg_type_store_identityref.store_canonical ext ctx value options format ident storage
          tr).options
      = (if format = LY_VALUE_CANON ∧ options &&& LYPLG_TYPE_STORE_DYNAMIC ≠ 0
          then clear_dynamic options else options) := by
  unfold lyplg_type_store_identityref.store_canonical
  rw [identityref_ident2str_eq, lyplg_type_get_prefix_json]
  by_cases hf : format = LY_VALUE_CANON
  · by_cases hd : options &&& LYPLG_TYPE_STORE_DYNAMIC = 0 <;> simp [hf, hd]
  · by_cases ha : ext.asprintf_fails (canonical_name ctx ident) = true <;> simp [hf, ha]

/-- The return code of the block that stores the canonical value. -/
theorem lyplg_type_store_identityref.store_canonical_ret (ext : externals) (ctx : ly_ctx)
    (value : String) (options : Nat) (format : LY_VALUE_FORMAT) (ident : ident_ptr)
    (storage : lyd_value) (tr : List Event) :
    (lyplg_type_store_identityref.store_canonical ext ctx value options format ident storage tr).ret
      = (if format = LY_VALUE_CANON then
          if options &&& LYPLG_TYPE_STORE_DYNAMIC ≠ 0 then ext.lydict_insert_zc value
          else ext.lydict_insert value
        else if ext.asprintf_fails (canonical_name ctx ident) = true then LY_EMEM
        else ext.lydict_insert_zc (canonical_name ctx ident)) := by
  unfold lyplg_type_store_identityref.store_canonical
  rw [identityref_ident2str_eq, lyplg_type_get_prefix_json]
  by_cases hf : format = LY_VALUE_CANON
  · by_cases hd : options &&& LYPLG_TYPE_STORE_DYNAMIC = 0 <;> simp [hf, hd]
  · by_cases ha : ext.asprintf_fails (canonical_name ctx ident) = true <;> simp [hf, ha]

/-- On success the store callback has filled the storage with the type descriptor, the
identity Find returned and the canonical string. -/
theorem lyplg_type_store_identityref.success_storage (ext : externals) (ctx : ly_ctx)
    (type : lysc_type_identityref) (value : String) (options : Nat) (format : LY_VALUE_FORMAT)
    (pdata : prefix_data) (hints : Nat) (ctx_node : Option lysc_node) (unres : Nat)
    (hok : (lyplg_type_store_identityref ext ctx type value options format pdata hints
      ctx_node unres).ret = LY_SUCCESS) :
    (lyplg_type_store_identityref ext ctx type value options format pdata hints ctx_node unres).storage
      = { realtype := some type.addr,
          ident := some (ext.identity_find value format pdata ctx_node).ident,
          _canonical := some (if format = LY_VALUE_CANON then value
            else canonical_name ctx (ext.identity_find value format pdata ctx_node).ident) } := by
  revert hok
  unfold lyplg_type_store_identityref
  rw [lyplg_type_store_identityref.cleanup_ret, lyplg_type_store_identityref.cleanup_storage]
  apply lyplg_type_store_identityref.body_cases ext ctx type value options format pdata hints ctx_node unres
    (fun b => b.ret = LY_SUCCESS → (if b.ret = LY_SUCCESS then b.storage
      else lyplg_type_free_simple b.storage) = _)
  · intro h1 h2; exact absurd h2 h1
  · intro _ h1 h2; exact absurd h2 h1
  · intro _ _ h1 h2; exact absurd h2 h1
  · intro _ _ _ h1 h2; exact absurd h2 h1
  · intro _ _ _ _ node _ h1 h2; exact absurd h2 h1
  · intro _ _ _ _ _ hok
    rw [if_pos hok, lyplg_type_store_identityref.store_canonical_storage, if_pos hok]

/-- On success in the canonical format the last call of the store callback is the
interning of the input bytes: `lydict_insert_zc` when `LYPLG_TYPE_STORE_DYNAMIC` is set
(the bytes are not freed afterwards), `lydict_insert` otherwise. -/
theorem lyplg_type_store_identityref.success_canon_trace (ext : externals) (ctx : ly_ctx)
    (type : lysc_type_identityref) (value : String) (options : Nat)
    (pdata : prefix_data) (hints : Nat) (ctx_node : Option lysc_node) (unres : Nat)
    (hok : (lyplg_type_store_identityref ext ctx type value options LY_VALUE_CANON pdata hints
      ctx_node unres).ret = LY_SUCCESS) :
    (lyplg_type_store_identityref ext ctx type value options LY_VALUE_CANON pdata hints
      ctx_node unres).trace.getLast?
      = some (if options &&& LYPLG_TYPE_STORE_DYNAMIC ≠ 0 then Event.lydict_insert_zc value
              else Event.lydict_insert value) := by
  revert hok
  unfold lyplg_type_store_identityref
  rw [lyplg_type_store_identityref.cleanup_ret, lyplg_type_store_identityref.cleanup_trace]
  apply lyplg_type_store_identityref.body_cases ext ctx type value options LY_VALUE_CANON pdata
    hints ctx_node unres
    (fun b => b.ret = LY_SUCCESS → (b.trace
      ++ (if b.options &&& LYPLG_TYPE_STORE_DYNAMIC ≠ 0 then [Event.free_value] else [])
      ++ (if b.ret = LY_SUCCESS then [] else [Event.free_simple b.storage._canonical])).getLast? = _)
  · intro h1 h2; exact absurd h2 h1
  · intro _ h1 h2; exact absurd h2 h1
  · intro _ _ h1 h2; exact absurd h2 h1
  · intro _ _ _ h1 h2; exact absurd h2 h1
  · intro _ _ _ _ node _ h1 h2; exact absurd h2 h1
  · intro _ _ _ _ _ hok
    rw [if_pos hok]
    rw [(lyplg_type_store_identityref.store_canonical_trace _ _ _ _ _ _ _ _).1,
      (lyplg_type_store_identityref.store_canonical_trace _ _ _ _ _ _ _ _).2]
    by_cases hd : options &&& LYPLG_TYPE_STORE_DYNAMIC = 0
    · simp [hd]
    · simp [hd, clear_dynamic_land]

/-- C3: after a successful store, the storage references the given type descriptor and
the identity Find resolved; in the canonical format its canonical string is the input
bytes, interned last by `lydict_insert_zc` (ownership taken) when
`LYPLG_TYPE_STORE_DYNAMIC` is set and by `lydict_insert` (a copy) otherwise; in every
other format it is `<module-name>:<identity-name>` of the resolved identity. -/
theorem lyplg_type_store_identityref_stored_value (ext : externals) (ctx : ly_ctx)
    (type : lysc_type_identityref) (value : String) (options : Nat) (format : LY_VALUE_FORMAT)
    (pdata : prefix_data) (hints : Nat) (ctx_node : Option lysc_node) (unres : Nat)
    (hok : (lyplg_type_store_identityref ext ctx type value options format pdata hints
      ctx_node unres).ret = LY_SUCCESS) :
    (lyplg_type_store_identityref ext ctx type value options format pdata hints
        ctx_node unres).storage.realtype = some type.addr
    ∧ (lyplg_type_store_identityref ext ctx type value options format pdata hints
        ctx_node unres).storage.ident = some (ext.identity_find value format pdata ctx_node).ident
    ∧ (format = LY_VALUE_CANON →
        (lyplg_type_store_identityref ext ctx type value options format pdata hints
          ctx_node unres).storage._canonical = some value
        ∧ (lyplg_type_store_identityref ext ctx type value options format pdata hints
            ctx_node unres).trace.getLast?
          = some (if options &&& LYPLG_TYPE_STORE_DYNAMIC ≠ 0 then Event.lydict_insert_zc value
                  else Event.lydict_insert value))
    ∧ (format ≠ LY_VALUE_CANON →
        (lyplg_type_store_identityref ext ctx type value options format pdata hints
          ctx_node unres).storage._canonical
          = some (ctx.ident_module_name (ext.identity_find value format pdata ctx_node).ident
              ++ ":" ++ ctx.ident_name (ext.identity_find value format pdata ctx_node).ident)) := by
  have hs := lyplg_type_store_identityref.success_storage ext ctx type value options format pdata
    hints ctx_node unres hok
  refine ⟨by rw [hs], by rw [hs], ?_, ?_⟩
  · intro hf
    subst hf
    refine ⟨by rw [hs]; simp, ?_⟩
    exact lyplg_type_store_identityref.success_canon_trace ext ctx type value options pdata hints
      ctx_node unres hok
  · intro hf
    rw [hs]; simp [hf, canonical_name]

/-- The claim C3 at a concrete call: `"x:c"` in the XML format, where the prefix `x`
stands for the module `m`, is stored with the canonical string `"m:c"`. -/
theorem lyplg_type_store_identityref_stored_value_witness :
    (lyplg_type_store_identityref (spec_externals ctx_abc []) ctx_abc type_a "x:c" 0
      LY_VALUE_XML [("x", 0)] 0 none 0).ret = LY_SUCCESS
    ∧ (lyplg_type_store_identityref (spec_externals ctx_abc []) ctx_abc type_a "x:c" 0
      LY_VALUE_XML [("x", 0)] 0 none 0).storage._canonical = some "m:c" :=
  ⟨by decide,
   (lyplg_type_store_identityref_stored_value (spec_externals ctx_abc []) ctx_abc type_a "x:c" 0
      LY_VALUE_XML [("x", 0)] 0 none 0 (by decide)).2.2.2 (by decide)⟩

/-! ## lyplg_type_print_identityref -/

/-- C4: a value stored successfully from canonical-format bytes prints, in the canonical
format, as exactly those bytes, with their length and with the dynamic flag cleared. -/
theorem lyplg_type_print_identityref_canon_roundtrip (ext : externals) (ctx : ly_ctx)
    (type : lysc_type_identityref) (value : String) (options : Nat)
    (pdata pdata' : prefix_data) (hints : Nat) (ctx_node : Option lysc_node) (unres : Nat)
    (hok : (lyplg_type_store_identityref ext ctx type value options LY_VALUE_CANON pdata hints
      ctx_node unres).ret = LY_SUCCESS) :
    lyplg_type_print_identityref ext ctx
      (lyplg_type_store_identityref ext ctx type value options LY_VALUE_CANON pdata hints
        ctx_node unres).storage LY_VALUE_CANON pdata'
      = { ret := some value, dynamic := some 0, value_len := some value.length } := by
  rw [lyplg_type_store_identityref.success_storage ext ctx type value options LY_VALUE_CANON pdata
    hints ctx_node unres hok]
  simp [lyplg_type_print_identityref]

/-- The claim C4 at a concrete call: the canonical bytes `"m:c"`, handed over with
`LYPLG_TYPE_STORE_DYNAMIC`, are printed back unchanged. -/
theorem lyplg_type_print_identityref_canon_roundtrip_witness :
    (lyplg_type_store_identityref (spec_externals ctx_abc []) ctx_abc type_a "m:c"
      LYPLG_TYPE_STORE_DYNAMIC LY_VALUE_CANON [] 0 none 0).ret = LY_SUCCESS
    ∧ lyplg_type_print_identityref (spec_externals ctx_abc []) ctx_abc
      (lyplg_type_store_identityref (spec_externals ctx_abc []) ctx_abc type_a "m:c"
        LYPLG_TYPE_STORE_DYNAMIC LY_VALUE_CANON [] 0 none 0).storage LY_VALUE_CANON []
      = { ret := some "m:c", dynamic := some 0, value_len := some 3 } :=
  ⟨by decide,
   lyplg_type_print_identityref_canon_roundtrip (spec_externals ctx_abc []) ctx_abc type_a "m:c"
      LYPLG_TYPE_STORE_DYNAMIC [] [] 0 none 0 (by decide)⟩

/-- C6: for the canonical, JSON and LYB target formats the print callback returns the
value's canonical string itself, whatever the prefix data, with its length and
`dynamic = 0`; for every other target format it returns the newly built string
`<prefix of the identity's module in the target format>:<identity-name>` with its length
and `dynamic = 1`, or `NULL` when building the string fails; so `dynamic` is 1 exactly
when the returned string is the newly built one. -/
theorem lyplg_type_print_identityref_spec (ext : externals) (ctx : ly_ctx)
    (realtype : Option Nat) (ident : ident_ptr) (canonical : String) (format : LY_VALUE_FORMAT)
    (pdata : prefix_data) :
    ((format = LY_VALUE_CANON ∨ format = LY_VALUE_JSON ∨ format = LY_VALUE_LYB) →
      lyplg_type_print_identityref ext ctx
        { realtype := realtype, ident := some ident, _canonical := some canonical } format pdata
        = { ret := some canonical, dynamic := some 0, value_len := some canonical.length })
    ∧ (¬ (format = LY_VALUE_CANON ∨ format = LY_VALUE_JSON ∨ format = LY_VALUE_LYB) →
        (ext.asprintf_fails (( lyplg_type_get_prefix ext ctx ident.mod format pdata) ++ ":"
            ++ ctx.ident_name ident) = false →
          lyplg_type_print_identityref ext ctx
            { realtype := realtype, ident := some ident, _canonical := some canonical } format pdata
            = { ret := some (( lyplg_type_get_prefix ext ctx ident.mod format pdata) ++ ":"
                  ++ ctx.ident_name ident),
                dynamic := some 1,
                value_len := some (( lyplg_type_get_prefix ext ctx ident.mod format pdata) ++ ":"
                  ++ ctx.ident_name ident).length })
        ∧ (ext.asprintf_fails (( lyplg_type_get_prefix ext ctx ident.mod format pdata) ++ ":"
            ++ ctx.ident_name ident) = true →
          lyplg_type_print_identityref ext ctx
            { realtype := realtype, ident := some ident, _canonical := some canonical } format pdata
            = { ret := none, dynamic := none, value_len := none }))
    ∧ ((lyplg_type_print_identityref ext ctx
          { realtype := realtype, ident := some ident, _canonical := some canonical } format
          pdata).dynamic = some 1
        ↔ ¬ (format = LY_VALUE_CANON ∨ format = LY_VALUE_JSON ∨ format = LY_VALUE_LYB)
          ∧ (lyplg_type_print_identityref ext ctx
              { realtype := realtype, ident := some ident, _canonical := some canonical } format
              pdata).ret
            = some (( lyplg_type_get_prefix ext ctx ident.mod format pdata) ++ ":"
                ++ ctx.ident_name ident)) := by
  unfold lyplg_type_print_identityref
  rw [identityref_ident2str_eq]
  by_cases hf : format = LY_VALUE_CANON ∨ format = LY_VALUE_JSON ∨ format = LY_VALUE_LYB
  · simp [hf]
  · by_cases ha : ext.asprintf_fails (( lyplg_type_get_prefix ext ctx ident.mod format pdata) ++ ":"
        ++ ctx.ident_name ident) = true
    · simp [hf, ha]
    · simp [hf, ha]

/-! ## The calls recorded in the trace -/

theorem identityref_check_base.mem_calls (ext : externals) (ident : ident_ptr)
    (bs : List ident_ptr) (e : Event) (he : e ∈ identityref_check_base.calls ext ident bs) :
    ∃ b ∈ bs, e = Event.identity_isderived b ident := by
  induction bs with
  | nil => simp [identityref_check_base.calls] at he
  | cons b bs ih =>
    simp only [identityref_check_base.calls, List.mem_cons] at he
    rcases he with he | he
    · exact ⟨b, by simp, he⟩
    · split at he
      · simp at he
      · obtain ⟨b', hb', h'⟩ := ih he
        exact ⟨b', by simp [hb'], h'⟩

theorem identityref_check_ident.mem_ident_trace (ext : externals) (ctx : ly_ctx) (ident : ident_ptr)
    (value : String) (options : Nat) (unres : Nat) (e : Event)
    (he : e ∈ (identityref_check_ident ext ctx ident value options unres).trace) :
    (e = Event.make_implemented ident.mod unres ∧ (ctx.module_at ident.mod).implemented = false
        ∧ options &&& LYPLG_TYPE_STORE_IMPLEMENT ≠ 0)
    ∨ (e = Event.iffeature_value ident ∧ (ctx.module_at ident.mod).implemented = true) := by
  unfold identityref_check_ident at he
  by_cases hi : (ctx.module_at ident.mod).implemented = false
  · by_cases ho : options &&& LYPLG_TYPE_STORE_IMPLEMENT = 0
    · simp [hi, ho] at he
    · simp [hi, ho] at he
      exact Or.inl ⟨he, hi, ho⟩
  · have hi' : (ctx.module_at ident.mod).implemented = true := by simpa using hi
    by_cases hv : ext.iffeature_value ident = LY_ENOT
    · simp [hi', hv] at he
      exact Or.inr ⟨he, hi'⟩
    · simp [hi', hv] at he
      exact Or.inr ⟨he, hi'⟩

/-- Every call recorded by the store callback is one of the calls of its source text,
and the calls of `identityref_check_ident` are those of that function. -/
theorem lyplg_type_store_identityref.mem_trace (ext : externals) (ctx : ly_ctx)
    (type : lysc_type_identityref) (value : String) (options : Nat) (format : LY_VALUE_FORMAT)
    (pdata : prefix_data) (hints : Nat) (ctx_node : Option lysc_node) (unres : Nat) (e : Event)
    (he : e ∈ (lyplg_type_store_identityref ext ctx type value options format pdata hints
      ctx_node unres).trace) :
    e = Event.check_hints value ∨ e = Event.identity_find value format
    ∨ e ∈ (identityref_check_ident ext ctx (ext.identity_find value format pdata ctx_node).ident
        value options unres).trace
    ∨ (∃ b, e = Event.identity_isderived b (ext.identity_find value format pdata ctx_node).ident)
    ∨ (∃ f n, e = Event.check_status f n) ∨ (∃ s, e = Event.asprintf s)
    ∨ (∃ s, e = Event.lydict_insert s) ∨ (∃ s, e = Event.lydict_insert_zc s)
    ∨ e = Event.free_value ∨ (∃ c, e = Event.free_simple c) := by
  revert he
  unfold lyplg_type_store_identityref
  rw [lyplg_type_store_identityref.cleanup_trace]
  have hcalls : ∀ e, e ∈ identityref_check_base.calls ext
      (ext.identity_find value format pdata ctx_node).ident type.bases →
      ∃ b, e = Event.identity_isderived b (ext.identity_find value format pdata ctx_node).ident := by
    intro e he
    obtain ⟨b, _, h⟩ := identityref_check_base.mem_calls _ _ _ _ he
    exact ⟨b, h⟩
  have hstat : ∀ e, e ∈ lyplg_type_store_identityref.status_events ctx ctx_node
      (ext.identity_find value format pdata ctx_node).ident → ∃ f n, e = Event.check_status f n := by
    intro e he
    unfold lyplg_type_store_identityref.status_events at he
    cases ctx_node <;> simp at he
    exact ⟨_, _, he⟩
  apply lyplg_type_store_identityref.body_cases ext ctx type value options format pdata hints
    ctx_node unres
    (fun b => e ∈ b.trace
      ++ (if b.options &&& LYPLG_TYPE_STORE_DYNAMIC ≠ 0 then [Event.free_value] else [])
      ++ (if b.ret = LY_SUCCESS then [] else [Event.free_simple b.storage._canonical]) →
      (e = Event.check_hints value ∨ e = Event.identity_find value format
      ∨ e ∈ (identityref_check_ident ext ctx (ext.identity_find value format pdata ctx_node).ident
          value options unres).trace
      ∨ (∃ b, e = Event.identity_isderived b (ext.identity_find value format pdata ctx_node).ident)
      ∨ (∃ f n, e = Event.check_status f n) ∨ (∃ s, e = Event.asprintf s)
      ∨ (∃ s, e = Event.lydict_insert s) ∨ (∃ s, e = Event.lydict_insert_zc s)
      ∨ e = Event.free_value ∨ (∃ c, e = Event.free_simple c)))
  · intro _ he
    simp only [List.mem_append, List.mem_singleton] at he
    rcases he with (he | he) | he
    · exact Or.inl he
    · split at he <;> simp at he; simp [he]
    · split at he <;> simp at he; simp [he]
  · intro _ _ he
    simp only [List.mem_append, List.mem_singleton] at he
    rcases he with ((he | he) | he) | he
    · exact Or.inl he
    · exact Or.inr (Or.inl he)
    · split at he <;> simp at he; simp [he]
    · split at he <;> simp at he; simp [he]
  · intro _ _ _ he
    simp only [List.mem_append, List.mem_singleton] at he
    rcases he with (((he | he) | he) | he) | he
    · exact Or.inl he
    · exact Or.inr (Or.inl he)
    · exact Or.inr (Or.inr (Or.inl he))
    · split at he <;> simp at he; simp [he]
    · split at he <;> simp at he; simp [he]
  · intro _ _ _ _ he
    simp only [lyplg_type_store_identityref.checks_trace, List.mem_append, List.mem_singleton] at he
    rcases he with ((((he | he) | he) | he) | he) | he
    · exact Or.inl he
    · exact Or.inr (Or.inl he)
    · exact Or.inr (Or.inr (Or.inl he))
    · exact Or.inr (Or.inr (Or.inr (Or.inl (hcalls e he))))
    · split at he <;> simp at he; simp [he]
    · split at he <;> simp at he; simp [he]
  · intro _ _ _ _ node _ _ he
    simp only [lyplg_type_store_identityref.checks_trace, List.mem_append, List.mem_singleton] at he
    rcases he with (((((he | he) | he) | he) | he) | he) | he
    · exact Or.inl he
    · exact Or.inr (Or.inl he)
    · exact Or.inr (Or.inr (Or.inl he))
    · exact Or.inr (Or.inr (Or.inr (Or.inl (hcalls e he))))
    · exact Or.inr (Or.inr (Or.inr (Or.inr (Or.inl (hstat e he)))))
    · split at he <;> simp at he; simp [he]
    · split at he <;> simp at he; simp [he]
  · intro _ _ _ _ _ he
    rw [(lyplg_type_store_identityref.store_canonical_trace _ _ _ _ _ _ _ _).1] at he
    simp only [lyplg_type_store_identityref.checks_trace, List.mem_append, List.mem_singleton] at he
    rcases he with ((((((he | he) | he) | he) | he) | he) | he) | he
    · exact Or.inl he
    · exact Or.inr (Or.inl he)
    · exact Or.inr (Or.inr (Or.inl he))
    · exact Or.inr (Or.inr (Or.inr (Or.inl (hcalls e he))))
    · exact Or.inr (Or.inr (Or.inr (Or.inr (Or.inl (hstat e he)))))
    · split at he
      · split at he <;> simp at he <;> simp [he]
      · split at he
        · simp at he; simp [he]
        · simp at he; rcases he with he | he <;> simp [he]
    · split at he <;> simp at he; simp [he]
    · split at he <;> simp at he; simp [he]

/-! ## identityref_check_ident -/

theorem identityref_check_ident.not_implemented_implement (ext : externals) (ctx : ly_ctx)
    (ident : ident_ptr) (value : String) (options : Nat) (unres : Nat)
    (hni : (ctx.module_at ident.mod).implemented = false)
    (ho : options &&& LYPLG_TYPE_STORE_IMPLEMENT ≠ 0) :
    identityref_check_ident ext ctx ident value options unres
      = { ret := ext.make_implemented ident.mod unres, err := none,
          trace := [Event.make_implemented ident.mod unres] } := by
  simp [identityref_check_ident, hni, ho]

theorem identityref_check_ident.not_implemented_plain (ext : externals) (ctx : ly_ctx)
    (ident : ident_ptr) (value : String) (options : Nat) (unres : Nat)
    (hni : (ctx.module_at ident.mod).implemented = false)
    (ho : options &&& LYPLG_TYPE_STORE_IMPLEMENT = 0) :
    identityref_check_ident ext ctx ident value options unres
      = { ret := LY_EVALID,
          err := some { no := LY_EVALID, vecode := LYVE_DATA,
                        msg := "Invalid identityref \"" ++ value
                          ++ "\" value - identity found in non-implemented module \""
                          ++ ctx.ident_module_name ident ++ "\"." },
          trace := [] } := by
  simp [identityref_check_ident, hni, ho, ly_err_new]

theorem identityref_check_ident.implemented_disabled (ext : externals) (ctx : ly_ctx)
    (ident : ident_ptr) (value : String) (options : Nat) (unres : Nat)
    (hi : (ctx.module_at ident.mod).implemented = true)
    (hv : ext.iffeature_value ident = LY_ENOT) :
    identityref_check_ident ext ctx ident value options unres
      = { ret := LY_EVALID,
          err := some { no := LY_EVALID, vecode := LYVE_DATA,
                        msg := "Invalid identityref \"" ++ value
                          ++ "\" value - identity is disabled by if-feature." },
          trace := [Event.iffeature_value ident] } := by
  simp [identityref_check_ident, hi, hv, ly_err_new]

/-! ## lyplg_type_store_identityref: the failure paths -/

/-- The store callback when `identityref_check_ident` fails. -/
theorem lyplg_type_store_identityref.ident_failure (ext : externals) (ctx : ly_ctx)
    (type : lysc_type_identityref) (value : String) (options : Nat) (format : LY_VALUE_FORMAT)
    (pdata : prefix_data) (hints : Nat) (ctx_node : Option lysc_node) (unres : Nat)
    (hh : (ext.check_hints hints value type.basetype).1 = LY_SUCCESS)
    (hf : (ext.identity_find value format pdata ctx_node).ret = LY_SUCCESS)
    (hc : (identityref_check_ident ext ctx (ext.identity_find value format pdata ctx_node).ident
      value options unres).ret ≠ LY_SUCCESS) :
    lyplg_type_store_identityref ext ctx type value options format pdata hints ctx_node unres
      = { ret := (identityref_check_ident ext ctx (ext.identity_find value format pdata ctx_node).ident
            value options unres).ret,
          storage := { realtype := some type.addr, ident := none, _canonical := none },
          err := (identityref_check_ident ext ctx (ext.identity_find value format pdata ctx_node).ident
            value options unres).err,
          options := options,
          trace := [Event.check_hints value, Event.identity_find value format]
            ++ (identityref_check_ident ext ctx (ext.identity_find value format pdata ctx_node).ident
                  value options unres).trace
            ++ (if options &&& LYPLG_TYPE_STORE_DYNAMIC ≠ 0 then [Event.free_value] else [])
            ++ [Event.free_simple none] } := by
  unfold lyplg_type_store_identityref lyplg_type_store_identityref.body
    lyplg_type_store_identityref.from_ident lyplg_type_store_identityref.cleanup
  by_cases hd : options &&& LYPLG_TYPE_STORE_DYNAMIC = 0 <;>
    simp [hh, hf, hc, hd, lyplg_type_free_simple]

/-- The store callback when `identityref_check_base` fails. -/
theorem lyplg_type_store_identityref.base_failure (ext : externals) (ctx : ly_ctx)
    (type : lysc_type_identityref) (value : String) (options : Nat) (format : LY_VALUE_FORMAT)
    (pdata : prefix_data) (hints : Nat) (ctx_node : Option lysc_node) (unres : Nat)
    (hh : (ext.check_hints hints value type.basetype).1 = LY_SUCCESS)
    (hf : (ext.identity_find value format pdata ctx_node).ret = LY_SUCCESS)
    (hc : (identityref_check_ident ext ctx (ext.identity_find value format pdata ctx_node).ident
      value options unres).ret = LY_SUCCESS)
    (hb : (identityref_check_base ext ctx (ext.identity_find value format pdata ctx_node).ident type
      value).1 ≠ LY_SUCCESS) :
    lyplg_type_store_identityref ext ctx type value options format pdata hints ctx_node unres
      = { ret := (identityref_check_base ext ctx (ext.identity_find value format pdata ctx_node).ident
            type value).1,
          storage := { realtype := some type.addr, ident := none, _canonical := none },
          err := (identityref_check_base ext ctx (ext.identity_find value format pdata ctx_node).ident
            type value).2,
          options := options,
          trace := lyplg_type_store_identityref.checks_trace ext ctx type value options unres format
              (ext.identity_find value format pdata ctx_node).ident
            ++ (if options &&& LYPLG_TYPE_STORE_DYNAMIC ≠ 0 then [Event.free_value] else [])
            ++ [Event.free_simple none] } := by
  unfold lyplg_type_store_identityref lyplg_type_store_identityref.body
    lyplg_type_store_identityref.from_ident lyplg_type_store_identityref.from_base
    lyplg_type_store_identityref.cleanup lyplg_type_store_identityref.checks_trace
  by_cases hd : options &&& LYPLG_TYPE_STORE_DYNAMIC = 0 <;>
    simp [hh, hf, hc, hb, hd, lyplg_type_free_simple]

/-- Once `identityref_check_ident` has succeeded, the trace of the store callback starts
with the calls up to and including those of the base check. -/
theorem lyplg_type_store_identityref.checks_trace_prefix (ext : externals) (ctx : ly_ctx)
    (type : lysc_type_identityref) (value : String) (options : Nat) (format : LY_VALUE_FORMAT)
    (pdata : prefix_data) (hints : Nat) (ctx_node : Option lysc_node) (unres : Nat)
    (hh : (ext.check_hints hints value type.basetype).1 = LY_SUCCESS)
    (hf : (ext.identity_find value format pdata ctx_node).ret = LY_SUCCESS)
    (hc : (identityref_check_ident ext ctx (ext.identity_find value format pdata ctx_node).ident
      value options unres).ret = LY_SUCCESS) :
    lyplg_type_store_identityref.checks_trace ext ctx type value options unres format
        (ext.identity_find value format pdata ctx_node).ident
      <+: (lyplg_type_store_identityref ext ctx type value options format pdata hints
        ctx_node unres).trace := by
  unfold lyplg_type_store_identityref
  rw [lyplg_type_store_identityref.cleanup_trace]
  apply lyplg_type_store_identityref.body_cases ext ctx type value options format pdata hints
    ctx_node unres
    (fun b => lyplg_type_store_identityref.checks_trace ext ctx type value options unres format
        (ext.identity_find value format pdata ctx_node).ident
      <+: b.trace
        ++ (if b.options &&& LYPLG_TYPE_STORE_DYNAMIC ≠ 0 then [Event.free_value] else [])
        ++ (if b.ret = LY_SUCCESS then [] else [Event.free_simple b.storage._canonical]))
  · intro h; exact absurd hh h
  · intro _ h; exact absurd hf h
  · intro _ _ h; exact absurd hc h
  · intro _ _ _ _
    simp only [List.append_assoc]
    exact List.prefix_append _ _
  · intro _ _ _ _ node _ _
    simp only [List.append_assoc]
    exact List.prefix_append _ _
  · intro _ _ _ _ _
    rw [(lyplg_type_store_identityref.store_canonical_trace _ _ _ _ _ _ _ _).1]
    simp only [List.append_assoc]
    exact List.prefix_append _ _

/-- The return code of a store that called the dictionary is the code of that call. -/
theorem lyplg_type_store_identityref.dict_event_ret (ext : externals) (ctx : ly_ctx)
    (type : lysc_type_identityref) (value : String) (options : Nat) (format : LY_VALUE_FORMAT)
    (pdata : prefix_data) (hints : Nat) (ctx_node : Option lysc_node) (unres : Nat) (s : String) :
    (Event.lydict_insert s ∈ (lyplg_type_store_identityref ext ctx type value options format pdata
        hints ctx_node unres).trace →
      (lyplg_type_store_identityref ext ctx type value options format pdata hints ctx_node unres).ret
        = ext.lydict_insert s)
    ∧ (Event.lydict_insert_zc s ∈ (lyplg_type_store_identityref ext ctx type value options format
        pdata hints ctx_node unres).trace →
      (lyplg_type_store_identityref ext ctx type value options format pdata hints ctx_node unres).ret
        = ext.lydict_insert_zc s) := by
  have hcalls : ∀ e, e ∈ identityref_check_base.calls ext
      (ext.identity_find value format pdata ctx_node).ident type.bases →
      ∃ b, e = Event.identity_isderived b (ext.identity_find value format pdata ctx_node).ident := by
    intro e he
    obtain ⟨b, _, h⟩ := identityref_check_base.mem_calls _ _ _ _ he
    exact ⟨b, h⟩
  have hident : ∀ e, e ∈ (identityref_check_ident ext ctx
      (ext.identity_find value format pdata ctx_node).ident value options unres).trace →
      (∃ m u, e = Event.make_implemented m u) ∨ (∃ i, e = Event.iffeature_value i) := by
    intro e he
    rcases identityref_check_ident.mem_ident_trace _ _ _ _ _ _ _ he with h | h
    · exact Or.inl ⟨_, _, h.1⟩
    · exact Or.inr ⟨_, h.1⟩
  have hchecks : ∀ e, e ∈ lyplg_type_store_identityref.checks_trace ext ctx type value options unres
      format (ext.identity_find value format pdata ctx_node).ident →
      (∀ s, e ≠ Event.lydict_insert s) ∧ (∀ s, e ≠ Event.lydict_insert_zc s) := by
    intro e he
    simp only [lyplg_type_store_identityref.checks_trace, List.mem_append, List.mem_singleton] at he
    rcases he with ((he | he) | he) | he
    · subst he; simp
    · subst he; simp
    · rcases hident e he with ⟨m, u, h⟩ | ⟨i, h⟩ <;> subst h <;> simp
    · obtain ⟨b, h⟩ := hcalls e he; subst h; simp
  have hstat : ∀ e, e ∈ lyplg_type_store_identityref.status_events ctx ctx_node
      (ext.identity_find value format pdata ctx_node).ident →
      (∀ s, e ≠ Event.lydict_insert s) ∧ (∀ s, e ≠ Event.lydict_insert_zc s) := by
    intro e he
    unfold lyplg_type_store_identityref.status_events at he
    cases ctx_node <;> simp at he
    subst he; simp
  have hdyn : ∀ (o : Nat) (e : Event),
      e ∈ (if o &&& LYPLG_TYPE_STORE_DYNAMIC ≠ 0 then [Event.free_value] else []) →
      (∀ s, e ≠ Event.lydict_insert s) ∧ (∀ s, e ≠ Event.lydict_insert_zc s) := by
    intro o e he
    split at he <;> simp at he
    subst he; simp
  have hfree : ∀ (r : LY_ERR) (c : Option String) (e : Event),
      e ∈ (if r = LY_SUCCESS then [] else [Event.free_simple c]) →
      (∀ s, e ≠ Event.lydict_insert s) ∧ (∀ s, e ≠ Event.lydict_insert_zc s) := by
    intro r c e he
    split at he <;> simp at he
    subst he; simp
  unfold lyplg_type_store_identityref
  rw [lyplg_type_store_identityref.cleanup_ret, lyplg_type_store_identityref.cleanup_trace]
  apply lyplg_type_store_identityref.body_cases ext ctx type value options format pdata hints
    ctx_node unres
    (fun b =>
      (Event.lydict_insert s ∈ b.trace
          ++ (if b.options &&& LYPLG_TYPE_STORE_DYNAMIC ≠ 0 then [Event.free_value] else [])
          ++ (if b.ret = LY_SUCCESS then [] else [Event.free_simple b.storage._canonical]) →
        b.ret = ext.lydict_insert s)
      ∧ (Event.lydict_insert_zc s ∈ b.trace
          ++ (if b.options &&& LYPLG_TYPE_STORE_DYNAMIC ≠ 0 then [Event.free_value] else [])
          ++ (if b.ret = LY_SUCCESS then [] else [Event.free_simple b.storage._canonical]) →
        b.ret = ext.lydict_insert_zc s))
  · intro _
    constructor <;> intro he <;> simp only [List.mem_append, List.mem_singleton] at he <;>
      rcases he with (he | he) | he
    · simp at he
    · exact absurd rfl ((hdyn _ _ he).1 s)
    · exact absurd rfl ((hfree _ _ _ he).1 s)
    · simp at he
    · exact absurd rfl ((hdyn _ _ he).2 s)
    · exact absurd rfl ((hfree _ _ _ he).2 s)
  · intro _ _
    constructor <;> intro he <;> simp only [List.mem_append, List.mem_singleton] at he <;>
      rcases he with ((he | he) | he) | he
    · simp at he
    · simp at he
    · exact absurd rfl ((hdyn _ _ he).1 s)
    · exact absurd rfl ((hfree _ _ _ he).1 s)
    · simp at he
    · simp at he
    · exact absurd rfl ((hdyn _ _ he).2 s)
    · exact absurd rfl ((hfree _ _ _ he).2 s)
  · intro _ _ _
    constructor <;> intro he <;> simp only [List.mem_append, List.mem_singleton] at he <;>
      rcases he with (((he | he) | he) | he) | he
    · simp at he
    · simp at he
    · rcases hident _ he with ⟨m, u, h⟩ | ⟨i, h⟩ <;> simp at h
    · exact absurd rfl ((hdyn _ _ he).1 s)
    · exact absurd rfl ((hfree _ _ _ he).1 s)
    · simp at he
    · simp at he
    · rcases hident _ he with ⟨m, u, h⟩ | ⟨i, h⟩ <;> simp at h
    · exact absurd rfl ((hdyn _ _ he).2 s)
    · exact absurd rfl ((hfree _ _ _ he).2 s)
  · intro _ _ _ _
    constructor <;> intro he <;> simp only [List.mem_append] at he <;>
      rcases he with (he | he) | he
    · exact absurd rfl ((hchecks _ he).1 s)
    · exact absurd rfl ((hdyn _ _ he).1 s)
    · exact absurd rfl ((hfree _ _ _ he).1 s)
    · exact absurd rfl ((hchecks _ he).2 s)
    · exact absurd rfl ((hdyn _ _ he).2 s)
    · exact absurd rfl ((hfree _ _ _ he).2 s)
  · intro _ _ _ _ node _ _
    constructor <;> intro he <;> simp only [List.mem_append] at he <;>
      rcases he with ((he | he) | he) | he
    · exact absurd rfl ((hchecks _ he).1 s)
    · exact absurd rfl ((hstat _ he).1 s)
    · exact absurd rfl ((hdyn _ _ he).1 s)
    · exact absurd rfl ((hfree _ _ _ he).1 s)
    · exact absurd rfl ((hchecks _ he).2 s)
    · exact absurd rfl ((hstat _ he).2 s)
    · exact absurd rfl ((hdyn _ _ he).2 s)
    · exact absurd rfl ((hfree _ _ _ he).2 s)
  · intro _ _ _ _ _
    rw [(lyplg_type_store_identityref.store_canonical_trace _ _ _ _ _ _ _ _).1,
      lyplg_type_store_identityref.store_canonical_ret]
    constructor <;> intro he <;> simp only [List.mem_append] at he <;>
      rcases he with (((he | he) | he) | he) | he
    · exact absurd rfl ((hchecks _ he).1 s)
    · exact absurd rfl ((hstat _ he).1 s)
    · by_cases hfm : format = LY_VALUE_CANON
      · by_cases hd : options &&& LYPLG_TYPE_STORE_DYNAMIC = 0
        · simp [hfm, hd] at he ⊢; rw [he]
        · simp [hfm, hd] at he
      · by_cases ha : ext.asprintf_fails (canonical_name ctx
            (ext.identity_find value format pdata ctx_node).ident) = true <;> simp [hfm, ha] at he
    · exact absurd rfl ((hdyn _ _ he).1 s)
    · exact absurd rfl ((hfree _ _ _ he).1 s)
    · exact absurd rfl ((hchecks _ he).2 s)
    · exact absurd rfl ((hstat _ he).2 s)
    · by_cases hfm : format = LY_VALUE_CANON
      · by_cases hd : options &&& LYPLG_TYPE_STORE_DYNAMIC = 0
        · simp [hfm, hd] at he
        · simp [hfm, hd] at he ⊢; rw [he]
      · by_cases ha : ext.asprintf_fails (canonical_name ctx
            (ext.identity_find value format pdata ctx_node).ident) = true
        · simp [hfm, ha] at he
        · simp [hfm, ha] at he ⊢; rw [he]
    · exact absurd rfl ((hdyn _ _ he).2 s)
    · exact absurd rfl ((hfree _ _ _ he).2 s)

theorem identityref_check_ident.ret_value (ext : externals) (ctx : ly_ctx) (ident : ident_ptr)
    (value value' : String) (options : Nat) (unres : Nat) :
    (identityref_check_ident ext ctx ident value options unres).ret
      = (identityref_check_ident ext ctx ident value' options unres).ret := by
  unfold identityref_check_ident
  by_cases hi : (ctx.module_at ident.mod).implemented = false
  · by_cases ho : options &&& LYPLG_TYPE_STORE_IMPLEMENT = 0 <;> simp [hi, ho, ly_err_new]
  · by_cases hv : ext.iffeature_value ident = LY_ENOT <;> simp [hi, hv, ly_err_new]

theorem identityref_check_base.ret_base_value (ext : externals) (ctx : ly_ctx) (ident : ident_ptr)
    (type : lysc_type_identityref) (value value' : String) :
    (identityref_check_base ext ctx ident type value).1 = LY_SUCCESS ↔
      (identityref_check_base ext ctx ident type value').1 = LY_SUCCESS := by
  rw [identityref_check_base_success_iff, identityref_check_base_success_iff]

/-- A successful store has passed every check. -/
theorem lyplg_type_store_identityref.success_checks (ext : externals) (ctx : ly_ctx)
    (type : lysc_type_identityref) (value : String) (options : Nat) (format : LY_VALUE_FORMAT)
    (pdata : prefix_data) (hints : Nat) (ctx_node : Option lysc_node) (unres : Nat)
    (hok : (lyplg_type_store_identityref ext ctx type value options format pdata hints
      ctx_node unres).ret = LY_SUCCESS) :
    (ext.check_hints hints value type.basetype).1 = LY_SUCCESS
    ∧ (ext.identity_find value format pdata ctx_node).ret = LY_SUCCESS
    ∧ (identityref_check_ident ext ctx (ext.identity_find value format pdata ctx_node).ident
        value options unres).ret = LY_SUCCESS
    ∧ (identityref_check_base ext ctx (ext.identity_find value format pdata ctx_node).ident type
        value).1 = LY_SUCCESS
    ∧ (∀ node, ctx_node = some node →
        (ext.check_status node (ctx.ident_at (ext.identity_find value format pdata ctx_node).ident).flags
          format pdata (ctx.ident_name (ext.identity_find value format pdata ctx_node).ident)).1
            = LY_SUCCESS)
    ∧ (lyplg_type_store_identityref.store_canonical ext ctx value options format
          (ext.identity_find value format pdata ctx_node).ident
          { realtype := some type.addr,
            ident := some (ext.identity_find value format pdata ctx_node).ident,
            _canonical := none }
          (lyplg_type_store_identityref.checks_trace ext ctx type value options unres format
              (ext.identity_find value format pdata ctx_node).ident
            ++ lyplg_type_store_identityref.status_events ctx ctx_node
              (ext.identity_find value format pdata ctx_node).ident)).ret = LY_SUCCESS := by
  revert hok
  unfold lyplg_type_store_identityref
  rw [lyplg_type_store_identityref.cleanup_ret]
  apply lyplg_type_store_identityref.body_cases ext ctx type value options format pdata hints
    ctx_node unres (fun b => b.ret = LY_SUCCESS → (
    (ext.check_hints hints value type.basetype).1 = LY_SUCCESS
    ∧ (ext.identity_find value format pdata ctx_node).ret = LY_SUCCESS
    ∧ (identityref_check_ident ext ctx (ext.identity_find value format pdata ctx_node).ident
        value options unres).ret = LY_SUCCESS
    ∧ (identityref_check_base ext ctx (ext.identity_find value format pdata ctx_node).ident type
        value).1 = LY_SUCCESS
    ∧ (∀ node, ctx_node = some node →
        (ext.check_status node (ctx.ident_at (ext.identity_find value format pdata ctx_node).ident).flags
          format pdata (ctx.ident_name (ext.identity_find value format pdata ctx_node).ident)).1
            = LY_SUCCESS)
    ∧ (lyplg_type_store_identityref.store_canonical ext ctx value options format
          (ext.identity_find value format pdata ctx_node).ident
          { realtype := some type.addr,
            ident := some (ext.identity_find value format pdata ctx_node).ident,
            _canonical := none }
          (lyplg_type_store_identityref.checks_trace ext ctx type value options unres format
              (ext.identity_find value format pdata ctx_node).ident
            ++ lyplg_type_store_identityref.status_events ctx ctx_node
              (ext.identity_find value format pdata ctx_node).ident)).ret = LY_SUCCESS))
  · intro h1 h2; exact absurd h2 h1
  · intro _ h1 h2; exact absurd h2 h1
  · intro _ _ h1 h2; exact absurd h2 h1
  · intro _ _ _ h1 h2; exact absurd h2 h1
  · intro _ _ _ _ node _ h1 h2; exact absurd h2 h1
  · intro h1 h2 h3 h4 h5 h6
    exact ⟨h1, h2, h3, h4, h5, h6⟩

/-- When every check passes, the return code of the store callback is that of the block
that stores the canonical value. -/
theorem lyplg_type_store_identityref.ret_of_checks (ext : externals) (ctx : ly_ctx)
    (type : lysc_type_identityref) (value : String) (options : Nat) (format : LY_VALUE_FORMAT)
    (pdata : prefix_data) (hints : Nat) (ctx_node : Option lysc_node) (unres : Nat)
    (hh : (ext.check_hints hints value type.basetype).1 = LY_SUCCESS)
    (hf : (ext.identity_find value format pdata ctx_node).ret = LY_SUCCESS)
    (hc : (identityref_check_ident ext ctx (ext.identity_find value format pdata ctx_node).ident
      value options unres).ret = LY_SUCCESS)
    (hb : (identityref_check_base ext ctx (ext.identity_find value format pdata ctx_node).ident type
      value).1 = LY_SUCCESS)
    (hs : ∀ node, ctx_node = some node →
      (ext.check_status node (ctx.ident_at (ext.identity_find value format pdata ctx_node).ident).flags
        format pdata (ctx.ident_name (ext.identity_find value format pdata ctx_node).ident)).1
          = LY_SUCCESS) :
    (lyplg_type_store_identityref ext ctx type value options format pdata hints ctx_node unres).ret
      = (if format = LY_VALUE_CANON then
          if options &&& LYPLG_TYPE_STORE_DYNAMIC ≠ 0 then ext.lydict_insert_zc value
          else ext.lydict_insert value
        else if ext.asprintf_fails
            (canonical_name ctx (ext.identity_find value format pdata ctx_node).ident) = true
          then LY_EMEM
        else ext.lydict_insert_zc
          (canonical_name ctx (ext.identity_find value format pdata ctx_node).ident)) := by
  unfold lyplg_type_store_identityref
  rw [lyplg_type_store_identityref.cleanup_ret]
  apply lyplg_type_store_identityref.body_cases ext ctx type value options format pdata hints
    ctx_node unres (fun b => b.ret = _)
  · intro h; exact absurd hh h
  · intro _ h; exact absurd hf h
  · intro _ _ h; exact absurd hc h
  · intro _ _ _ h; exact absurd hb h
  · intro _ _ _ _ node hn h; exact absurd (hs node hn) h
  · intro _ _ _ _ _
    exact lyplg_type_store_identityref.store_canonical_ret _ _ _ _ _ _ _ _

/-! ## The claims about the checks of the store callback -/

/-- C7: when the hint check and Find succeed and the module of the resolved identity is
not implemented: with `LYPLG_TYPE_STORE_IMPLEMENT` the module is passed, with the
caller's `unres`, to `lyplg_type_make_implemented`; a failure of that call is returned,
and after its success the store goes on with the remaining checks (the calls of the base
check follow in the trace, a failing base check decides the result, and when the base and
status checks pass the result is that of the interning). Without the option the store
fails with `LY_EVALID` and the non-implemented-module message and never calls
`lyplg_type_make_implemented`. -/
theorem lyplg_type_store_identityref_nonimplemented_module (ext : externals) (ctx : ly_ctx)
    (type : lysc_type_identityref) (value : String) (options : Nat) (format : LY_VALUE_FORMAT)
    (pdata : prefix_data) (hints : Nat) (ctx_node : Option lysc_node) (unres : Nat)
    (hh : (ext.check_hints hints value type.basetype).1 = LY_SUCCESS)
    (hf : (ext.identity_find value format pdata ctx_node).ret = LY_SUCCESS)
    (hni : (ctx.module_at (ext.identity_find value format pdata ctx_node).ident.mod).implemented
      = false) :
    (options &&& LYPLG_TYPE_STORE_IMPLEMENT ≠ 0 →
      Event.make_implemented (ext.identity_find value format pdata ctx_node).ident.mod unres
        ∈ (lyplg_type_store_identityref ext ctx type value options format pdata hints ctx_node unres).trace
      ∧ (ext.make_implemented (ext.identity_find value format pdata ctx_node).ident.mod unres ≠ LY_SUCCESS →
          (lyplg_type_store_identityref ext ctx type value options format pdata hints ctx_node unres).ret
            = ext.make_implemented (ext.identity_find value format pdata ctx_node).ident.mod unres)
      ∧ (ext.make_implemented (ext.identity_find value format pdata ctx_node).ident.mod unres = LY_SUCCESS →
          ([Event.check_hints value, Event.identity_find value format,
              Event.make_implemented (ext.identity_find value format pdata ctx_node).ident.mod unres]
            ++ identityref_check_base.calls ext (ext.identity_find value format pdata ctx_node).ident
                type.bases)
            <+: (lyplg_type_store_identityref ext ctx type value options format pdata hints
                  ctx_node unres).trace
          ∧ ((identityref_check_base ext ctx (ext.identity_find value format pdata ctx_node).ident
                type value).1 ≠ LY_SUCCESS →
              (lyplg_type_store_identityref ext ctx type value options format pdata hints
                  ctx_node unres).ret
                = (identityref_check_base ext ctx (ext.identity_find value format pdata ctx_node).ident
                    type value).1
              ∧ (lyplg_type_store_identityref ext ctx type value options format pdata hints
                  ctx_node unres).err
                = (identityref_check_base ext ctx (ext.identity_find value format pdata ctx_node).ident
                    type value).2)
          ∧ ((identityref_check_base ext ctx (ext.identity_find value format pdata ctx_node).ident
                type value).1 = LY_SUCCESS →
              (∀ node, ctx_node = some node →
                (ext.check_status node
                  (ctx.ident_at (ext.identity_find value format pdata ctx_node).ident).flags format
                  pdata (ctx.ident_name (ext.identity_find value format pdata ctx_node).ident)).1
                  = LY_SUCCESS) →
              (lyplg_type_store_identityref ext ctx type value options format pdata hints
                  ctx_node unres).ret
                = (if format = LY_VALUE_CANON then
                    if options &&& LYPLG_TYPE_STORE_DYNAMIC ≠ 0 then ext.lydict_insert_zc value
                    else ext.lydict_insert value
                  else if ext.asprintf_fails
                      (canonical_name ctx (ext.identity_find value format pdata ctx_node).ident) = true
                    then LY_EMEM
                  else ext.lydict_insert_zc
                    (canonical_name ctx (ext.identity_find value format pdata ctx_node).ident)))))
    ∧ (options &&& LYPLG_TYPE_STORE_IMPLEMENT = 0 →
      (lyplg_type_store_identityref ext ctx type value options format pdata hints ctx_node unres).ret
        = LY_EVALID
      ∧ (lyplg_type_store_identityref ext ctx type value options format pdata hints ctx_node unres).err
        = some { no := LY_EVALID, vecode := LYVE_DATA,
                 msg := "Invalid identityref \"" ++ value
                   ++ "\" value - identity found in non-implemented module \""
                   ++ ctx.ident_module_name (ext.identity_find value format pdata ctx_node).ident
                   ++ "\"." }
      ∧ ∀ m u, Event.make_implemented m u
          ∉ (lyplg_type_store_identityref ext ctx type value options format pdata hints
              ctx_node unres).trace) := by
  constructor
  · intro ho
    have hci := identityref_check_ident.not_implemented_implement ext ctx
      (ext.identity_find value format pdata ctx_node).ident value options unres hni ho
    have hfail : ext.make_implemented (ext.identity_find value format pdata ctx_node).ident.mod unres
        ≠ LY_SUCCESS →
        lyplg_type_store_identityref ext ctx type value options format pdata hints ctx_node unres
          = _ := fun hm =>
      lyplg_type_store_identityref.ident_failure ext ctx type value options format pdata hints
        ctx_node unres hh hf (by rw [hci]; exact hm)
    have hpre : ext.make_implemented (ext.identity_find value format pdata ctx_node).ident.mod unres
        = LY_SUCCESS → _ := fun hm =>
      lyplg_type_store_identityref.checks_trace_prefix ext ctx type value options format pdata
        hints ctx_node unres hh hf (by rw [hci]; exact hm)
    refine ⟨?_, ?_, ?_⟩
    · by_cases hm : ext.make_implemented (ext.identity_find value format pdata ctx_node).ident.mod unres
          = LY_SUCCESS
      · apply (hpre hm).subset
        simp [lyplg_type_store_identityref.checks_trace, hci]
      · rw [hfail hm, hci]; simp
    · intro hm
      rw [hfail hm, hci]
    · intro hm
      refine ⟨?_, ?_, ?_⟩
      · have := hpre hm
        simpa [lyplg_type_store_identityref.checks_trace, hci] using this
      · intro hb
        rw [lyplg_type_store_identityref.base_failure ext ctx type value options format pdata
          hints ctx_node unres hh hf (by rw [hci]; exact hm) hb]
        exact ⟨rfl, rfl⟩
      · intro hb hs
        exact lyplg_type_store_identityref.ret_of_checks ext ctx type value options format pdata
          hints ctx_node unres hh hf (by rw [hci]; exact hm) hb hs
  · intro ho
    have hci := identityref_check_ident.not_implemented_plain ext ctx
      (ext.identity_find value format pdata ctx_node).ident value options unres hni ho
    rw [lyplg_type_store_identityref.ident_failure ext ctx type value options format pdata hints
      ctx_node unres hh hf (by rw [hci]; simp), hci]
    refine ⟨rfl, rfl, ?_⟩
    intro m
    by_cases hd : options &&& LYPLG_TYPE_STORE_DYNAMIC = 0 <;> simp [hd]

/-- The claim C7 at a concrete call: `"x:c"` names an identity of the non-implemented
module `m`; without `LYPLG_TYPE_STORE_IMPLEMENT` the store returns `LY_EVALID`. -/
theorem lyplg_type_store_identityref_nonimplemented_module_witness :
    (lyplg_type_store_identityref (spec_externals ctx_abc_unimplemented []) ctx_abc_unimplemented
      type_a "x:c" 0 LY_VALUE_XML [("x", 0)] 0 none 0).ret = LY_EVALID :=
  ((lyplg_type_store_identityref_nonimplemented_module (spec_externals ctx_abc_unimplemented [])
      ctx_abc_unimplemented type_a "x:c" 0 LY_VALUE_XML [("x", 0)] 0 none 0
      (by decide) (by decide) (by decide)).2 (by decide)).1

/-- C8: an identity disabled by if-feature (`lys_identity_iffeature_value` returns
`LY_ENOT`), in a module that is not implemented, is stored successfully when
`LYPLG_TYPE_STORE_IMPLEMENT` is set: the hint check and Find succeed, and the store
returns `LY_SUCCESS` although `identityref_check_ident` is documented to check that the
identity is not disabled. -/
theorem lyplg_type_store_identityref_stores_disabled_identity :
    ((spec_externals ctx_abc_unimplemented [ident_c]).check_hints 0 "x:c" type_a.basetype).1
      = LY_SUCCESS
    ∧ (spec_externals ctx_abc_unimplemented [ident_c]).identity_find "x:c" LY_VALUE_XML [("x", 0)] none
      = { ret := LY_SUCCESS, ident := ident_c, err := none }
    ∧ (spec_externals ctx_abc_unimplemented [ident_c]).iffeature_value ident_c = LY_ENOT
    ∧ (lyplg_type_store_identityref (spec_externals ctx_abc_unimplemented [ident_c])
        ctx_abc_unimplemented type_a "x:c" LYPLG_TYPE_STORE_IMPLEMENT LY_VALUE_XML [("x", 0)] 0
        none 0).ret = LY_SUCCESS
    ∧ (ctx_abc_unimplemented.module_at ident_c.mod).implemented = false
    ∧ (lyplg_type_store_identityref (spec_externals ctx_abc_unimplemented [ident_c])
        ctx_abc_unimplemented type_a "x:c" LYPLG_TYPE_STORE_IMPLEMENT LY_VALUE_XML [("x", 0)] 0
        none 0).storage.ident = some ident_c
    ∧ Event.iffeature_value ident_c
        ∉ (lyplg_type_store_identityref (spec_externals ctx_abc_unimplemented [ident_c])
            ctx_abc_unimplemented type_a "x:c" LYPLG_TYPE_STORE_IMPLEMENT LY_VALUE_XML [("x", 0)]
            0 none 0).trace := by
  decide

/-- What the store callback does for an identity disabled by if-feature, when the hint
check and Find succeed: it fails with `LY_EVALID` and the message 'identity is disabled by
if-feature' if the identity's module is implemented, and with `LY_EVALID` and the
non-implemented-module message if the module is not implemented and
`LYPLG_TYPE_STORE_IMPLEMENT` is not set; if the module is not implemented and the option
is set, `lys_identity_iffeature_value` is not called at all. -/
theorem lyplg_type_store_identityref_disabled_identity (ext : externals) (ctx : ly_ctx)
    (type : lysc_type_identityref) (value : String) (options : Nat) (format : LY_VALUE_FORMAT)
    (pdata : prefix_data) (hints : Nat) (ctx_node : Option lysc_node) (unres : Nat)
    (hh : (ext.check_hints hints value type.basetype).1 = LY_SUCCESS)
    (hf : (ext.identity_find value format pdata ctx_node).ret = LY_SUCCESS)
    (hv : ext.iffeature_value (ext.identity_find value format pdata ctx_node).ident = LY_ENOT) :
    ((ctx.module_at (ext.identity_find value format pdata ctx_node).ident.mod).implemented = true →
      (lyplg_type_store_identityref ext ctx type value options format pdata hints ctx_node unres).ret
        = LY_EVALID
      ∧ (lyplg_type_store_identityref ext ctx type value options format pdata hints ctx_node unres).err
        = some { no := LY_EVALID, vecode := LYVE_DATA,
                 msg := "Invalid identityref \"" ++ value
                   ++ "\" value - identity is disabled by if-feature." })
    ∧ ((ctx.module_at (ext.identity_find value format pdata ctx_node).ident.mod).implemented = false →
        options &&& LYPLG_TYPE_STORE_IMPLEMENT = 0 →
      (lyplg_type_store_identityref ext ctx type value options format pdata hints ctx_node unres).ret
        = LY_EVALID
      ∧ (lyplg_type_store_identityref ext ctx type value options format pdata hints ctx_node unres).err
        = some { no := LY_EVALID, vecode := LYVE_DATA,
                 msg := "Invalid identityref \"" ++ value
                   ++ "\" value - identity found in non-implemented module \""
                   ++ ctx.ident_module_name (ext.identity_find value format pdata ctx_node).ident
                   ++ "\"." })
    ∧ ((ctx.module_at (ext.identity_find value format pdata ctx_node).ident.mod).implemented = false →
        options &&& LYPLG_TYPE_STORE_IMPLEMENT ≠ 0 →
      ∀ i, Event.iffeature_value i
        ∉ (lyplg_type_store_identityref ext ctx type value options format pdata hints
            ctx_node unres).trace) := by
  refine ⟨?_, ?_, ?_⟩
  · intro hi
    have hci := identityref_check_ident.implemented_disabled ext ctx
      (ext.identity_find value format pdata ctx_node).ident value options unres hi hv
    rw [lyplg_type_store_identityref.ident_failure ext ctx type value options format pdata hints
      ctx_node unres hh hf (by rw [hci]; simp), hci]
    exact ⟨rfl, rfl⟩
  · intro hni ho
    have hci := identityref_check_ident.not_implemented_plain ext ctx
      (ext.identity_find value format pdata ctx_node).ident value options unres hni ho
    rw [lyplg_type_store_identityref.ident_failure ext ctx type value options format pdata hints
      ctx_node unres hh hf (by rw [hci]; simp), hci]
    exact ⟨rfl, rfl⟩
  · intro hni ho i hmem
    have hci := identityref_check_ident.not_implemented_implement ext ctx
      (ext.identity_find value format pdata ctx_node).ident value options unres hni ho
    have := lyplg_type_store_identityref.mem_trace ext ctx type value options format pdata hints
      ctx_node unres _ hmem
    rw [hci] at this
    simp at this

/-- The store of a disabled identity at a concrete call: `m:c`, disabled by if-feature in the
implemented module `m`, is refused with `LY_EVALID`. -/
theorem lyplg_type_store_identityref_disabled_identity_witness :
    (lyplg_type_store_identityref (spec_externals ctx_abc [ident_c]) ctx_abc type_a "m:c" 0
      LY_VALUE_JSON [] 0 none 0).ret = LY_EVALID :=
  ((lyplg_type_store_identityref_disabled_identity (spec_externals ctx_abc [ident_c]) ctx_abc
      type_a "m:c" 0 LY_VALUE_JSON [] 0 none 0 (by decide) (by decide) (by decide)).1
    (by decide)).1

/-- C9: whenever the store callback returns a failure, `lyplg_type_free_simple` has been
applied to the storage as its last action, the storage holds no canonical string (and
held none before the release), and every dictionary insertion the call attempted has
failed, so nothing interned by the call is left behind. -/
theorem lyplg_type_store_identityref_failure_releases (ext : externals) (ctx : ly_ctx)
    (type : lysc_type_identityref) (value : String) (options : Nat) (format : LY_VALUE_FORMAT)
    (pdata : prefix_data) (hints : Nat) (ctx_node : Option lysc_node) (unres : Nat)
    (hfail : (lyplg_type_store_identityref ext ctx type value options format pdata hints
      ctx_node unres).ret ≠ LY_SUCCESS) :
    (lyplg_type_store_identityref ext ctx type value options format pdata hints ctx_node unres).storage
      = lyplg_type_free_simple
          (lyplg_type_store_identityref.body ext ctx type value options format pdata hints
            ctx_node unres).storage
    ∧ (lyplg_type_store_identityref ext ctx type value options format pdata hints
        ctx_node unres).storage._canonical = none
    ∧ (lyplg_type_store_identityref.body ext ctx type value options format pdata hints
        ctx_node unres).storage._canonical = none
    ∧ (lyplg_type_store_identityref ext ctx type value options format pdata hints
        ctx_node unres).trace.getLast? = some (Event.free_simple none)
    ∧ (∀ s, Event.lydict_insert s
          ∈ (lyplg_type_store_identityref ext ctx type value options format pdata hints
              ctx_node unres).trace → ext.lydict_insert s ≠ LY_SUCCESS)
    ∧ (∀ s, Event.lydict_insert_zc s
          ∈ (lyplg_type_store_identityref ext ctx type value options format pdata hints
              ctx_node unres).trace → ext.lydict_insert_zc s ≠ LY_SUCCESS) := by
  have hbody : (lyplg_type_store_identityref.body ext ctx type value options format pdata hints
      ctx_node unres).ret ≠ LY_SUCCESS := by
    rw [← lyplg_type_store_identityref.cleanup_ret]; exact hfail
  have hcanon : (lyplg_type_store_identityref.body ext ctx type value options format pdata hints
      ctx_node unres).storage._canonical = none := by
    revert hbody
    apply lyplg_type_store_identityref.body_cases ext ctx type value options format pdata hints
      ctx_node unres (fun b => b.ret ≠ LY_SUCCESS → b.storage._canonical = none)
    · intro _ _; rfl
    · intro _ _ _; rfl
    · intro _ _ _ _; rfl
    · intro _ _ _ _ _; rfl
    · intro _ _ _ _ node _ _ _; rfl
    · intro _ _ _ _ _ hne
      rw [lyplg_type_store_identityref.store_canonical_storage, if_neg hne]
  refine ⟨?_, ?_, hcanon, ?_, ?_, ?_⟩
  · unfold lyplg_type_store_identityref
    rw [lyplg_type_store_identityref.cleanup_storage, if_neg hbody]
  · unfold lyplg_type_store_identityref
    rw [lyplg_type_store_identityref.cleanup_storage, if_neg hbody]
    rfl
  · unfold lyplg_type_store_identityref
    rw [lyplg_type_store_identityref.cleanup_trace, if_neg hbody, hcanon]
    exact List.getLast?_concat _
  · intro s hs h
    exact hfail (((lyplg_type_store_identityref.dict_event_ret ext ctx type value options format
      pdata hints ctx_node unres s).1 hs).trans h)
  · intro s hs h
    exact hfail (((lyplg_type_store_identityref.dict_event_ret ext ctx type value options format
      pdata hints ctx_node unres s).2 hs).trans h)

/-- The claim C9 at a concrete call: the dictionary refuses the canonical string of
`m:c`, the store returns `LY_EMEM` and the storage holds no canonical string. -/
theorem lyplg_type_store_identityref_failure_releases_witness :
    (lyplg_type_store_identityref
        { spec_externals ctx_abc [] with lydict_insert_zc := fun _ => LY_EMEM } ctx_abc type_a
        "m:c" 0 LY_VALUE_JSON [] 0 none 0).ret = LY_EMEM
    ∧ (lyplg_type_store_identityref
        { spec_externals ctx_abc [] with lydict_insert_zc := fun _ => LY_EMEM } ctx_abc type_a
        "m:c" 0 LY_VALUE_JSON [] 0 none 0).storage._canonical = none :=
  ⟨by decide,
   (lyplg_type_store_identityref_failure_releases
      { spec_externals ctx_abc [] with lydict_insert_zc := fun _ => LY_EMEM } ctx_abc type_a
      "m:c" 0 LY_VALUE_JSON [] 0 none 0 (by decide)).2.1⟩

/-- C10: whenever `identityref_check_base` fails it returns `LY_EVALID` and the message
lists every base of the type, in order, as `"<module-name>:<identity-name>"` in double
quotes separated by `", "`, with the wording 'the base' when the type has exactly one base
and 'all the bases' otherwise (without any base the list is printed from a null pointer). -/
theorem identityref_check_base_failure_message (ext : externals) (ctx : ly_ctx)
    (ident : ident_ptr) (type : lysc_type_identityref) (value : String)
    (hfail : (identityref_check_base ext ctx ident type value).1 ≠ LY_SUCCESS) :
    (identityref_check_base ext ctx ident type value).1 = LY_EVALID
    ∧ (type.bases.length = 1 →
        (identityref_check_base ext ctx ident type value).2
          = some { no := LY_EVALID, vecode := LYVE_DATA,
                   msg := "Invalid identityref \"" ++ value
                     ++ "\" value - identity not derived from the base "
                     ++ ", ".intercalate (type.bases.map (quoted_base ctx)) ++ "." })
    ∧ (type.bases.length ≠ 1 →
        (identityref_check_base ext ctx ident type value).2
          = some { no := LY_EVALID, vecode := LYVE_DATA,
                   msg := "Invalid identityref \"" ++ value
                     ++ "\" value - identity not derived from all the bases "
                     ++ (if type.bases = [] then "(null)"
                         else ", ".intercalate (type.bases.map (quoted_base ctx))) ++ "." }) := by
  have hret := identityref_check_base_ret ext ctx ident type value
  refine ⟨hret.resolve_left hfail, ?_, ?_⟩
  · intro hlen
    revert hfail
    unfold identityref_check_base
    dsimp only
    obtain ⟨b, hb⟩ : ∃ b, type.bases = [b] := List.length_eq_one.mp hlen
    rw [hb, identityref_check_base.build_fst, identityref_check_base.build_str]
    simp only [ly_err_new, fmt_s]
    split <;> simp
  · intro hlen
    revert hfail
    unfold identityref_check_base
    dsimp only
    rw [identityref_check_base.build_fst]
    cases hbs : type.bases with
    | nil => simp [identityref_check_base.scan, identityref_check_base.build, ly_err_new, fmt_s]
    | cons b bs =>
      rw [hbs] at hlen
      rw [identityref_check_base.build_str]
      simp only [ly_err_new, fmt_s]
      have hne : 0 + (b :: bs).length ≠ 1 := by simpa using hlen
      split <;> simp [hne]

/-- The claim C10 at a concrete call: with the single base `m:a`, the identity `m:b` is
refused with the singular wording. -/
theorem identityref_check_base_failure_message_witness :
    identityref_check_base (spec_externals ctx_abc []) ctx_abc ident_b type_a "m:b"
      = (LY_EVALID,
         some { no := LY_EVALID, vecode := LYVE_DATA,
                msg := "Invalid identityref \"m:b\" value - identity not derived from the base \"m:a\"." }) :=
  Prod.ext
    (identityref_check_base_failure_message (spec_externals ctx_abc []) ctx_abc ident_b type_a
      "m:b" (by decide)).1
    ((identityref_check_base_failure_message (spec_externals ctx_abc []) ctx_abc ident_b type_a
      "m:b" (by decide)).2.1 (by decide))

/-! ## Storing again what was printed -/

/-- C5: the identity `m:c`, disabled by if-feature in the non-implemented module `m`, is
stored from `"x:c"` (XML, prefix `x` for `m`) with `LYPLG_TYPE_STORE_IMPLEMENT`: the
store asks for the module to be implemented and succeeds without evaluating the
if-feature. The value prints in JSON as `"m:c"`. Once the module is implemented, storing
`"m:c"` in the JSON format with the same type and the same options fails with `LY_EVALID`
and the message 'identity is disabled by if-feature': the round trip is broken. -/
theorem lyplg_type_store_identityref_restore_can_fail :
    (lyplg_type_store_identityref (spec_externals ctx_abc_unimplemented [ident_c])
        ctx_abc_unimplemented type_a "x:c" LYPLG_TYPE_STORE_IMPLEMENT LY_VALUE_XML [("x", 0)] 0
        none 0).ret = LY_SUCCESS
    ∧ Event.make_implemented 0 0
        ∈ (lyplg_type_store_identityref (spec_externals ctx_abc_unimplemented [ident_c])
            ctx_abc_unimplemented type_a "x:c" LYPLG_TYPE_STORE_IMPLEMENT LY_VALUE_XML [("x", 0)]
            0 none 0).trace
    ∧ (lyplg_type_print_identityref (spec_externals ctx_abc_unimplemented [ident_c])
        ctx_abc_unimplemented
        (lyplg_type_store_identityref (spec_externals ctx_abc_unimplemented [ident_c])
          ctx_abc_unimplemented type_a "x:c" LYPLG_TYPE_STORE_IMPLEMENT LY_VALUE_XML [("x", 0)] 0
          none 0).storage LY_VALUE_JSON []).ret = some "m:c"
    ∧ ctx_abc_unimplemented.implement 0 = ctx_abc
    ∧ (lyplg_type_store_identityref (spec_externals ctx_abc [ident_c]) ctx_abc type_a "m:c"
        LYPLG_TYPE_STORE_IMPLEMENT LY_VALUE_JSON [] 0 none 0).ret = LY_EVALID
    ∧ (lyplg_type_store_identityref (spec_externals ctx_abc [ident_c]) ctx_abc type_a "m:c"
        LYPLG_TYPE_STORE_IMPLEMENT LY_VALUE_JSON [] 0 none 0).err
        = some { no := LY_EVALID, vecode := LYVE_DATA,
                 msg := "Invalid identityref \"m:c\" value - identity is disabled by if-feature." } := by
  decide

/-- Let `v` be stored successfully with type descriptor `t`. Storing the string Print
returns for `v` in the JSON format, with `t`, in the JSON format, with the same options,
hints and schema node and in the same context, succeeds whenever for that string (the
canonical string of `v`) the hint check passes, Find resolves it to the identity of `v`,
the status check passes and the canonical string is interned, and the value it yields
compares equal to `v`. Any value stored successfully with `t` whose input resolves to the
identity of `v` compares equal to `v`. -/
theorem lyplg_type_store_identityref_restore_printed (ext : externals) (ctx : ly_ctx)
    (type : lysc_type_identityref) (value : String) (options : Nat) (format : LY_VALUE_FORMAT)
    (pdata pdata' : prefix_data) (hints : Nat) (ctx_node : Option lysc_node) (unres : Nat) (s : String)
    (hok : (lyplg_type_store_identityref ext ctx type value options format pdata hints
      ctx_node unres).ret = LY_SUCCESS)
    (hp : (lyplg_type_print_identityref ext ctx
      (lyplg_type_store_identityref ext ctx type value options format pdata hints ctx_node unres).storage
      LY_VALUE_JSON pdata').ret = some s)
    (hh : (ext.check_hints hints s type.basetype).1 = LY_SUCCESS)
    (hf : (ext.identity_find s LY_VALUE_JSON pdata' ctx_node).ret = LY_SUCCESS)
    (hfi : (ext.identity_find s LY_VALUE_JSON pdata' ctx_node).ident
      = (ext.identity_find value format pdata ctx_node).ident)
    (hst : ∀ node, ctx_node = some node →
      (ext.check_status node (ctx.ident_at (ext.identity_find value format pdata ctx_node).ident).flags
        LY_VALUE_JSON pdata'
        (ctx.ident_name (ext.identity_find value format pdata ctx_node).ident)).1 = LY_SUCCESS)
    (ha : ext.asprintf_fails
      (ctx.ident_module_name (ext.identity_find value format pdata ctx_node).ident ++ ":"
        ++ ctx.ident_name (ext.identity_find value format pdata ctx_node).ident) = false)
    (hd : ext.lydict_insert_zc
      (ctx.ident_module_name (ext.identity_find value format pdata ctx_node).ident ++ ":"
        ++ ctx.ident_name (ext.identity_find value format pdata ctx_node).ident) = LY_SUCCESS) :
    (lyplg_type_store_identityref ext ctx type value options format pdata hints
      ctx_node unres).storage._canonical = some s
    ∧ (lyplg_type_store_identityref ext ctx type s options LY_VALUE_JSON pdata' hints
      ctx_node unres).ret = LY_SUCCESS
    ∧ lyplg_type_compare_identityref
        (lyplg_type_store_identityref ext ctx type s options LY_VALUE_JSON pdata' hints
          ctx_node unres).storage
        (lyplg_type_store_identityref ext ctx type value options format pdata hints
          ctx_node unres).storage = LY_SUCCESS
    ∧ (∀ (ext2 : externals) (ctx2 : ly_ctx) (value2 : String) (options2 : Nat)
        (format2 : LY_VALUE_FORMAT) (pdata2 : prefix_data) (hints2 : Nat)
        (node2 : Option lysc_node) (unres2 : Nat),
        (lyplg_type_store_identityref ext2 ctx2 type value2 options2 format2 pdata2 hints2
          node2 unres2).ret = LY_SUCCESS →
        (ext2.identity_find value2 format2 pdata2 node2).ident
          = (ext.identity_find value format pdata ctx_node).ident →
        lyplg_type_compare_identityref
          (lyplg_type_store_identityref ext2 ctx2 type value2 options2 format2 pdata2 hints2
            node2 unres2).storage
          (lyplg_type_store_identityref ext ctx type value options format pdata hints
            ctx_node unres).storage = LY_SUCCESS) := by
  have hs1 := lyplg_type_store_identityref.success_storage ext ctx type value options format pdata
    hints ctx_node unres hok
  obtain ⟨_, _, hc1, hb1, _, _⟩ := lyplg_type_store_identityref.success_checks ext ctx type value
    options format pdata hints ctx_node unres hok
  have hret : (lyplg_type_store_identityref ext ctx type s options LY_VALUE_JSON pdata' hints
      ctx_node unres).ret = LY_SUCCESS := by
    rw [lyplg_type_store_identityref.ret_of_checks ext ctx type s options LY_VALUE_JSON pdata'
      hints ctx_node unres hh hf]
    · rw [hfi]
      simp only [canonical_name]
      rw [ha, hd]
      simp
    · rw [hfi, identityref_check_ident.ret_value ext ctx _ s value]; exact hc1
    · rw [hfi]; exact (identityref_check_base.ret_base_value ext ctx _ type s value).mpr hb1
    · rw [hfi]; exact hst
  have hcmp : ∀ (ext2 : externals) (ctx2 : ly_ctx) (value2 : String) (options2 : Nat)
      (format2 : LY_VALUE_FORMAT) (pdata2 : prefix_data) (hints2 : Nat)
      (node2 : Option lysc_node) (unres2 : Nat),
      (lyplg_type_store_identityref ext2 ctx2 type value2 options2 format2 pdata2 hints2
        node2 unres2).ret = LY_SUCCESS →
      (ext2.identity_find value2 format2 pdata2 node2).ident
        = (ext.identity_find value format pdata ctx_node).ident →
      lyplg_type_compare_identityref
        (lyplg_type_store_identityref ext2 ctx2 type value2 options2 format2 pdata2 hints2
          node2 unres2).storage
        (lyplg_type_store_identityref ext ctx type value options format pdata hints
          ctx_node unres).storage = LY_SUCCESS := by
    intro ext2 ctx2 value2 options2 format2 pdata2 hints2 node2 unres2 hok2 hid
    rw [lyplg_type_store_identityref.success_storage ext2 ctx2 type value2 options2 format2
      pdata2 hints2 node2 unres2 hok2, hs1]
    simp [lyplg_type_compare_identityref, hid]
  have hcanon : (lyplg_type_store_identityref ext ctx type value options format pdata hints
      ctx_node unres).storage._canonical = some s := by
    simpa [lyplg_type_print_identityref] using hp
  exact ⟨hcanon, hret, hcmp ext ctx s options LY_VALUE_JSON pdata' hints ctx_node unres hret hfi, hcmp⟩

/-- The re-store at a concrete call: `m:c`, stored from `"x:c"` in the XML format,
prints in JSON as `"m:c"`, and storing `"m:c"` in the JSON format with the same type
succeeds. -/
theorem lyplg_type_store_identityref_restore_printed_witness :
    (lyplg_type_store_identityref (spec_externals ctx_abc []) ctx_abc type_a "x:c" 0
      LY_VALUE_XML [("x", 0)] 0 none 0).ret = LY_SUCCESS
    ∧ (lyplg_type_store_identityref (spec_externals ctx_abc []) ctx_abc type_a "m:c" 0
      LY_VALUE_JSON [] 0 none 0).ret = LY_SUCCESS :=
  ⟨by decide,
   (lyplg_type_store_identityref_restore_printed (spec_externals ctx_abc []) ctx_abc type_a "x:c"
      0 LY_VALUE_XML [("x", 0)] [] 0 none 0 "m:c" (by decide) (by decide) (by decide) (by decide)
      (by decide) (by intro node h; cases h) (by decide) (by decide)).2.1⟩

/-! ## Duplicating a stored value -/

/-- C11: for every stored value `v`, when the registered duplicate operation
(`lyplg_type_dup_simple`) succeeds it yields a value that has the type-descriptor
reference, the identity reference and the canonical string of `v`, and the registered
compare operation (`lyplg_type_compare_identityref`) reports it equal to `v`. -/
theorem plugins_identityref_compare_duplicate (ext : externals) (v : lyd_value)
    (hret : (plugins_identityref.duplicate ext v).ret = LY_SUCCESS) :
    ∃ d, (plugins_identityref.duplicate ext v).dup = some d
      ∧ d.realtype = v.realtype ∧ d.ident = v.ident ∧ d._canonical = v._canonical
      ∧ plugins_identityref.compare d v = LY_SUCCESS := by
  simp only [plugins_identityref, lyplg_type_dup_simple] at hret ⊢
  split at hret
  · rename_i h
    simp only [h, if_true]
    exact ⟨_, rfl, rfl, rfl, rfl, by simp [lyplg_type_compare_identityref]⟩
  · rename_i h
    simp [h] at hret

/-- The claim C11 at a concrete value: the value stored for `m:c` and its duplicate
compare equal. -/
theorem plugins_identityref_compare_duplicate_witness :
    (plugins_identityref.duplicate (spec_externals ctx_abc [])
      { realtype := some 101, ident := some ident_c, _canonical := some "m:c" }).ret = LY_SUCCESS
    ∧ ∃ d, (plugins_identityref.duplicate (spec_externals ctx_abc [])
        { realtype := some 101, ident := some ident_c, _canonical := some "m:c" }).dup = some d
      ∧ d.realtype = some 101 ∧ d.ident = some ident_c ∧ d._canonical = some "m:c"
      ∧ plugins_identityref.compare d
          { realtype := some 101, ident := some ident_c, _canonical := some "m:c" } = LY_SUCCESS :=
  ⟨by decide,
   plugins_identityref_compare_duplicate (spec_externals ctx_abc [])
     { realtype := some 101, ident := some ident_c, _canonical := some "m:c" } (by decide)⟩

/-! ## lyplg_type_identity_isderived: reflexive, transitive along two edges -/

theorem ly_ctx.isderived_walk_refl (ctx : ly_ctx) (fuel : Nat) (x : ident_ptr) :
    ctx.isderived_walk fuel x x = true := by
  cases fuel <;> simp [ly_ctx.isderived_walk]

theorem ly_ctx.isderived_walk_step (ctx : ly_ctx) (fuel : Nat) (base b ident : ident_ptr)
    (hb : b ∈ (ctx.ident_at ident).bases) (hw : ctx.isderived_walk fuel base b = true) :
    ctx.isderived_walk (fuel + 1) base ident = true := by
  simp only [ly_ctx.isderived_walk, Bool.or_eq_true, List.any_eq_true]
  exact Or.inr ⟨b, hb, hw⟩

theorem ly_ctx.sum_map_ge_one {α : Type} (f : α → Nat) (l : List α) (d : α) (hd : f d = 0)
    (i : Nat) : f (l.getD i d) ≤ (l.map f).sum := by
  induction l generalizing i with
  | nil => simp [hd]
  | cons a l ih =>
    cases i with
    | zero => simp
    | succ i =>
      have := ih i
      simp only [List.getD_cons_succ, List.map_cons, List.sum_cons]
      omega

theorem ly_ctx.sum_map_ge_two {α : Type} (f : α → Nat) (l : List α) (d : α) (hd : f d = 0)
    (i j : Nat) (hij : i ≠ j) : f (l.getD i d) + f (l.getD j d) ≤ (l.map f).sum := by
  induction l generalizing i j with
  | nil => simp [hd]
  | cons a l ih =>
    cases i with
    | zero =>
      cases j with
      | zero => exact absurd rfl hij
      | succ j =>
        have := ly_ctx.sum_map_ge_one f l d hd j
        simp only [List.getD_cons_zero, List.getD_cons_succ, List.map_cons, List.sum_cons]
        omega
    | succ i =>
      cases j with
      | zero =>
        have := ly_ctx.sum_map_ge_one f l d hd i
        simp only [List.getD_cons_zero, List.getD_cons_succ, List.map_cons, List.sum_cons]
        omega
      | succ j =>
        have := ih i j (fun h => hij (by rw [h]))
        simp only [List.getD_cons_succ, List.map_cons, List.sum_cons]
        omega

/-- An identity that has a base is an entry of its module's identity table. -/
theorem ly_ctx.index_lt_of_bases (ctx : ly_ctx) (p b : ident_ptr)
    (hb : b ∈ (ctx.ident_at p).bases) :
    p.index < (ctx.module_at p.mod).identities.length := by
  by_contra h
  have hlen : (ctx.module_at p.mod).identities.length ≤ p.index := Nat.le_of_not_lt h
  have : ctx.ident_at p = default := by
    unfold ly_ctx.ident_at
    exact List.getD_eq_default _ _ hlen
  rw [this] at hb
  exact absurd hb (List.not_mem_nil b)

theorem ly_ctx.one_le_ident_count (ctx : ly_ctx) (p b : ident_ptr)
    (hb : b ∈ (ctx.ident_at p).bases) : 1 ≤ ctx.ident_count := by
  have h1 := ctx.index_lt_of_bases p b hb
  have h2 := ly_ctx.sum_map_ge_one (fun m : lys_module => m.identities.length) ctx.modules
    default rfl p.mod
  unfold ly_ctx.module_at at h1
  unfold ly_ctx.ident_count
  simp only at h2
  omega

theorem ly_ctx.two_le_ident_count (ctx : ly_ctx) (p q b c : ident_ptr) (hpq : p ≠ q)
    (hb : b ∈ (ctx.ident_at p).bases) (hc : c ∈ (ctx.ident_at q).bases) :
    2 ≤ ctx.ident_count := by
  have h1 := ctx.index_lt_of_bases p b hb
  have h2 := ctx.index_lt_of_bases q c hc
  unfold ly_ctx.module_at at h1 h2
  unfold ly_ctx.ident_count
  by_cases hm : p.mod = q.mod
  · have hi : p.index ≠ q.index := by
      intro hi
      apply hpq
      cases p; cases q; simp_all
    have h3 := ly_ctx.sum_map_ge_one (fun m : lys_module => m.identities.length) ctx.modules
      default rfl p.mod
    simp only at h3
    rw [hm] at h1 h3
    omega
  · have h3 := ly_ctx.sum_map_ge_two (fun m : lys_module => m.identities.length) ctx.modules
      default rfl p.mod q.mod hm
    simp only at h3
    omega

theorem lyplg_type_identity_isderived_refl (ctx : ly_ctx) (x : ident_ptr) :
    lyplg_type_identity_isderived ctx x x = LY_SUCCESS := by
  simp [lyplg_type_identity_isderived, ly_ctx.isderived_walk_refl]

theorem lyplg_type_identity_isderived_two_edges (ctx : ly_ctx) (a b c : ident_ptr)
    (hab : a ∈ (ctx.ident_at b).bases) (hbc : b ∈ (ctx.ident_at c).bases) :
    lyplg_type_identity_isderived ctx a c = LY_SUCCESS := by
  have hw : ctx.isderived_walk ctx.ident_count a c = true := by
    by_cases hca : c = a
    · rw [hca]; exact ctx.isderived_walk_refl _ a
    by_cases hcb : b = c
    · have h1 := ctx.one_le_ident_count b a hab
      obtain ⟨n, hn⟩ : ∃ n, ctx.ident_count = n + 1 := ⟨ctx.ident_count - 1, by omega⟩
      rw [hn]
      exact ctx.isderived_walk_step n a a c (hcb ▸ hab) (ctx.isderived_walk_refl n a)
    · have h2 := ctx.two_le_ident_count b c a b hcb hab hbc
      obtain ⟨n, hn⟩ : ∃ n, ctx.ident_count = n + 2 := ⟨ctx.ident_count - 2, by omega⟩
      rw [hn]
      exact ctx.isderived_walk_step (n + 1) a b c hbc
        (ctx.isderived_walk_step n a a b hab (ctx.isderived_walk_refl n a))
  simp [lyplg_type_identity_isderived, hw]

/-! ## revision_label_scheme_compile: how the body unfolds -/

/-- The scan of the parent's extension list finds an entry iff the list holds an entry
other than the instance itself that has the definition of the instance. -/
theorem revision_label_scheme_compile.duplicated_iff (c_ext : lysc_ext_instance)
    (exts : List lysc_ext_instance) :
    revision_label_scheme_compile.duplicated c_ext exts = true
      ↔ ∃ e ∈ exts, e.addr ≠ c_ext.addr ∧ e.«def» = c_ext.«def» := by
  induction exts with
  | nil => simp [revision_label_scheme_compile.duplicated]
  | cons e rest ih =>
    unfold revision_label_scheme_compile.duplicated
    by_cases h : e.addr ≠ c_ext.addr ∧ e.«def» = c_ext.«def»
    · rw [if_pos h]
      exact ⟨fun _ => ⟨e, List.mem_cons_self _ _, h⟩, fun _ => rfl⟩
    · rw [if_neg h, ih]
      constructor
      · rintro ⟨x, hx, hx2⟩
        exact ⟨x, List.mem_cons_of_mem _ hx, hx2⟩
      · rintro ⟨x, hx, hx2⟩
        rcases List.mem_cons.1 hx with rfl | hx
        · exact absurd hx2 h
        · exact ⟨x, hx, hx2⟩

/-- The module lookup fails iff no module of the context has the name and the revision. -/
theorem ly_ctx_get_module_eq_none_iff (ctx : ly_ctx) (name revision : String) :
    ly_ctx_get_module ctx name revision = none
      ↔ ∀ m ∈ ctx.modules, ¬ (m.name = name ∧ m.revision = revision) := by
  unfold ly_ctx_get_module
  simp

/-- The module the lookup returns is a module of the context with the name and the
revision. -/
theorem ly_ctx_get_module_eq_some (ctx : ly_ctx) (name revision : String) (m : Nat)
    (h : ly_ctx_get_module ctx name revision = some m) :
    m < ctx.modules.length ∧ (ctx.module_at m).name = name
      ∧ (ctx.module_at m).revision = revision := by
  unfold ly_ctx_get_module at h
  rw [List.findIdx?_eq_some_iff_getElem] at h
  obtain ⟨hlt, hp, _⟩ := h
  refine ⟨hlt, ?_⟩
  unfold ly_ctx.module_at
  rw [List.getD_eq_getElem _ _ hlt]
  simpa using hp

/-- The paths of `revision_label_scheme_compile`, one premise for each. -/
theorem revision_label_scheme_compile.cases (ext : externals) (cx : compile_externals)
    (cctx : lysc_ctx) (p_ext : lysp_ext_instance) (c_ext : lysc_ext_instance)
    (parent : lysc_module) (P : compile_result → Prop)
    (h_place : c_ext.parent_stmt ≠ LY_STMT_MODULE → c_ext.parent_stmt ≠ LY_STMT_SUBMODULE →
      P { ret := LY_EVALID, c_ext := c_ext,
          trace := [ext_event.lyplg_ext_log LY_LLERR LY_EVALID (lysc_ctx_get_path cctx)
            (some ("Extension " ++ p_ext.name
              ++ " is allowed only at the top level of a YANG module or submodule, but it is placed in \""
              ++ cx.ly_stmt2str c_ext.parent_stmt ++ "\" statement."))] })
    (h_dup : (c_ext.parent_stmt = LY_STMT_MODULE ∨ c_ext.parent_stmt = LY_STMT_SUBMODULE) →
      (∃ e ∈ parent.exts, e.addr ≠ c_ext.addr ∧ e.«def» = c_ext.«def») →
      P { ret := LY_EVALID, c_ext := c_ext,
          trace := [ext_event.lyplg_ext_log LY_LLERR LY_EVALID (lysc_ctx_get_path cctx)
            (some ("Extension " ++ p_ext.name ++ " is instantiated multiple times."))] })
    (h_mod : (c_ext.parent_stmt = LY_STMT_MODULE ∨ c_ext.parent_stmt = LY_STMT_SUBMODULE) →
      (¬ ∃ e ∈ parent.exts, e.addr ≠ c_ext.addr ∧ e.«def» = c_ext.«def») →
      ly_ctx_get_module (lysc_ctx_get_ctx cctx) REVISIONS_NAME REVISIONS_REV = none →
      P { ret := LY_EINT, c_ext := c_ext,
          trace := [ext_event.ly_ctx_get_module REVISIONS_NAME REVISIONS_REV] })
    (h_find : (c_ext.parent_stmt = LY_STMT_MODULE ∨ c_ext.parent_stmt = LY_STMT_SUBMODULE) →
      (¬ ∃ e ∈ parent.exts, e.addr ≠ c_ext.addr ∧ e.«def» = c_ext.«def») →
      ∀ m, ly_ctx_get_module (lysc_ctx_get_ctx cctx) REVISIONS_NAME REVISIONS_REV = some m →
      (ext.identity_find c_ext.argument LY_VALUE_SCHEMA parent.parsed none).ret ≠ LY_SUCCESS →
      P { ret := LY_EVALID, c_ext := c_ext,
          trace := [ext_event.ly_ctx_get_module REVISIONS_NAME REVISIONS_REV,
            ext_event.identity_find c_ext.argument LY_VALUE_SCHEMA parent.parsed,
            ext_event.lyplg_ext_log LY_LLERR LY_EVALID (lysc_ctx_get_path cctx)
              (log_message_of_err
                (ext.identity_find c_ext.argument LY_VALUE_SCHEMA parent.parsed none).err),
            ext_event.ly_err_free] })
    (h_derived : (c_ext.parent_stmt = LY_STMT_MODULE ∨ c_ext.parent_stmt = LY_STMT_SUBMODULE) →
      (¬ ∃ e ∈ parent.exts, e.addr ≠ c_ext.addr ∧ e.«def» = c_ext.«def») →
      ∀ m, ly_ctx_get_module (lysc_ctx_get_ctx cctx) REVISIONS_NAME REVISIONS_REV = some m →
      (ext.identity_find c_ext.argument LY_VALUE_SCHEMA parent.parsed none).ret = LY_SUCCESS →
      ext.identity_isderived { mod := m, index := 0 }
        (ext.identity_find c_ext.argument LY_VALUE_SCHEMA parent.parsed none).ident ≠ LY_SUCCESS →
      P { ret := LY_EVALID, c_ext := c_ext,
          trace := [ext_event.ly_ctx_get_module REVISIONS_NAME REVISIONS_REV,
            ext_event.identity_find c_ext.argument LY_VALUE_SCHEMA parent.parsed,
            ext_event.identity_isderived { mod := m, index := 0 }
              (ext.identity_find c_ext.argument LY_VALUE_SCHEMA parent.parsed none).ident,
            ext_event.lyplg_ext_log LY_LLERR LY_EVALID (lysc_ctx_get_path cctx)
              (some ("Argument of the " ++ p_ext.name
                ++ " extension must be an identity derived from "
                ++ (lysc_ctx_get_ctx cctx).ident_module_name { mod := m, index := 0 } ++ ":"
                ++ (lysc_ctx_get_ctx cctx).ident_name { mod := m, index := 0 } ++ "."))] })
    (h_ok : (c_ext.parent_stmt = LY_STMT_MODULE ∨ c_ext.parent_stmt = LY_STMT_SUBMODULE) →
      (¬ ∃ e ∈ parent.exts, e.addr ≠ c_ext.addr ∧ e.«def» = c_ext.«def») →
      ∀ m, ly_ctx_get_module (lysc_ctx_get_ctx cctx) REVISIONS_NAME REVISIONS_REV = some m →
      (ext.identity_find c_ext.argument LY_VALUE_SCHEMA parent.parsed none).ret = LY_SUCCESS →
      ext.identity_isderived { mod := m, index := 0 }
        (ext.identity_find c_ext.argument LY_VALUE_SCHEMA parent.parsed none).ident = LY_SUCCESS →
      P { ret := cx.lys_compile_extension_instance p_ext
            { c_ext with
              data := some (ext.identity_find c_ext.argument LY_VALUE_SCHEMA parent.parsed none).ident },
          c_ext := { c_ext with
            data := some (ext.identity_find c_ext.argument LY_VALUE_SCHEMA parent.parsed none).ident },
          trace := [ext_event.ly_ctx_get_module REVISIONS_NAME REVISIONS_REV,
            ext_event.identity_find c_ext.argument LY_VALUE_SCHEMA parent.parsed,
            ext_event.identity_isderived { mod := m, index := 0 }
              (ext.identity_find c_ext.argument LY_VALUE_SCHEMA parent.parsed none).ident,
            ext_event.lys_compile_extension_instance
              (some (ext.identity_find c_ext.argument LY_VALUE_SCHEMA parent.parsed none).ident)] }) :
    P (revision_label_scheme_compile ext cx cctx p_ext c_ext parent) := by
  unfold revision_label_scheme_compile
  by_cases hp : c_ext.parent_stmt ≠ LY_STMT_MODULE ∧ c_ext.parent_stmt ≠ LY_STMT_SUBMODULE
  · rw [if_pos hp]; exact h_place hp.1 hp.2
  rw [if_neg hp]
  have hp2 : c_ext.parent_stmt = LY_STMT_MODULE ∨ c_ext.parent_stmt = LY_STMT_SUBMODULE := by
    by_contra h
    exact hp ⟨fun h1 => h (Or.inl h1), fun h2 => h (Or.inr h2)⟩
  by_cases hd : revision_label_scheme_compile.duplicated c_ext parent.exts = true
  · rw [if_pos hd]
    exact h_dup hp2 ((revision_label_scheme_compile.duplicated_iff _ _).1 hd)
  rw [if_neg hd]
  have hd2 : ¬ ∃ e ∈ parent.exts, e.addr ≠ c_ext.addr ∧ e.«def» = c_ext.«def» :=
    fun h => hd ((revision_label_scheme_compile.duplicated_iff _ _).2 h)
  unfold revision_label_scheme_compile.from_base
  cases hm : ly_ctx_get_module (lysc_ctx_get_ctx cctx) REVISIONS_NAME REVISIONS_REV with
  | none => exact h_mod hp2 hd2 hm
  | some m =>
    simp only
    by_cases hf : (ext.identity_find c_ext.argument LY_VALUE_SCHEMA parent.parsed none).ret
        = LY_SUCCESS
    swap
    · simp only [ne_eq, hf, not_false_eq_true, if_true]
      exact h_find hp2 hd2 m hm hf
    simp only [ne_eq, hf, not_true_eq_false, if_false]
    by_cases hi : ext.identity_isderived { mod := m, index := 0 }
        (ext.identity_find c_ext.argument LY_VALUE_SCHEMA parent.parsed none).ident = LY_SUCCESS
    swap
    · simp only [hi, not_false_eq_true, if_true]
      exact h_derived hp2 hd2 m hm hf hi
    simp only [hi, not_true_eq_false, if_false]
    exact h_ok hp2 hd2 m hm hf hi

/-! ## revision_label_scheme_compile: the payload -/

/-- Every call of `lyplg_ext_log` is made with `LY_LLERR`, `LY_EVALID` and the path of
`lysc_ctx_get_path`, by the one failing step whose message it carries. -/
theorem revision_label_scheme_compile.log_events (ext : externals) (cx : compile_externals)
    (cctx : lysc_ctx) (p_ext : lysp_ext_instance) (c_ext : lysc_ext_instance)
    (parent : lysc_module) (level : LY_LOG_LEVEL) (no : LY_ERR) (path : String)
    (msg : Option String)
    (h : ext_event.lyplg_ext_log level no path msg
      ∈ (revision_label_scheme_compile ext cx cctx p_ext c_ext parent).trace) :
    level = LY_LLERR ∧ no = LY_EVALID ∧ path = lysc_ctx_get_path cctx
    ∧ ((c_ext.parent_stmt ≠ LY_STMT_MODULE ∧ c_ext.parent_stmt ≠ LY_STMT_SUBMODULE
          ∧ msg = some ("Extension " ++ p_ext.name
              ++ " is allowed only at the top level of a YANG module or submodule, but it is placed in \""
              ++ cx.ly_stmt2str c_ext.parent_stmt ++ "\" statement."))
      ∨ ((c_ext.parent_stmt = LY_STMT_MODULE ∨ c_ext.parent_stmt = LY_STMT_SUBMODULE)
          ∧ (∃ e ∈ parent.exts, e.addr ≠ c_ext.addr ∧ e.«def» = c_ext.«def»)
          ∧ msg = some ("Extension " ++ p_ext.name ++ " is instantiated multiple times."))
      ∨ ((c_ext.parent_stmt = LY_STMT_MODULE ∨ c_ext.parent_stmt = LY_STMT_SUBMODULE)
          ∧ (¬ ∃ e ∈ parent.exts, e.addr ≠ c_ext.addr ∧ e.«def» = c_ext.«def»)
          ∧ (ext.identity_find c_ext.argument LY_VALUE_SCHEMA parent.parsed none).ret ≠ LY_SUCCESS
          ∧ msg = log_message_of_err
              (ext.identity_find c_ext.argument LY_VALUE_SCHEMA parent.parsed none).err)
      ∨ ((c_ext.parent_stmt = LY_STMT_MODULE ∨ c_ext.parent_stmt = LY_STMT_SUBMODULE)
          ∧ (¬ ∃ e ∈ parent.exts, e.addr ≠ c_ext.addr ∧ e.«def» = c_ext.«def»)
          ∧ (ext.identity_find c_ext.argument LY_VALUE_SCHEMA parent.parsed none).ret = LY_SUCCESS
          ∧ ∃ m, ly_ctx_get_module (lysc_ctx_get_ctx cctx) REVISIONS_NAME REVISIONS_REV = some m
            ∧ msg = some ("Argument of the " ++ p_ext.name
                ++ " extension must be an identity derived from "
                ++ (lysc_ctx_get_ctx cctx).ident_module_name { mod := m, index := 0 } ++ ":"
                ++ (lysc_ctx_get_ctx cctx).ident_name { mod := m, index := 0 } ++ "."))) := by
  revert h
  apply revision_label_scheme_compile.cases ext cx cctx p_ext c_ext parent
    (P := fun r => ext_event.lyplg_ext_log level no path msg ∈ r.trace →
      level = LY_LLERR ∧ no = LY_EVALID ∧ path = lysc_ctx_get_path cctx
    ∧ ((c_ext.parent_stmt ≠ LY_STMT_MODULE ∧ c_ext.parent_stmt ≠ LY_STMT_SUBMODULE
          ∧ msg = some ("Extension " ++ p_ext.name
              ++ " is allowed only at the top level of a YANG module or submodule, but it is placed in \""
              ++ cx.ly_stmt2str c_ext.parent_stmt ++ "\" statement."))
      ∨ ((c_ext.parent_stmt = LY_STMT_MODULE ∨ c_ext.parent_stmt = LY_STMT_SUBMODULE)
          ∧ (∃ e ∈ parent.exts, e.addr ≠ c_ext.addr ∧ e.«def» = c_ext.«def»)
          ∧ msg = some ("Extension " ++ p_ext.name ++ " is instantiated multiple times."))
      ∨ ((c_ext.parent_stmt = LY_STMT_MODULE ∨ c_ext.parent_stmt = LY_STMT_SUBMODULE)
          ∧ (¬ ∃ e ∈ parent.exts, e.addr ≠ c_ext.addr ∧ e.«def» = c_ext.«def»)
          ∧ (ext.identity_find c_ext.argument LY_VALUE_SCHEMA parent.parsed none).ret ≠ LY_SUCCESS
          ∧ msg = log_message_of_err
              (ext.identity_find c_ext.argument LY_VALUE_SCHEMA parent.parsed none).err)
      ∨ ((c_ext.parent_stmt = LY_STMT_MODULE ∨ c_ext.parent_stmt = LY_STMT_SUBMODULE)
          ∧ (¬ ∃ e ∈ parent.exts, e.addr ≠ c_ext.addr ∧ e.«def» = c_ext.«def»)
          ∧ (ext.identity_find c_ext.argument LY_VALUE_SCHEMA parent.parsed none).ret = LY_SUCCESS
          ∧ ∃ m, ly_ctx_get_module (lysc_ctx_get_ctx cctx) REVISIONS_NAME REVISIONS_REV = some m
            ∧ msg = some ("Argument of the " ++ p_ext.name
                ++ " extension must be an identity derived from "
                ++ (lysc_ctx_get_ctx cctx).ident_module_name { mod := m, index := 0 } ++ ":"
                ++ (lysc_ctx_get_ctx cctx).ident_name { mod := m, index := 0 } ++ "."))))
  · intro h1 h2 h
    simp only [List.mem_singleton, ext_event.lyplg_ext_log.injEq] at h
    obtain ⟨rfl, rfl, rfl, rfl⟩ := h
    exact ⟨rfl, rfl, rfl, Or.inl ⟨h1, h2, rfl⟩⟩
  · intro hp hd h
    simp only [List.mem_singleton, ext_event.lyplg_ext_log.injEq] at h
    obtain ⟨rfl, rfl, rfl, rfl⟩ := h
    exact ⟨rfl, rfl, rfl, Or.inr (Or.inl ⟨hp, hd, rfl⟩)⟩
  · intro _ _ _ h
    simp at h
  · intro hp hd m _ hf h
    simp only [List.mem_cons, List.mem_singleton, ext_event.lyplg_ext_log.injEq, reduceCtorEq,
      false_or, or_false, List.not_mem_nil] at h
    obtain ⟨rfl, rfl, rfl, rfl⟩ := h
    exact ⟨rfl, rfl, rfl, Or.inr (Or.inr (Or.inl ⟨hp, hd, hf, rfl⟩))⟩
  · intro hp hd m hm hf _ h
    simp only [List.mem_cons, List.mem_singleton, ext_event.lyplg_ext_log.injEq, reduceCtorEq,
      false_or, or_false, List.not_mem_nil] at h
    obtain ⟨rfl, rfl, rfl, rfl⟩ := h
    exact ⟨rfl, rfl, rfl, Or.inr (Or.inr (Or.inr ⟨hp, hd, hf, m, hm, rfl⟩))⟩
  · intro _ _ _ _ _ _ h
    simp at h

/-! ## revision_label_scheme_compile: the failure of Find -/

/-- A message without a percent sign is printed as it is when it is the format string. -/
theorem format_without_args_of_no_percent (l : List Char) (h : '%' ∉ l) :
    format_without_args l = some l := by
  induction l with
  | nil => rfl
  | cons c rest ih =>
    have hc : c ≠ '%' := fun e => h (by rw [e]; exact List.mem_cons_self _ _)
    have hr : '%' ∉ rest := fun e => h (List.mem_cons_of_mem _ e)
    rw [format_without_args.eq_4 c rest (by intro r e; exact absurd e hc)
      (by intro e; exact absurd e hc), ih hr]
    rfl

/-- The compile when Find fails: `LY_EVALID`, the instance as it was, and after the module
lookup and Find one call of `lyplg_ext_log` whose format string is the message of Find,
then `ly_err_free`. The message logged is that of Find when it holds no percent sign. -/
theorem revision_label_scheme_compile.find_failure (ext : externals) (cx : compile_externals)
    (cctx : lysc_ctx) (p_ext : lysp_ext_instance) (c_ext : lysc_ext_instance)
    (parent : lysc_module) (m : Nat)
    (hp : c_ext.parent_stmt = LY_STMT_MODULE ∨ c_ext.parent_stmt = LY_STMT_SUBMODULE)
    (hd : ∀ e ∈ parent.exts, e.addr ≠ c_ext.addr → e.«def» ≠ c_ext.«def»)
    (hm : ly_ctx_get_module (lysc_ctx_get_ctx cctx) REVISIONS_NAME REVISIONS_REV = some m)
    (hf : (ext.identity_find c_ext.argument LY_VALUE_SCHEMA parent.parsed none).ret ≠ LY_SUCCESS) :
    revision_label_scheme_compile ext cx cctx p_ext c_ext parent
      = { ret := LY_EVALID, c_ext := c_ext,
          trace := [ext_event.ly_ctx_get_module REVISIONS_NAME REVISIONS_REV,
            ext_event.identity_find c_ext.argument LY_VALUE_SCHEMA parent.parsed,
            ext_event.lyplg_ext_log LY_LLERR LY_EVALID (lysc_ctx_get_path cctx)
              (log_message_of_err
                (ext.identity_find c_ext.argument LY_VALUE_SCHEMA parent.parsed none).err),
            ext_event.ly_err_free] }
    ∧ ∀ e, (ext.identity_find c_ext.argument LY_VALUE_SCHEMA parent.parsed none).err = some e →
        '%' ∉ e.msg.data → log_message_of_err (some e) = some e.msg := by
  constructor
  · apply revision_label_scheme_compile.cases ext cx cctx p_ext c_ext parent (P := fun r => r = _)
    · intro h1 h2
      rcases hp with hp | hp
      · exact absurd hp h1
      · exact absurd hp h2
    · rintro _ ⟨e, he, hne, hdef⟩
      exact absurd hdef (hd e he hne)
    · intro _ _ h
      rw [hm] at h
      cases h
    · intro _ _ _ _ _
      rfl
    · intro _ _ _ _ h
      exact absurd h hf
    · intro _ _ _ _ h
      exact absurd h hf
  · intro e _ hpc
    simp [log_message_of_err, format_without_args_of_no_percent _ hpc]

/-- C16: in the module `aa` of the test, for the instance whose argument is `scheme-%%`,
which names no identity: Find is called with the whole argument, `LY_VALUE_SCHEMA` and
the prefixes of the parent module, and fails with the message `Invalid identityref
"scheme-%%" value - identity not found in module "aa".`; the compile returns
`LY_EVALID` and leaves the payload unset, but the message it logs, with the message of
Find as the format string of `lyplg_ext_log`, is `Invalid identityref "scheme-%" value -
identity not found in module "aa".`, which is not the message of Find. -/
theorem revision_label_scheme_compile_find_message_as_format :
    ((spec_externals ctx_rev []).identity_find c_ext_percent.argument LY_VALUE_SCHEMA
        parent_aa_percent.parsed none).ret = LY_EVALID
    ∧ ((spec_externals ctx_rev []).identity_find c_ext_percent.argument LY_VALUE_SCHEMA
        parent_aa_percent.parsed none).err
        = some { no := LY_EVALID, vecode := LYVE_DATA,
                 msg := "Invalid identityref \"scheme-%%\" value - identity not found in module \"aa\"." }
    ∧ revision_label_scheme_compile (spec_externals ctx_rev []) cx_rev cctx_aa_percent p_ext_rev
        c_ext_percent parent_aa_percent
      = { ret := LY_EVALID, c_ext := c_ext_percent,
          trace := [ext_event.ly_ctx_get_module "ietf-yang-revisions" "2021-11-04",
            ext_event.identity_find "scheme-%%" LY_VALUE_SCHEMA [("", 2), ("aa", 2), ("rev", 0)],
            ext_event.lyplg_ext_log LY_LLERR LY_EVALID
              "/aa:\x7bextension=\x27rev:revision-label-scheme\x27\x7d/scheme-%%"
              (some "Invalid identityref \"scheme-%\" value - identity not found in module \"aa\"."),
            ext_event.ly_err_free] }
    ∧ c_ext_percent.data = none
    ∧ (some "Invalid identityref \"scheme-%\" value - identity not found in module \"aa\"."
        ≠ ((spec_externals ctx_rev []).identity_find c_ext_percent.argument LY_VALUE_SCHEMA
            parent_aa_percent.parsed none).err.map (fun e => e.msg)) := by
  refine ⟨by decide, by decide, by decide, rfl, by decide⟩

/-! ## revision_label_scheme_compile: the scheme base -/

/-- C17: for a correctly placed, non-duplicated instance, the lookup of module
`ietf-yang-revisions` at revision `2021-11-04` fails exactly when no module of the context
has that name and revision, and then `revision_label_scheme_compile` returns `LY_EINT`,
which is not `LY_EVALID`, having made the lookup and no other call, so neither Find nor
IsDerived. When the lookup returns a module, it has that name and revision, every call of
IsDerived is made with the first identity of that module as the base and the identity of
Find as the candidate, it is made whenever Find succeeds, and when it fails the message
logged names the base `ietf-yang-revisions:<name of that first identity>`. -/
theorem revision_label_scheme_compile_scheme_base (ext : externals) (cx : compile_externals)
    (cctx : lysc_ctx) (p_ext : lysp_ext_instance) (c_ext : lysc_ext_instance)
    (parent : lysc_module)
    (hp : c_ext.parent_stmt = LY_STMT_MODULE ∨ c_ext.parent_stmt = LY_STMT_SUBMODULE)
    (hd : ∀ e ∈ parent.exts, e.addr ≠ c_ext.addr → e.«def» ≠ c_ext.«def») :
    (ly_ctx_get_module (lysc_ctx_get_ctx cctx) REVISIONS_NAME REVISIONS_REV = none
      ↔ ∀ m ∈ (lysc_ctx_get_ctx cctx).modules,
          ¬ (m.name = "ietf-yang-revisions" ∧ m.revision = "2021-11-04"))
    ∧ (ly_ctx_get_module (lysc_ctx_get_ctx cctx) REVISIONS_NAME REVISIONS_REV = none →
        revision_label_scheme_compile ext cx cctx p_ext c_ext parent
          = { ret := LY_EINT, c_ext := c_ext,
              trace := [ext_event.ly_ctx_get_module "ietf-yang-revisions" "2021-11-04"] }
        ∧ LY_EINT ≠ LY_EVALID)
    ∧ (∀ m, ly_ctx_get_module (lysc_ctx_get_ctx cctx) REVISIONS_NAME REVISIONS_REV = some m →
        ((lysc_ctx_get_ctx cctx).module_at m).name = "ietf-yang-revisions"
        ∧ ((lysc_ctx_get_ctx cctx).module_at m).revision = "2021-11-04"
        ∧ (revision_label_scheme_compile ext cx cctx p_ext c_ext parent).trace.head?
            = some (ext_event.ly_ctx_get_module "ietf-yang-revisions" "2021-11-04")
        ∧ (∀ base ident, ext_event.identity_isderived base ident
              ∈ (revision_label_scheme_compile ext cx cctx p_ext c_ext parent).trace →
            base = { mod := m, index := 0 }
            ∧ ident = (ext.identity_find c_ext.argument LY_VALUE_SCHEMA parent.parsed none).ident)
        ∧ ((ext.identity_find c_ext.argument LY_VALUE_SCHEMA parent.parsed none).ret = LY_SUCCESS →
            ext_event.identity_isderived { mod := m, index := 0 }
                (ext.identity_find c_ext.argument LY_VALUE_SCHEMA parent.parsed none).ident
              ∈ (revision_label_scheme_compile ext cx cctx p_ext c_ext parent).trace)
        ∧ ((ext.identity_find c_ext.argument LY_VALUE_SCHEMA parent.parsed none).ret = LY_SUCCESS →
            ext.identity_isderived { mod := m, index := 0 }
              (ext.identity_find c_ext.argument LY_VALUE_SCHEMA parent.parsed none).ident
                ≠ LY_SUCCESS →
            (revision_label_scheme_compile ext cx cctx p_ext c_ext parent).ret = LY_EVALID
            ∧ (revision_label_scheme_compile ext cx cctx p_ext c_ext parent).trace.getLast?
                = some (ext_event.lyplg_ext_log LY_LLERR LY_EVALID (lysc_ctx_get_path cctx)
                    (some ("Argument of the " ++ p_ext.name
                      ++ " extension must be an identity derived from "
                      ++ "ietf-yang-revisions" ++ ":"
                      ++ (((lysc_ctx_get_ctx cctx).module_at m).identities.getD 0 default).name
                      ++ "."))))) := by
  have hnd : ¬ ∃ e ∈ parent.exts, e.addr ≠ c_ext.addr ∧ e.«def» = c_ext.«def» := by
    rintro ⟨e, he, hne, hdef⟩
    exact hd e he hne hdef
  refine ⟨ly_ctx_get_module_eq_none_iff _ _ _, ?_, ?_⟩
  · intro hm
    refine ⟨?_, by decide⟩
    apply revision_label_scheme_compile.cases ext cx cctx p_ext c_ext parent (P := fun r => r = _)
    · intro h1 h2
      rcases hp with hp | hp
      · exact absurd hp h1
      · exact absurd hp h2
    · intro _ h; exact absurd h hnd
    · intro _ _ _; rfl
    · intro _ _ m2 hm2; rw [hm] at hm2; cases hm2
    · intro _ _ m2 hm2; rw [hm] at hm2; cases hm2
    · intro _ _ m2 hm2; rw [hm] at hm2; cases hm2
  · intro m hm
    have hs := ly_ctx_get_module_eq_some _ _ _ _ hm
    have hname : (lysc_ctx_get_ctx cctx).ident_module_name { mod := m, index := 0 }
        = "ietf-yang-revisions" := hs.2.1
    refine ⟨hs.2.1, hs.2.2, ?_⟩
    apply revision_label_scheme_compile.cases ext cx cctx p_ext c_ext parent
      (P := fun r => r.trace.head?
            = some (ext_event.ly_ctx_get_module "ietf-yang-revisions" "2021-11-04")
        ∧ (∀ base ident, ext_event.identity_isderived base ident ∈ r.trace →
            base = { mod := m, index := 0 }
            ∧ ident = (ext.identity_find c_ext.argument LY_VALUE_SCHEMA parent.parsed none).ident)
        ∧ ((ext.identity_find c_ext.argument LY_VALUE_SCHEMA parent.parsed none).ret = LY_SUCCESS →
            ext_event.identity_isderived { mod := m, index := 0 }
                (ext.identity_find c_ext.argument LY_VALUE_SCHEMA parent.parsed none).ident
              ∈ r.trace)
        ∧ ((ext.identity_find c_ext.argument LY_VALUE_SCHEMA parent.parsed none).ret = LY_SUCCESS →
            ext.identity_isderived { mod := m, index := 0 }
              (ext.identity_find c_ext.argument LY_VALUE_SCHEMA parent.parsed none).ident
                ≠ LY_SUCCESS →
            r.ret = LY_EVALID
            ∧ r.trace.getLast?
                = some (ext_event.lyplg_ext_log LY_LLERR LY_EVALID (lysc_ctx_get_path cctx)
                    (some ("Argument of the " ++ p_ext.name
                      ++ " extension must be an identity derived from "
                      ++ "ietf-yang-revisions" ++ ":"
                      ++ (((lysc_ctx_get_ctx cctx).module_at m).identities.getD 0 default).name
                      ++ ".")))))
    · intro h1 h2
      rcases hp with hp | hp
      · exact absurd hp h1
      · exact absurd hp h2
    · intro _ h; exact absurd h hnd
    · intro _ _ h; rw [hm] at h; cases h
    · intro _ _ m2 hm2 hf
      refine ⟨rfl, ?_, fun h => absurd h hf, fun h => absurd h hf⟩
      intro base ident h
      simp at h
    · intro _ _ m2 hm2 hf hi
      have hmm : m2 = m := by
        rw [hm] at hm2
        exact (Option.some.inj hm2).symm
      subst hmm
      refine ⟨rfl, ?_, ?_, ?_⟩
      · intro base ident h
        simpa using h
      · intro _; simp
      · intro _ _
        refine ⟨rfl, ?_⟩
        rw [hname]
        rfl
    · intro _ _ m2 hm2 hf hi
      have hmm : m2 = m := by
        rw [hm] at hm2
        exact (Option.some.inj hm2).symm
      subst hmm
      refine ⟨rfl, ?_, ?_, ?_⟩
      · intro base ident h
        simpa using h
      · intro _; simp
      · intro _ h
        exact absurd hi h

/-- The claim C17 in the run of the test on module `a`: the base of the subtyping check is
`revision-label-scheme-base` of `ietf-yang-revisions`, the first identity of module 0. -/
theorem revision_label_scheme_compile_scheme_base_witness :
    ly_ctx_get_module (lysc_ctx_get_ctx cctx_a) REVISIONS_NAME REVISIONS_REV = some 0
    ∧ ctx_rev.ident_name { mod := 0, index := 0 } = "revision-label-scheme-base"
    ∧ ext_event.identity_isderived { mod := 0, index := 0 } { mod := 1, index := 0 }
        ∈ (revision_label_scheme_compile (spec_externals ctx_rev []) cx_rev cctx_a p_ext_rev
            c_ext_testver parent_a).trace :=
  ⟨by decide, by decide,
   ((revision_label_scheme_compile_scheme_base (spec_externals ctx_rev []) cx_rev cctx_a p_ext_rev
      c_ext_testver parent_a (Or.inl rfl) (by decide)).2.2 0 (by decide)).2.2.2.2.1 (by decide)⟩

/-! ## revision_label_scheme_compile: the lookup in a context without the module -/

/-- In a context without the module `ietf-yang-revisions`, in which the schema compiler
has no instance of the extension to call the plugin for, the compile of a correctly
placed, non-duplicated instance returns `LY_EINT` having made the module lookup and no
other call. -/
theorem revision_label_scheme_compile_missing_module_not_logged :
    c_ext_testver.parent_stmt = LY_STMT_MODULE
    ∧ (∀ e ∈ parent_without_revisions.exts,
        e.addr ≠ c_ext_testver.addr → e.«def» ≠ c_ext_testver.«def»)
    ∧ revision_label_scheme_compile (spec_externals ctx_without_revisions []) cx_rev
        cctx_without_revisions p_ext_rev c_ext_testver parent_without_revisions
      = { ret := LY_EINT, c_ext := c_ext_testver,
          trace := [ext_event.ly_ctx_get_module "ietf-yang-revisions" "2021-11-04"] }
    ∧ (∀ level no path msg, ext_event.lyplg_ext_log level no path msg
        ∉ (revision_label_scheme_compile (spec_externals ctx_without_revisions []) cx_rev
            cctx_without_revisions p_ext_rev c_ext_testver parent_without_revisions).trace) := by
  have h : revision_label_scheme_compile (spec_externals ctx_without_revisions []) cx_rev
        cctx_without_revisions p_ext_rev c_ext_testver parent_without_revisions
      = { ret := LY_EINT, c_ext := c_ext_testver,
          trace := [ext_event.ly_ctx_get_module "ietf-yang-revisions" "2021-11-04"] } := by
    decide
  refine ⟨rfl, by decide, h, ?_⟩
  intro level no path msg
  rw [h]
  simp

/-! ## IsDerived and the two checks that call it -/

/-- C19: `lyplg_type_identity_isderived` succeeds on every identity with itself as the
base, and on `a` and `c` whenever `a` is a base of `b` and `b` is a base of `c`.
Consequently, when it is the routine the plugins call, `identityref_check_base` accepts
an identity that is one of the bases of the type, and `revision_label_scheme_compile`
accepts an argument that Find resolves to the scheme base itself: it stores it as the
payload and returns what `lys_compile_extension_instance` returns. -/
theorem lyplg_type_identity_isderived_reflexive_transitive (ctx : ly_ctx) (ext : externals)
    (hext : ext.identity_isderived = lyplg_type_identity_isderived ctx) :
    (∀ x, lyplg_type_identity_isderived ctx x x = LY_SUCCESS)
    ∧ (∀ a b c, a ∈ (ctx.ident_at b).bases → b ∈ (ctx.ident_at c).bases →
        lyplg_type_identity_isderived ctx a c = LY_SUCCESS)
    ∧ (∀ (type : lysc_type_identityref) (value : String) (b : ident_ptr), b ∈ type.bases →
        (identityref_check_base ext ctx b type value).1 = LY_SUCCESS)
    ∧ (∀ (cx : compile_externals) (cctx : lysc_ctx) (p_ext : lysp_ext_instance)
        (c_ext : lysc_ext_instance) (parent : lysc_module) (m : Nat),
        (c_ext.parent_stmt = LY_STMT_MODULE ∨ c_ext.parent_stmt = LY_STMT_SUBMODULE) →
        (∀ e ∈ parent.exts, e.addr ≠ c_ext.addr → e.«def» ≠ c_ext.«def») →
        ly_ctx_get_module (lysc_ctx_get_ctx cctx) REVISIONS_NAME REVISIONS_REV = some m →
        (ext.identity_find c_ext.argument LY_VALUE_SCHEMA parent.parsed none).ret = LY_SUCCESS →
        (ext.identity_find c_ext.argument LY_VALUE_SCHEMA parent.parsed none).ident
          = { mod := m, index := 0 } →
        (revision_label_scheme_compile ext cx cctx p_ext c_ext parent).c_ext
          = { c_ext with data := some { mod := m, index := 0 } }
        ∧ (revision_label_scheme_compile ext cx cctx p_ext c_ext parent).ret
          = cx.lys_compile_extension_instance p_ext
              { c_ext with data := some { mod := m, index := 0 } }) := by
  refine ⟨lyplg_type_identity_isderived_refl ctx, lyplg_type_identity_isderived_two_edges ctx,
    ?_, ?_⟩
  · intro type value b hb
    rw [identityref_check_base_success_iff]
    exact ⟨b, hb, by rw [hext]; exact lyplg_type_identity_isderived_refl ctx b⟩
  · intro cx cctx p_ext c_ext parent m hp hd hm hf hid
    apply revision_label_scheme_compile.cases ext cx cctx p_ext c_ext parent
      (P := fun r => r.c_ext = { c_ext with data := some { mod := m, index := 0 } }
        ∧ r.ret = cx.lys_compile_extension_instance p_ext
              { c_ext with data := some { mod := m, index := 0 } })
    · intro h1 h2
      rcases hp with hp | hp
      · exact absurd hp h1
      · exact absurd hp h2
    · rintro _ ⟨e, he, hne, hdef⟩
      exact absurd hdef (hd e he hne)
    · intro _ _ h
      rw [hm] at h
      cases h
    · intro _ _ _ _ h
      exact absurd hf h
    · intro _ _ m2 hm2 _ h
      have hmm : m2 = m := by
        rw [hm] at hm2
        exact (Option.some.inj hm2).symm
      subst hmm
      rw [hid, hext] at h
      exact absurd (lyplg_type_identity_isderived_refl ctx _) h
    · intro _ _ _ _ _ _
      rw [hid]
      exact ⟨rfl, rfl⟩

/-- The claim C19 on the chain `a`, `b` derived from `a`, `c` derived from `b`. -/
theorem lyplg_type_identity_isderived_reflexive_transitive_witness :
    (spec_externals ctx_chain []).identity_isderived = lyplg_type_identity_isderived ctx_chain
    ∧ ident_a ∈ (ctx_chain.ident_at ident_b).bases
    ∧ ident_b ∈ (ctx_chain.ident_at ident_c).bases
    ∧ lyplg_type_identity_isderived ctx_chain ident_c ident_c = LY_SUCCESS
    ∧ lyplg_type_identity_isderived ctx_chain ident_a ident_c = LY_SUCCESS :=
  ⟨rfl, by decide, by decide,
   (lyplg_type_identity_isderived_reflexive_transitive ctx_chain (spec_externals ctx_chain [])
      rfl).1 ident_c,
   (lyplg_type_identity_isderived_reflexive_transitive ctx_chain (spec_externals ctx_chain [])
      rfl).2.1 ident_a ident_b ident_c (by decide) (by decide)⟩

/-! ## lyplg_type_store_identityref: the order of the checks -/

/-- The store callback when the hint check fails. -/
theorem lyplg_type_store_identityref.hints_failure (ext : externals) (ctx : ly_ctx)
    (type : lysc_type_identityref) (value : String) (options : Nat) (format : LY_VALUE_FORMAT)
    (pdata : prefix_data) (hints : Nat) (ctx_node : Option lysc_node) (unres : Nat)
    (hh : (ext.check_hints hints value type.basetype).1 ≠ LY_SUCCESS) :
    lyplg_type_store_identityref ext ctx type value options format pdata hints ctx_node unres
      = { ret := (ext.check_hints hints value type.basetype).1,
          storage := { realtype := some type.addr, ident := none, _canonical := none },
          err := (ext.check_hints hints value type.basetype).2,
          options := options,
          trace := [Event.check_hints value]
            ++ (if options &&& LYPLG_TYPE_STORE_DYNAMIC ≠ 0 then [Event.free_value] else [])
            ++ [Event.free_simple none] } := by
  unfold lyplg_type_store_identityref lyplg_type_store_identityref.body
    lyplg_type_store_identityref.cleanup
  by_cases hd : options &&& LYPLG_TYPE_STORE_DYNAMIC = 0 <;>
    simp [hh, hd, lyplg_type_free_simple]

/-- The store callback when Find fails. -/
theorem lyplg_type_store_identityref.find_step_failure (ext : externals) (ctx : ly_ctx)
    (type : lysc_type_identityref) (value : String) (options : Nat) (format : LY_VALUE_FORMAT)
    (pdata : prefix_data) (hints : Nat) (ctx_node : Option lysc_node) (unres : Nat)
    (hh : (ext.check_hints hints value type.basetype).1 = LY_SUCCESS)
    (hf : (ext.identity_find value format pdata ctx_node).ret ≠ LY_SUCCESS) :
    lyplg_type_store_identityref ext ctx type value options format pdata hints ctx_node unres
      = { ret := (ext.identity_find value format pdata ctx_node).ret,
          storage := { realtype := some type.addr, ident := none, _canonical := none },
          err := (ext.identity_find value format pdata ctx_node).err,
          options := options,
          trace := [Event.check_hints value, Event.identity_find value format]
            ++ (if options &&& LYPLG_TYPE_STORE_DYNAMIC ≠ 0 then [Event.free_value] else [])
            ++ [Event.free_simple none] } := by
  unfold lyplg_type_store_identityref lyplg_type_store_identityref.body
    lyplg_type_store_identityref.cleanup
  by_cases hd : options &&& LYPLG_TYPE_STORE_DYNAMIC = 0 <;>
    simp [hh, hf, hd, lyplg_type_free_simple]

/-- The store callback when the status check fails. -/
theorem lyplg_type_store_identityref.status_failure (ext : externals) (ctx : ly_ctx)
    (type : lysc_type_identityref) (value : String) (options : Nat) (format : LY_VALUE_FORMAT)
    (pdata : prefix_data) (hints : Nat) (node : lysc_node) (unres : Nat)
    (hh : (ext.check_hints hints value type.basetype).1 = LY_SUCCESS)
    (hf : (ext.identity_find value format pdata (some node)).ret = LY_SUCCESS)
    (hc : (identityref_check_ident ext ctx (ext.identity_find value format pdata (some node)).ident
      value options unres).ret = LY_SUCCESS)
    (hb : (identityref_check_base ext ctx (ext.identity_find value format pdata (some node)).ident
      type value).1 = LY_SUCCESS)
    (hs : (ext.check_status node
        (ctx.ident_at (ext.identity_find value format pdata (some node)).ident).flags format pdata
        (ctx.ident_name (ext.identity_find value format pdata (some node)).ident)).1 ≠ LY_SUCCESS) :
    lyplg_type_store_identityref ext ctx type value options format pdata hints (some node) unres
      = { ret := (ext.check_status node
            (ctx.ident_at (ext.identity_find value format pdata (some node)).ident).flags format pdata
            (ctx.ident_name (ext.identity_find value format pdata (some node)).ident)).1,
          storage := { realtype := some type.addr, ident := none, _canonical := none },
          err := (ext.check_status node
            (ctx.ident_at (ext.identity_find value format pdata (some node)).ident).flags format pdata
            (ctx.ident_name (ext.identity_find value format pdata (some node)).ident)).2,
          options := options,
          trace := lyplg_type_store_identityref.checks_trace ext ctx type value options unres format
              (ext.identity_find value format pdata (some node)).ident
            ++ [Event.check_status
                (ctx.ident_at (ext.identity_find value format pdata (some node)).ident).flags
                (ctx.ident_name (ext.identity_find value format pdata (some node)).ident)]
            ++ (if options &&& LYPLG_TYPE_STORE_DYNAMIC ≠ 0 then [Event.free_value] else [])
            ++ [Event.free_simple none] } := by
  unfold lyplg_type_store_identityref lyplg_type_store_identityref.body
    lyplg_type_store_identityref.from_ident lyplg_type_store_identityref.from_base
    lyplg_type_store_identityref.from_status
    lyplg_type_store_identityref.cleanup lyplg_type_store_identityref.checks_trace
  by_cases hd : options &&& LYPLG_TYPE_STORE_DYNAMIC = 0 <;>
    simp [hh, hf, hc, hb, hs, hd, lyplg_type_free_simple]

/-- When every check passes, the trace starts with the calls of the checks, the status
check if any, and the calls that build and intern the canonical string. -/
theorem lyplg_type_store_identityref.success_trace_prefix (ext : externals) (ctx : ly_ctx)
    (type : lysc_type_identityref) (value : String) (options : Nat) (format : LY_VALUE_FORMAT)
    (pdata : prefix_data) (hints : Nat) (ctx_node : Option lysc_node) (unres : Nat)
    (hh : (ext.check_hints hints value type.basetype).1 = LY_SUCCESS)
    (hf : (ext.identity_find value format pdata ctx_node).ret = LY_SUCCESS)
    (hc : (identityref_check_ident ext ctx (ext.identity_find value format pdata ctx_node).ident
      value options unres).ret = LY_SUCCESS)
    (hb : (identityref_check_base ext ctx (ext.identity_find value format pdata ctx_node).ident type
      value).1 = LY_SUCCESS)
    (hs : ∀ node, ctx_node = some node →
      (ext.check_status node (ctx.ident_at (ext.identity_find value format pdata ctx_node).ident).flags
        format pdata (ctx.ident_name (ext.identity_find value format pdata ctx_node).ident)).1
          = LY_SUCCESS) :
    lyplg_type_store_identityref.checks_trace ext ctx type value options unres format
        (ext.identity_find value format pdata ctx_node).ident
      ++ lyplg_type_store_identityref.status_events ctx ctx_node
        (ext.identity_find value format pdata ctx_node).ident
      ++ (if format = LY_VALUE_CANON then
            if options &&& LYPLG_TYPE_STORE_DYNAMIC ≠ 0 then [Event.lydict_insert_zc value]
            else [Event.lydict_insert value]
          else if ext.asprintf_fails
              (canonical_name ctx (ext.identity_find value format pdata ctx_node).ident) = true then
            [Event.asprintf (canonical_name ctx (ext.identity_find value format pdata ctx_node).ident)]
          else [Event.asprintf
                  (canonical_name ctx (ext.identity_find value format pdata ctx_node).ident),
                Event.lydict_insert_zc
                  (canonical_name ctx (ext.identity_find value format pdata ctx_node).ident)])
      <+: (lyplg_type_store_identityref ext ctx type value options format pdata hints
        ctx_node unres).trace := by
  unfold lyplg_type_store_identityref
  rw [lyplg_type_store_identityref.cleanup_trace]
  apply lyplg_type_store_identityref.body_cases ext ctx type value options format pdata hints
    ctx_node unres
    (fun b => lyplg_type_store_identityref.checks_trace ext ctx type value options unres format
        (ext.identity_find value format pdata ctx_node).ident
      ++ lyplg_type_store_identityref.status_events ctx ctx_node
        (ext.identity_find value format pdata ctx_node).ident
      ++ (if format = LY_VALUE_CANON then
            if options &&& LYPLG_TYPE_STORE_DYNAMIC ≠ 0 then [Event.lydict_insert_zc value]
            else [Event.lydict_insert value]
          else if ext.asprintf_fails
              (canonical_name ctx (ext.identity_find value format pdata ctx_node).ident) = true then
            [Event.asprintf (canonical_name ctx (ext.identity_find value format pdata ctx_node).ident)]
          else [Event.asprintf
                  (canonical_name ctx (ext.identity_find value format pdata ctx_node).ident),
                Event.lydict_insert_zc
                  (canonical_name ctx (ext.identity_find value format pdata ctx_node).ident)])
      <+: b.trace
        ++ (if b.options &&& LYPLG_TYPE_STORE_DYNAMIC ≠ 0 then [Event.free_value] else [])
        ++ (if b.ret = LY_SUCCESS then [] else [Event.free_simple b.storage._canonical]))
  · intro h; exact absurd hh h
  · intro _ h; exact absurd hf h
  · intro _ _ h; exact absurd hc h
  · intro _ _ _ h; exact absurd hb h
  · intro _ _ _ _ node hn h; exact absurd (hs node hn) h
  · intro _ _ _ _ _
    rw [(lyplg_type_store_identityref.store_canonical_trace _ _ _ _ _ _ _ _).1]
    exact (List.prefix_append _ _).trans (List.prefix_append _ _)

/-- The calls of the checks up to the base check hold no call of
`lyplg_type_check_status`. -/
theorem lyplg_type_store_identityref.checks_trace_no_status (ext : externals) (ctx : ly_ctx)
    (type : lysc_type_identityref) (value : String) (options : Nat) (unres : Nat)
    (format : LY_VALUE_FORMAT) (ident : ident_ptr) (f : Nat) (n : String) :
    Event.check_status f n ∉ lyplg_type_store_identityref.checks_trace ext ctx type value options
      unres format ident := by
  intro he
  unfold lyplg_type_store_identityref.checks_trace at he
  simp only [List.mem_append, List.mem_singleton, reduceCtorEq, false_or] at he
  rcases he with he | he
  · rcases identityref_check_ident.mem_ident_trace _ _ _ _ _ _ _ he with h | h
    · cases h.1
    · cases h.1
  · obtain ⟨b, _, h⟩ := identityref_check_base.mem_calls _ _ _ _ he
    cases h

/-- Without a schema node the store callback does not call `lyplg_type_check_status`. -/
theorem lyplg_type_store_identityref.no_status_event (ext : externals) (ctx : ly_ctx)
    (type : lysc_type_identityref) (value : String) (options : Nat) (format : LY_VALUE_FORMAT)
    (pdata : prefix_data) (hints : Nat) (unres : Nat) (f : Nat) (n : String) :
    Event.check_status f n ∉ (lyplg_type_store_identityref ext ctx type value options format
      pdata hints none unres).trace := by
  have hcl : ∀ (o : Nat) (r : LY_ERR) (c : Option String),
      Event.check_status f n ∉
        (if o &&& LYPLG_TYPE_STORE_DYNAMIC ≠ 0 then [Event.free_value] else [])
          ++ (if r = LY_SUCCESS then [] else [Event.free_simple c]) := by
    intro o r c h
    simp only [List.mem_append] at h
    rcases h with h | h
    · split at h <;> simp at h
    · split at h <;> simp at h
  have hck := lyplg_type_store_identityref.checks_trace_no_status ext ctx type value options
    unres format (ext.identity_find value format pdata none).ident f n
  unfold lyplg_type_store_identityref
  rw [lyplg_type_store_identityref.cleanup_trace]
  apply lyplg_type_store_identityref.body_cases ext ctx type value options format pdata hints
    none unres
    (fun b => Event.check_status f n ∉ b.trace
        ++ (if b.options &&& LYPLG_TYPE_STORE_DYNAMIC ≠ 0 then [Event.free_value] else [])
        ++ (if b.ret = LY_SUCCESS then [] else [Event.free_simple b.storage._canonical]))
  · intro _ h
    rw [List.append_assoc, List.mem_append] at h
    rcases h with h | h
    · simp at h
    · exact hcl _ _ _ h
  · intro _ _ h
    rw [List.append_assoc, List.mem_append] at h
    rcases h with h | h
    · simp at h
    · exact hcl _ _ _ h
  · intro _ _ _ h
    rw [List.append_assoc, List.mem_append] at h
    rcases h with h | h
    · simp only [List.mem_append, List.mem_singleton, reduceCtorEq, false_or] at h
      rcases identityref_check_ident.mem_ident_trace _ _ _ _ _ _ _ h with h | h
      · cases h.1
      · cases h.1
    · exact hcl _ _ _ h
  · intro _ _ _ _ h
    rw [List.append_assoc, List.mem_append] at h
    rcases h with h | h
    · exact hck h
    · exact hcl _ _ _ h
  · intro _ _ _ _ node hn
    cases hn
  · intro _ _ _ _ _ h
    rw [(lyplg_type_store_identityref.store_canonical_trace _ _ _ _ _ _ _ _).1] at h
    rw [List.append_assoc, List.mem_append] at h
    rcases h with h | h
    · simp only [lyplg_type_store_identityref.status_events, List.append_nil,
        List.mem_append] at h
      rcases h with h | h
      · exact hck h
      · split at h
        · split at h <;> simp at h
        · split at h <;> simp at h
    · exact hcl _ _ _ h

/-- The diagnostic text of the base check reads only the names of modules and
identities. -/
theorem identityref_check_base.build_congr (ctx ctx' : ly_ctx)
    (hmod : ∀ m, (ctx'.module_at m).name = (ctx.module_at m).name)
    (hid : ∀ p, (ctx'.ident_at p).name = (ctx.ident_at p).name)
    (bs : List ident_ptr) (u n : Nat) (str : Option String) :
    identityref_check_base.build ctx' bs u n str = identityref_check_base.build ctx bs u n str := by
  induction bs generalizing u n str with
  | nil => rfl
  | cons b rest ih =>
    unfold identityref_check_base.build
    simp only [identityref_check_base.sprintf, ly_ctx.ident_module_name, ly_ctx.ident_name,
      hmod, hid]
    exact ih _ _ _

/-- Without a schema node, the store callback reads of the context only the names and
the implemented flags of modules and the names of identities: not the status flags. -/
theorem lyplg_type_store_identityref.flags_irrelevant (ext : externals) (ctx ctx' : ly_ctx)
    (type : lysc_type_identityref) (value : String) (options : Nat) (format : LY_VALUE_FORMAT)
    (pdata : prefix_data) (hints : Nat) (unres : Nat)
    (hmod : ∀ m, (ctx'.module_at m).name = (ctx.module_at m).name)
    (himp : ∀ m, (ctx'.module_at m).implemented = (ctx.module_at m).implemented)
    (hid : ∀ p, (ctx'.ident_at p).name = (ctx.ident_at p).name) :
    lyplg_type_store_identityref ext ctx' type value options format pdata hints none unres
      = lyplg_type_store_identityref ext ctx type value options format pdata hints none unres := by
  have h1 : ∀ ident, identityref_check_ident ext ctx' ident value options unres
      = identityref_check_ident ext ctx ident value options unres := by
    intro ident
    unfold identityref_check_ident
    simp only [ly_ctx.ident_module_name, hmod, himp]
  have h2 : ∀ ident, identityref_check_base ext ctx' ident type value
      = identityref_check_base ext ctx ident type value := by
    intro ident
    unfold identityref_check_base
    rw [identityref_check_base.build_congr ctx ctx' hmod hid]
  have h3 : ∀ ident storage tr,
      lyplg_type_store_identityref.store_canonical ext ctx' value options format ident storage tr
        = lyplg_type_store_identityref.store_canonical ext ctx value options format ident
            storage tr := by
    intro ident storage tr
    unfold lyplg_type_store_identityref.store_canonical identityref_ident2str
    simp only [ lyplg_type_get_prefix, ly_ctx.ident_name, hmod, hid]
  unfold lyplg_type_store_identityref lyplg_type_store_identityref.body
    lyplg_type_store_identityref.from_ident lyplg_type_store_identityref.from_base
    lyplg_type_store_identityref.from_status
  simp only [h1, h2, h3]

/-- C20: `lyplg_type_store_identityref` runs the hint check, Find, `identityref_check_ident`,
`identityref_check_base`, the status check and the interning of the canonical string in
this order. When a step fails after the steps before it succeeded, the return code is the
code of that step and the trace holds the calls up to that step followed only by the
releases of the cleanup; when the checks pass the return code is that of building and
interning the canonical string, whose calls come after those of the checks. The callback
succeeds exactly when every step succeeds. Without a schema node `lyplg_type_check_status`
is not called and the result is the same in every context that differs from this one at
most in what is not the name or the implemented flag of a module or the name of an
identity, so in the status flags of the identities. -/
theorem lyplg_type_store_identityref_check_order (ext : externals) (ctx : ly_ctx)
    (type : lysc_type_identityref) (value : String) (options : Nat) (format : LY_VALUE_FORMAT)
    (pdata : prefix_data) (hints : Nat) (ctx_node : Option lysc_node) (unres : Nat) :
    ((ext.check_hints hints value type.basetype).1 ≠ LY_SUCCESS →
      (lyplg_type_store_identityref ext ctx type value options format pdata hints ctx_node
          unres).ret = (ext.check_hints hints value type.basetype).1
      ∧ (lyplg_type_store_identityref ext ctx type value options format pdata hints ctx_node
          unres).trace
        = [Event.check_hints value]
            ++ (if options &&& LYPLG_TYPE_STORE_DYNAMIC ≠ 0 then [Event.free_value] else [])
            ++ [Event.free_simple none])
    ∧ ((ext.check_hints hints value type.basetype).1 = LY_SUCCESS →
      (ext.identity_find value format pdata ctx_node).ret ≠ LY_SUCCESS →
      (lyplg_type_store_identityref ext ctx type value options format pdata hints ctx_node
          unres).ret = (ext.identity_find value format pdata ctx_node).ret
      ∧ (lyplg_type_store_identityref ext ctx type value options format pdata hints ctx_node
          unres).trace
        = [Event.check_hints value, Event.identity_find value format]
            ++ (if options &&& LYPLG_TYPE_STORE_DYNAMIC ≠ 0 then [Event.free_value] else [])
            ++ [Event.free_simple none])
    ∧ ((ext.check_hints hints value type.basetype).1 = LY_SUCCESS →
      (ext.identity_find value format pdata ctx_node).ret = LY_SUCCESS →
      (identityref_check_ident ext ctx (ext.identity_find value format pdata ctx_node).ident
        value options unres).ret ≠ LY_SUCCESS →
      (lyplg_type_store_identityref ext ctx type value options format pdata hints ctx_node
          unres).ret
        = (identityref_check_ident ext ctx (ext.identity_find value format pdata ctx_node).ident
            value options unres).ret
      ∧ (lyplg_type_store_identityref ext ctx type value options format pdata hints ctx_node
          unres).trace
        = [Event.check_hints value, Event.identity_find value format]
            ++ (identityref_check_ident ext ctx (ext.identity_find value format pdata ctx_node).ident
                  value options unres).trace
            ++ (if options &&& LYPLG_TYPE_STORE_DYNAMIC ≠ 0 then [Event.free_value] else [])
            ++ [Event.free_simple none])
    ∧ ((ext.check_hints hints value type.basetype).1 = LY_SUCCESS →
      (ext.identity_find value format pdata ctx_node).ret = LY_SUCCESS →
      (identityref_check_ident ext ctx (ext.identity_find value format pdata ctx_node).ident
        value options unres).ret = LY_SUCCESS →
      (identityref_check_base ext ctx (ext.identity_find value format pdata ctx_node).ident type
        value).1 ≠ LY_SUCCESS →
      (lyplg_type_store_identityref ext ctx type value options format pdata hints ctx_node
          unres).ret
        = (identityref_check_base ext ctx (ext.identity_find value format pdata ctx_node).ident
            type value).1
      ∧ (lyplg_type_store_identityref ext ctx type value options format pdata hints ctx_node
          unres).trace
        = [Event.check_hints value, Event.identity_find value format]
            ++ (identityref_check_ident ext ctx (ext.identity_find value format pdata ctx_node).ident
                  value options unres).trace
            ++ identityref_check_base.calls ext (ext.identity_find value format pdata ctx_node).ident
                type.bases
            ++ (if options &&& LYPLG_TYPE_STORE_DYNAMIC ≠ 0 then [Event.free_value] else [])
            ++ [Event.free_simple none])
    ∧ ((ext.check_hints hints value type.basetype).1 = LY_SUCCESS →
      (ext.identity_find value format pdata ctx_node).ret = LY_SUCCESS →
      (identityref_check_ident ext ctx (ext.identity_find value format pdata ctx_node).ident
        value options unres).ret = LY_SUCCESS →
      (identityref_check_base ext ctx (ext.identity_find value format pdata ctx_node).ident type
        value).1 = LY_SUCCESS →
      ∀ node, ctx_node = some node →
      (ext.check_status node (ctx.ident_at (ext.identity_find value format pdata ctx_node).ident).flags
        format pdata (ctx.ident_name (ext.identity_find value format pdata ctx_node).ident)).1
          ≠ LY_SUCCESS →
      (lyplg_type_store_identityref ext ctx type value options format pdata hints ctx_node
          unres).ret
        = (ext.check_status node
            (ctx.ident_at (ext.identity_find value format pdata ctx_node).ident).flags
            format pdata (ctx.ident_name (ext.identity_find value format pdata ctx_node).ident)).1
      ∧ (lyplg_type_store_identityref ext ctx type value options format pdata hints ctx_node
          unres).trace
        = [Event.check_hints value, Event.identity_find value format]
            ++ (identityref_check_ident ext ctx (ext.identity_find value format pdata ctx_node).ident
                  value options unres).trace
            ++ identityref_check_base.calls ext (ext.identity_find value format pdata ctx_node).ident
                type.bases
            ++ [Event.check_status
                (ctx.ident_at (ext.identity_find value format pdata ctx_node).ident).flags
                (ctx.ident_name (ext.identity_find value format pdata ctx_node).ident)]
            ++ (if options &&& LYPLG_TYPE_STORE_DYNAMIC ≠ 0 then [Event.free_value] else [])
            ++ [Event.free_simple none])
    ∧ ((ext.check_hints hints value type.basetype).1 = LY_SUCCESS →
      (ext.identity_find value format pdata ctx_node).ret = LY_SUCCESS →
      (identityref_check_ident ext ctx (ext.identity_find value format pdata ctx_node).ident
        value options unres).ret = LY_SUCCESS →
      (identityref_check_base ext ctx (ext.identity_find value format pdata ctx_node).ident type
        value).1 = LY_SUCCESS →
      (∀ node, ctx_node = some node →
        (ext.check_status node (ctx.ident_at (ext.identity_find value format pdata ctx_node).ident).flags
          format pdata (ctx.ident_name (ext.identity_find value format pdata ctx_node).ident)).1
            = LY_SUCCESS) →
      (lyplg_type_store_identityref ext ctx type value options format pdata hints ctx_node
          unres).ret
        = (if format = LY_VALUE_CANON then
            if options &&& LYPLG_TYPE_STORE_DYNAMIC ≠ 0 then ext.lydict_insert_zc value
            else ext.lydict_insert value
          else if ext.asprintf_fails
              (canonical_name ctx (ext.identity_find value format pdata ctx_node).ident) = true
            then LY_EMEM
          else ext.lydict_insert_zc
            (canonical_name ctx (ext.identity_find value format pdata ctx_node).ident))
      ∧ [Event.check_hints value, Event.identity_find value format]
            ++ (identityref_check_ident ext ctx (ext.identity_find value format pdata ctx_node).ident
                  value options unres).trace
            ++ identityref_check_base.calls ext (ext.identity_find value format pdata ctx_node).ident
                type.bases
            ++ lyplg_type_store_identityref.status_events ctx ctx_node
                (ext.identity_find value format pdata ctx_node).ident
            ++ (if format = LY_VALUE_CANON then
                  if options &&& LYPLG_TYPE_STORE_DYNAMIC ≠ 0 then [Event.lydict_insert_zc value]
                  else [Event.lydict_insert value]
                else if ext.asprintf_fails
                    (canonical_name ctx (ext.identity_find value format pdata ctx_node).ident) = true
                  then [Event.asprintf
                    (canonical_name ctx (ext.identity_find value format pdata ctx_node).ident)]
                else [Event.asprintf
                        (canonical_name ctx (ext.identity_find value format pdata ctx_node).ident),
                      Event.lydict_insert_zc
                        (canonical_name ctx (ext.identity_find value format pdata ctx_node).ident)])
          <+: (lyplg_type_store_identityref ext ctx type value options format pdata hints ctx_node
            unres).trace)
    ∧ ((lyplg_type_store_identityref ext ctx type value options format pdata hints ctx_node
          unres).ret = LY_SUCCESS
      ↔ ((ext.check_hints hints value type.basetype).1 = LY_SUCCESS
        ∧ (ext.identity_find value format pdata ctx_node).ret = LY_SUCCESS
        ∧ (identityref_check_ident ext ctx (ext.identity_find value format pdata ctx_node).ident
            value options unres).ret = LY_SUCCESS
        ∧ (identityref_check_base ext ctx (ext.identity_find value format pdata ctx_node).ident type
            value).1 = LY_SUCCESS
        ∧ (∀ node, ctx_node = some node →
            (ext.check_status node
              (ctx.ident_at (ext.identity_find value format pdata ctx_node).ident).flags
              format pdata (ctx.ident_name (ext.identity_find value format pdata ctx_node).ident)).1
                = LY_SUCCESS)
        ∧ (if format = LY_VALUE_CANON then
            if options &&& LYPLG_TYPE_STORE_DYNAMIC ≠ 0 then ext.lydict_insert_zc value
            else ext.lydict_insert value
          else if ext.asprintf_fails
              (canonical_name ctx (ext.identity_find value format pdata ctx_node).ident) = true
            then LY_EMEM
          else ext.lydict_insert_zc
            (canonical_name ctx (ext.identity_find value format pdata ctx_node).ident))
            = LY_SUCCESS))
    ∧ (∀ f n, Event.check_status f n ∉ (lyplg_type_store_identityref ext ctx type value options
        format pdata hints none unres).trace)
    ∧ (∀ ctx' : ly_ctx,
        (∀ m, (ctx'.module_at m).name = (ctx.module_at m).name) →
        (∀ m, (ctx'.module_at m).implemented = (ctx.module_at m).implemented) →
        (∀ p, (ctx'.ident_at p).name = (ctx.ident_at p).name) →
        lyplg_type_store_identityref ext ctx' type value options format pdata hints none unres
          = lyplg_type_store_identityref ext ctx type value options format pdata hints none
              unres) := by
  refine ⟨?_, ?_, ?_, ?_, ?_, ?_, ?_, ?_, ?_⟩
  · intro hh
    rw [lyplg_type_store_identityref.hints_failure _ _ _ _ _ _ _ _ _ _ hh]
    exact ⟨rfl, rfl⟩
  · intro hh hf
    rw [lyplg_type_store_identityref.find_step_failure _ _ _ _ _ _ _ _ _ _ hh hf]
    exact ⟨rfl, rfl⟩
  · intro hh hf hc
    rw [lyplg_type_store_identityref.ident_failure _ _ _ _ _ _ _ _ _ _ hh hf hc]
    exact ⟨rfl, rfl⟩
  · intro hh hf hc hb
    rw [lyplg_type_store_identityref.base_failure _ _ _ _ _ _ _ _ _ _ hh hf hc hb]
    exact ⟨rfl, rfl⟩
  · intro hh hf hc hb node hn hs
    subst hn
    rw [lyplg_type_store_identityref.status_failure _ _ _ _ _ _ _ _ _ _ hh hf hc hb hs]
    exact ⟨rfl, rfl⟩
  · intro hh hf hc hb hs
    exact ⟨lyplg_type_store_identityref.ret_of_checks _ _ _ _ _ _ _ _ _ _ hh hf hc hb hs,
      lyplg_type_store_identityref.success_trace_prefix _ _ _ _ _ _ _ _ _ _ hh hf hc hb hs⟩
  · constructor
    · intro hok
      obtain ⟨hh, hf, hc, hb, hs, _⟩ :=
        lyplg_type_store_identityref.success_checks _ _ _ _ _ _ _ _ _ _ hok
      refine ⟨hh, hf, hc, hb, hs, ?_⟩
      rw [← lyplg_type_store_identityref.ret_of_checks _ _ _ _ _ _ _ _ _ _ hh hf hc hb hs]
      exact hok
    · rintro ⟨hh, hf, hc, hb, hs, hi⟩
      rw [lyplg_type_store_identityref.ret_of_checks _ _ _ _ _ _ _ _ _ _ hh hf hc hb hs]
      exact hi
  · intro f n
    exact lyplg_type_store_identityref.no_status_event _ _ _ _ _ _ _ _ _ f n
  · intro ctx' hmod himp hid
    exact lyplg_type_store_identityref.flags_irrelevant _ _ _ _ _ _ _ _ _ _ hmod himp hid

/-! ## The runs of the extension test -/

/-- The claim C20 on the identity `m:c`: without a schema node the store gives the same
result whether `c` is obsolete or not. -/
theorem lyplg_type_store_identityref_check_order_witness :
    (ctx_abc_obsolete.ident_at ident_c).flags ≠ (ctx_abc.ident_at ident_c).flags
    ∧ lyplg_type_store_identityref (spec_externals ctx_abc []) ctx_abc_obsolete type_a "m:c" 0
        LY_VALUE_JSON [] 0 none 0
      = lyplg_type_store_identityref (spec_externals ctx_abc []) ctx_abc type_a "m:c" 0
        LY_VALUE_JSON [] 0 none 0
    ∧ (lyplg_type_store_identityref (spec_externals ctx_abc []) ctx_abc type_a "m:c" 0
        LY_VALUE_JSON [] 0 none 0).ret = LY_SUCCESS :=
  ⟨by decide,
   (lyplg_type_store_identityref_check_order (spec_externals ctx_abc []) ctx_abc type_a "m:c" 0
      LY_VALUE_JSON [] 0 none 0).2.2.2.2.2.2.2.2 ctx_abc_obsolete
      (by intro m; rcases m with _ | m <;> rfl)
      (by intro m; rcases m with _ | m <;> rfl)
      (by intro p; rcases p with ⟨_ | m, _ | _ | _ | i⟩ <;> rfl),
   by decide⟩

/-! ## identityref_check_base: the size of the buffer -/

theorem c_strlen_terminated (text : List Char) (rest : List (Option Char))
    (h : c_null ∉ text) : c_strlen (text.map some ++ some c_null :: rest) = some text.length := by
  induction text with
  | nil => simp [c_strlen]
  | cons c t ih =>
    have hc : c ≠ c_null := fun e => h (by rw [e]; exact List.mem_cons_self _ _)
    have ht : c_null ∉ t := fun e => h (List.mem_cons_of_mem _ e)
    simp [c_strlen, hc, ih ht]

theorem ly_realloc_grow (buf : List (Option Char)) (size : Nat) (h : buf.length ≤ size) :
    ly_realloc buf size = buf ++ List.replicate (size - buf.length) none := by
  unfold ly_realloc
  rw [List.take_of_length_le h]

/-- A first `sprintf` into a fresh buffer of the size of the text and its terminator
fills it. -/
theorem c_sprintf_at_end (old text : List Char) (k : Nat) (hk : k = text.length) :
    c_sprintf (old.map some ++ List.replicate (k + 1) none) old.length text
      = some ((old ++ text).map some ++ [some c_null]) := by
  subst hk
  unfold c_sprintf
  have hlen : (old.map some ++ List.replicate (text.length + 1) (none : Option Char)).length
      = old.length + text.length + 1 := by simp; omega
  rw [if_pos (by rw [hlen])]
  have h1 : (old.map some ++ List.replicate (text.length + 1) (none : Option Char)).take old.length
      = old.map some := by
    rw [List.take_append_of_le_length (by simp)]
    exact List.take_of_length_le (by simp)
  have h2 : (old.map some ++ List.replicate (text.length + 1) (none : Option Char)).drop
      (old.length + text.length + 1) = [] := by
    apply List.drop_of_length_le
    rw [hlen]
  rw [h1, h2]
  simp

/-- A `sprintf` at the terminator of the old text, into a buffer grown by the length of
the new text, fills the buffer. -/
theorem c_sprintf_over_terminator (old text : List Char) (k : Nat) (hk : k = text.length) :
    c_sprintf (old.map some ++ [some c_null] ++ List.replicate k none) old.length text
      = some ((old ++ text).map some ++ [some c_null]) := by
  subst hk
  unfold c_sprintf
  have hlen : (old.map some ++ [some c_null] ++ List.replicate text.length (none : Option Char)).length
      = old.length + text.length + 1 := by simp; omega
  rw [if_pos (by rw [hlen])]
  have h1 : (old.map some ++ [some c_null] ++ List.replicate text.length (none : Option Char)).take
      old.length = old.map some := by
    rw [List.append_assoc, List.take_append_of_le_length (by simp)]
    exact List.take_of_length_le (by simp)
  have h2 : (old.map some ++ [some c_null] ++ List.replicate text.length (none : Option Char)).drop
      (old.length + text.length + 1) = [] := by
    apply List.drop_of_length_le
    rw [hlen]
  rw [h1, h2]
  simp

/-- The text of one `sprintf` has the length `str_len` was grown by. -/
theorem identityref_check_base.format_length (ctx : ly_ctx) (u : Nat) (base : ident_ptr) :
    (identityref_check_base.format ctx u base).length = identityref_check_base.size_of ctx u base := by
  unfold identityref_check_base.format identityref_check_base.size_of
  by_cases hu : u = 0
  · simp only [hu, ne_eq, not_true_eq_false, if_false, String.length_append]
    have h1 : ("" : String).length = 0 := rfl
    have h2 : ("\"" : String).length = 1 := rfl
    have h3 : (":" : String).length = 1 := rfl
    omega
  · simp only [hu, ne_eq, not_false_eq_true, if_true, String.length_append]
    have h1 : (", " : String).length = 2 := rfl
    have h2 : ("\"" : String).length = 1 := rfl
    have h3 : (":" : String).length = 1 := rfl
    omega

theorem identityref_check_base.format_no_null (ctx : ly_ctx) (u : Nat) (base : ident_ptr)
    (hm : c_null ∉ (ctx.ident_module_name base).data) (hn : c_null ∉ (ctx.ident_name base).data) :
    c_null ∉ (identityref_check_base.format ctx u base).data := by
  unfold identityref_check_base.format
  have hq : c_null ∉ ("\"" : String).data := by decide
  have hc : c_null ∉ (":" : String).data := by decide
  have hs : c_null ∉ (if u ≠ 0 then ", " else "" : String).data := by
    split <;> decide
  simp only [String.data_append, List.mem_append, not_or]
  exact ⟨⟨⟨⟨⟨hs, hq⟩, hm⟩, hc⟩, hn⟩, hq⟩

theorem identityref_check_base.sprintf_eq_format (ctx : ly_ctx) (u : Nat) (str : Option String)
    (base : ident_ptr) :
    identityref_check_base.sprintf ctx u str base
      = (if u ≠ 0 then str.getD "" else "") ++ identityref_check_base.format ctx u base := by
  unfold identityref_check_base.sprintf identityref_check_base.format
  simp only [String.append_assoc]

/-- The running `str_len` is the start value plus the sizes of the bases processed. -/
theorem identityref_check_base.build_str_len (ctx : ly_ctx) (bs : List ident_ptr) (u n : Nat)
    (str : Option String) :
    (identityref_check_base.build ctx bs u n str).2.1
      = n + ((bs.enumFrom u).map (fun p => identityref_check_base.size_of ctx p.1 p.2)).sum := by
  induction bs generalizing u n str with
  | nil => simp [identityref_check_base.build]
  | cons b bs ih =>
    simp only [identityref_check_base.build, List.enumFrom_cons, List.map_cons, List.sum_cons]
    rw [ih]
    unfold identityref_check_base.size_of
    omega

/-- From the second base on: when the buffer holds the text so far and its terminator and
`str_len` is the size of that, the loop on the buffer has a result, which holds the text
the loop on strings builds and its terminator, in a buffer of exactly the final
`str_len`. -/
theorem identityref_check_base.build_buffer_go (ctx : ly_ctx) (bs : List ident_ptr) (u n : Nat)
    (acc : String) (hu : u ≠ 0) (hacc : c_null ∉ acc.data) (hn : n = acc.length + 1)
    (hz : ∀ b ∈ bs, c_null ∉ (ctx.ident_module_name b).data ∧ c_null ∉ (ctx.ident_name b).data) :
    identityref_check_base.build_buffer ctx bs u n (acc.data.map some ++ [some c_null])
      = some ((identityref_check_base.build ctx bs u n (some acc)).1,
          (identityref_check_base.build ctx bs u n (some acc)).2.1,
          ((identityref_check_base.build ctx bs u n (some acc)).2.2.getD "").data.map some
            ++ [some c_null])
    ∧ (identityref_check_base.build ctx bs u n (some acc)).2.1
        = ((identityref_check_base.build ctx bs u n (some acc)).2.2.getD "").length + 1
    ∧ c_null ∉ ((identityref_check_base.build ctx bs u n (some acc)).2.2.getD "").data := by
  induction bs generalizing u n acc with
  | nil =>
    simp only [identityref_check_base.build_buffer, identityref_check_base.build,
      Option.getD_some]
    exact ⟨trivial, hn, hacc⟩
  | cons b rest ih =>
    have hb := hz b (List.mem_cons_self _ _)
    have hrest : ∀ x ∈ rest, c_null ∉ (ctx.ident_module_name x).data
        ∧ c_null ∉ (ctx.ident_name x).data := fun x hx => hz x (List.mem_cons_of_mem _ hx)
    have hfl := identityref_check_base.format_length ctx u b
    have hfn := identityref_check_base.format_no_null ctx u b hb.1 hb.2
    have hsp : identityref_check_base.sprintf ctx u (some acc) b
        = acc ++ identityref_check_base.format ctx u b := by
      rw [identityref_check_base.sprintf_eq_format]
      simp [hu]
    have hblen : (acc.data.map some ++ [some c_null]).length = n := by
      simp only [List.length_append, List.length_map, List.length_singleton]
      rw [hn]
      rfl
    have hre : ly_realloc (acc.data.map some ++ [some c_null])
        (n + identityref_check_base.size_of ctx u b)
        = acc.data.map some ++ [some c_null]
          ++ List.replicate (identityref_check_base.size_of ctx u b) none := by
      rw [ly_realloc_grow _ _ (by rw [hblen]; omega), hblen]
      congr 2
      omega
    have hlen : c_strlen (acc.data.map some ++ [some c_null]
          ++ List.replicate (identityref_check_base.size_of ctx u b) none) = some acc.data.length := by
      rw [List.append_assoc]
      exact c_strlen_terminated acc.data _ hacc
    have hwr := c_sprintf_over_terminator acc.data (identityref_check_base.format ctx u b).data
      (identityref_check_base.size_of ctx u b) (by rw [← hfl]; rfl)
    have hstep : identityref_check_base.build_buffer ctx (b :: rest) u n
          (acc.data.map some ++ [some c_null])
        = identityref_check_base.build_buffer ctx rest (u + 1)
            (n + identityref_check_base.size_of ctx u b)
            ((acc ++ identityref_check_base.format ctx u b).data.map some ++ [some c_null]) := by
      rw [identityref_check_base.build_buffer]
      simp only [hu, ne_eq, not_false_eq_true, if_true]
      have hre2 := hre
      unfold identityref_check_base.size_of at hre2
      simp only [hu, ne_eq, not_false_eq_true, if_true] at hre2
      rw [hre2]
      have hlen2 := hlen
      unfold identityref_check_base.size_of at hlen2
      simp only [hu, ne_eq, not_false_eq_true, if_true] at hlen2
      rw [hlen2]
      have hwr2 := hwr
      unfold identityref_check_base.size_of at hwr2
      simp only [hu, ne_eq, not_false_eq_true, if_true] at hwr2
      simp only [hwr2, String.data_append]
      unfold identityref_check_base.size_of
      simp only [hu, ne_eq, not_false_eq_true, if_true]
    have hbuild : identityref_check_base.build ctx (b :: rest) u n (some acc)
        = identityref_check_base.build ctx rest (u + 1)
            (n + identityref_check_base.size_of ctx u b)
            (some (acc ++ identityref_check_base.format ctx u b)) := by
      rw [identityref_check_base.build, hsp]
      rfl
    rw [hstep, hbuild]
    apply ih (u + 1) (n + identityref_check_base.size_of ctx u b)
      (acc ++ identityref_check_base.format ctx u b) (by omega)
    · simp only [String.data_append, List.mem_append, not_or]
      exact ⟨hacc, hfn⟩
    · rw [String.length_append, hfl, hn]
      omega
    · exact hrest

/-- The whole loop, from the null buffer and `str_len = 1`, on a list of bases that is not
empty: the loop on the buffer has a result, so every `strlen` and `sprintf` of it stays
inside the buffer, and the buffer it leaves holds the text the loop on strings builds and
its terminator and has exactly `str_len` bytes. -/
theorem identityref_check_base.build_buffer_eq (ctx : ly_ctx) (b : ident_ptr)
    (rest : List ident_ptr)
    (hz : ∀ x ∈ b :: rest, c_null ∉ (ctx.ident_module_name x).data
      ∧ c_null ∉ (ctx.ident_name x).data) :
    identityref_check_base.build_buffer ctx (b :: rest) 0 1 []
      = some ((identityref_check_base.build ctx (b :: rest) 0 1 none).1,
          (identityref_check_base.build ctx (b :: rest) 0 1 none).2.1,
          ((identityref_check_base.build ctx (b :: rest) 0 1 none).2.2.getD "").data.map some
            ++ [some c_null])
    ∧ (identityref_check_base.build ctx (b :: rest) 0 1 none).2.1
        = ((identityref_check_base.build ctx (b :: rest) 0 1 none).2.2.getD "").length + 1
    ∧ c_null ∉ ((identityref_check_base.build ctx (b :: rest) 0 1 none).2.2.getD "").data := by
  have hb := hz b (List.mem_cons_self _ _)
  have hrest : ∀ x ∈ rest, c_null ∉ (ctx.ident_module_name x).data
      ∧ c_null ∉ (ctx.ident_name x).data := fun x hx => hz x (List.mem_cons_of_mem _ hx)
  have hfl := identityref_check_base.format_length ctx 0 b
  have hfn := identityref_check_base.format_no_null ctx 0 b hb.1 hb.2
  have hsp : identityref_check_base.sprintf ctx 0 none b
      = identityref_check_base.format ctx 0 b := by
    rw [identityref_check_base.sprintf_eq_format]
    simp
  have hre : ly_realloc [] (1 + identityref_check_base.size_of ctx 0 b)
      = ([] : List Char).map some
          ++ List.replicate (identityref_check_base.size_of ctx 0 b + 1) none := by
    unfold ly_realloc
    simp only [List.take_nil, List.length_nil, Nat.sub_zero, List.nil_append, List.map_nil]
    rw [Nat.add_comm]
  have hwr := c_sprintf_at_end [] (identityref_check_base.format ctx 0 b).data
    (identityref_check_base.size_of ctx 0 b) (by rw [← hfl]; rfl)
  have hstep : identityref_check_base.build_buffer ctx (b :: rest) 0 1 []
      = identityref_check_base.build_buffer ctx rest (0 + 1)
          (1 + identityref_check_base.size_of ctx 0 b)
          ((identityref_check_base.format ctx 0 b).data.map some ++ [some c_null]) := by
    rw [identityref_check_base.build_buffer]
    simp only [ne_eq, not_true_eq_false, if_false]
    have hre2 := hre
    unfold identityref_check_base.size_of at hre2
    simp only [ne_eq, not_true_eq_false, if_false] at hre2
    rw [hre2]
    have hwr2 := hwr
    unfold identityref_check_base.size_of at hwr2
    simp only [ne_eq, not_true_eq_false, if_false, List.length_nil, List.nil_append] at hwr2
    simp only [hwr2]
    unfold identityref_check_base.size_of
    simp only [ne_eq, not_true_eq_false, if_false]
  have hbuild : identityref_check_base.build ctx (b :: rest) 0 1 none
      = identityref_check_base.build ctx rest (0 + 1)
          (1 + identityref_check_base.size_of ctx 0 b)
          (some (identityref_check_base.format ctx 0 b)) := by
    rw [identityref_check_base.build, hsp]
    rfl
  rw [hstep, hbuild]
  exact identityref_check_base.build_buffer_go ctx rest (0 + 1)
    (1 + identityref_check_base.size_of ctx 0 b) (identityref_check_base.format ctx 0 b)
    (by omega) hfn (by rw [hfl]; omega) hrest

/-- The loop on a list of bases followed by others is the loop on the first ones followed
by the loop on the others from the state the first ones leave. -/
theorem identityref_check_base.build_buffer_append (ctx : ly_ctx) (xs ys : List ident_ptr)
    (u n : Nat) (buf : List (Option Char)) :
    identityref_check_base.build_buffer ctx (xs ++ ys) u n buf
      = (identityref_check_base.build_buffer ctx xs u n buf).bind
          (fun s => identityref_check_base.build_buffer ctx ys s.1 s.2.1 s.2.2) := by
  induction xs generalizing u n buf with
  | nil => simp [identityref_check_base.build_buffer]
  | cons x xs ih =>
    simp only [List.cons_append, identityref_check_base.build_buffer]
    split
    · simp
    · split
      · simp
      · exact ih _ _ _

/-- C21: in the second loop of `identityref_check_base` (the failure branch), for a list
of bases whose names are C strings and every `k` from 1 to the number of bases: after
the first `k` bases the buffer holds the text written so far, which is the quoted bases
joined by `", "`, and its terminator, and the running `str_len` is the size of the
buffer, the length of that text plus one, and `1` plus the sum over these bases of
`(2 if not first) + 1 + len(module-name) + 1 + len(identity-name) + 1`. The loop on the
buffer has a result, so each `sprintf` writes within the buffer just reallocated (by a
`ly_realloc` that succeeds); the string in the buffer has length `str_len - 1`; the loop
on strings that `identityref_check_base` is written with leaves the same text and
`str_len`; and the loop on all the bases goes on from this state. -/
theorem identityref_check_base_str_len_exact (ctx : ly_ctx) (bases : List ident_ptr) (k : Nat)
    (hz : ∀ b ∈ bases, c_null ∉ (ctx.ident_module_name b).data
      ∧ c_null ∉ (ctx.ident_name b).data)
    (hk : 0 < k) (hkl : k ≤ bases.length) :
    ∃ text : String,
      text = ", ".intercalate ((bases.take k).map (quoted_base ctx))
      ∧ identityref_check_base.build_buffer ctx (bases.take k) 0 1 []
          = some (k, text.length + 1, text.data.map some ++ [some c_null])
      ∧ (text.data.map some ++ [some c_null]).length = text.length + 1
      ∧ text.length + 1
          = 1 + ((bases.take k).enum.map (fun p =>
              (if p.1 ≠ 0 then 2 else 0) + 1 + (ctx.ident_module_name p.2).length + 1
                + (ctx.ident_name p.2).length + 1)).sum
      ∧ c_strlen (text.data.map some ++ [some c_null]) = some (text.length + 1 - 1)
      ∧ identityref_check_base.build ctx (bases.take k) 0 1 none = (k, text.length + 1, some text)
      ∧ identityref_check_base.build_buffer ctx bases 0 1 []
          = identityref_check_base.build_buffer ctx (bases.drop k) k (text.length + 1)
              (text.data.map some ++ [some c_null]) := by
  obtain ⟨b, rest, hbr⟩ : ∃ b rest, bases.take k = b :: rest := by
    cases hb : bases.take k with
    | nil =>
      have hl : (bases.take k).length = min k bases.length := List.length_take _ _
      rw [hb] at hl
      simp only [List.length_nil] at hl
      omega
    | cons b rest => exact ⟨b, rest, rfl⟩
  have hlen : (bases.take k).length = k := by
    rw [List.length_take]
    omega
  have hz2 : ∀ x ∈ b :: rest, c_null ∉ (ctx.ident_module_name x).data
      ∧ c_null ∉ (ctx.ident_name x).data := by
    intro x hx
    rw [← hbr] at hx
    exact hz x (List.mem_of_mem_take hx)
  obtain ⟨h1, h2, h3⟩ := identityref_check_base.build_buffer_eq ctx b rest hz2
  have hstr := identityref_check_base.build_str ctx b rest
  have hfst := identityref_check_base.build_fst ctx (b :: rest) 0 1 none
  have hsum := identityref_check_base.build_str_len ctx (b :: rest) 0 1 none
  have hcnt : 0 + (b :: rest).length = k := by
    rw [← hbr, hlen]
    omega
  rw [hstr] at h1 h2 h3
  rw [hfst, hcnt] at h1
  simp only [Option.getD_some] at h1 h2 h3
  rw [h2] at h1
  have hbuf : identityref_check_base.build_buffer ctx (bases.take k) 0 1 []
      = some (k, (", ".intercalate ((bases.take k).map (quoted_base ctx))).length + 1,
          (", ".intercalate ((bases.take k).map (quoted_base ctx))).data.map some
            ++ [some c_null]) := by
    rw [hbr]
    exact h1
  refine ⟨", ".intercalate ((bases.take k).map (quoted_base ctx)), rfl, hbuf, ?_, ?_, ?_, ?_, ?_⟩
  · simp only [List.length_append, List.length_map, List.length_singleton]
    rfl
  · rw [hbr, ← h2, hsum]
    rfl
  · rw [hbr]
    simp only [Nat.add_sub_cancel]
    exact c_strlen_terminated _ [] h3
  · rw [hbr]
    apply Prod.ext
    · exact hfst.trans hcnt
    · apply Prod.ext
      · exact h2
      · exact hstr
  · have happ := identityref_check_base.build_buffer_append ctx (bases.take k) (bases.drop k)
      0 1 []
    rw [List.take_append_drop, hbuf] at happ
    exact happ

/-- The claim C21 on the two bases `m:b` and `m:a`: after both, the buffer holds
`"m:b", "m:a"` and its terminator, 13 bytes, and `str_len` is 13. -/
theorem identityref_check_base_str_len_exact_witness :
    (∀ b ∈ type_b_a.bases, c_null ∉ (ctx_abc.ident_module_name b).data
      ∧ c_null ∉ (ctx_abc.ident_name b).data)
    ∧ identityref_check_base.build_buffer ctx_abc (type_b_a.bases.take 2) 0 1 []
        = some (2, 13, ("\"m:b\", \"m:a\"" : String).data.map some ++ [some c_null])
    ∧ identityref_check_base.build ctx_abc (type_b_a.bases.take 2) 0 1 none
        = (2, 13, some "\"m:b\", \"m:a\"") := by
  obtain ⟨text, ht, hb, _, _, _, hs, _⟩ :=
    identityref_check_base_str_len_exact ctx_abc type_b_a.bases 2 (by decide) (by decide)
      (by decide)
  have htext : text = "\"m:b\", \"m:a\"" := by
    rw [ht]
    decide
  subst htext
  exact ⟨by decide, hb, hs⟩

/-! ## revision_label_scheme_compile: what a failing check leaves -/

/-- A message of Find starts with `Invalid identityref`. -/
theorem lyplg_type_identity_find_failure_message (ctx : ly_ctx) (value : String)
    (format : LY_VALUE_FORMAT) (pdata : prefix_data) (node : Option lysc_node)
    (h : (lyplg_type_identity_find ctx value format pdata node).ret ≠ LY_SUCCESS) :
    ∃ e, (lyplg_type_identity_find ctx value format pdata node).err = some e
      ∧ e.msg.data.head? = some 'I' := by
  unfold lyplg_type_identity_find at h ⊢
  simp only at h ⊢
  split
  · exact ⟨_, rfl, by simp [String.data_append]⟩
  · rename_i m hm
    rw [hm] at h
    simp only at h
    split
    · exact ⟨_, rfl, by simp [String.data_append]⟩
    · rename_i i hi
      rw [hi] at h
      simp at h

/-- What `lyplg_ext_log` prints for a format starts with the first character of the
format, when that is not a percent sign. -/
theorem log_message_of_err_head (e : ly_err_item) (c : Char) (hc : c ≠ '%')
    (h : e.msg.data.head? = some c) (s : String) (hs : log_message_of_err (some e) = some s) :
    s.data.head? = some c := by
  unfold log_message_of_err at hs
  simp only at hs
  cases hd : e.msg.data with
  | nil => rw [hd] at h; simp at h
  | cons c2 rest =>
    rw [hd] at h hs
    simp only [List.head?_cons, Option.some.injEq] at h
    subst h
    rw [format_without_args.eq_4 c2 rest (by intro r e; exact absurd e hc)
      (by intro e; exact absurd e hc)] at hs
    cases hfr : format_without_args rest with
    | none => rw [hfr] at hs; simp at hs
    | some out =>
      rw [hfr] at hs
      simp only [Option.map_some', Option.some.injEq] at hs
      rw [← hs]
      rfl

/-! ## revision_label_scheme_compile: the placement and duplicate diagnostics -/

/-- For a parent that is a module or a submodule, when Find is the operation the
specification describes, no message `revision_label_scheme_compile` logs is a placement
text. -/
theorem revision_label_scheme_compile.no_placement_text (ext : externals)
    (cx : compile_externals) (cctx : lysc_ctx) (p_ext : lysp_ext_instance)
    (c_ext : lysc_ext_instance) (parent : lysc_module)
    (hp : c_ext.parent_stmt = LY_STMT_MODULE ∨ c_ext.parent_stmt = LY_STMT_SUBMODULE)
    (hfind : ext.identity_find = lyplg_type_identity_find (lysc_ctx_get_ctx cctx))
    (level : LY_LOG_LEVEL) (no : LY_ERR) (path : String) (msg : Option String)
    (h : ext_event.lyplg_ext_log level no path msg
      ∈ (revision_label_scheme_compile ext cx cctx p_ext c_ext parent).trace)
    (name stmt : String) :
    msg ≠ some ("Extension " ++ name
      ++ " is allowed only at the top level of a YANG module or submodule, but it is placed in \""
      ++ stmt ++ "\" statement.") := by
  obtain ⟨_, _, _, hm⟩ := revision_label_scheme_compile.log_events ext cx cctx p_ext c_ext
    parent level no path msg h
  rcases hm with ⟨h1, h2, _⟩ | ⟨_, _, hm⟩ | ⟨_, _, hf, hm⟩ | ⟨_, _, _, m, _, hm⟩
  · rcases hp with hp | hp
    · exact absurd hp h1
    · exact absurd hp h2
  · rw [hm]
    intro he
    have h2 := congrArg (fun t : Option String => t.map (fun u => u.data.reverse.take 2)) he
    simp at h2
  · rw [hfind] at hf hm
    obtain ⟨e, he, hhead⟩ := lyplg_type_identity_find_failure_message _ _ _ _ _ hf
    rw [he] at hm
    rw [hm]
    intro hs
    have h2 := log_message_of_err_head e 'I' (by decide) hhead _ hs
    simp at h2
  · rw [hm]
    intro he
    have h2 := congrArg (fun t : Option String => t.map (fun u => u.data.head?)) he
    simp at h2

/-- When no other entry of the parent's list has the definition of the instance and Find
is the operation the specification describes, no message `revision_label_scheme_compile`
logs is a duplicate text. -/
theorem revision_label_scheme_compile.no_duplicate_text (ext : externals)
    (cx : compile_externals) (cctx : lysc_ctx) (p_ext : lysp_ext_instance)
    (c_ext : lysc_ext_instance) (parent : lysc_module)
    (hd : ∀ e ∈ parent.exts, e.addr ≠ c_ext.addr → e.«def» ≠ c_ext.«def»)
    (hfind : ext.identity_find = lyplg_type_identity_find (lysc_ctx_get_ctx cctx))
    (level : LY_LOG_LEVEL) (no : LY_ERR) (path : String) (msg : Option String)
    (h : ext_event.lyplg_ext_log level no path msg
      ∈ (revision_label_scheme_compile ext cx cctx p_ext c_ext parent).trace)
    (name : String) :
    msg ≠ some ("Extension " ++ name ++ " is instantiated multiple times.") := by
  obtain ⟨_, _, _, hm⟩ := revision_label_scheme_compile.log_events ext cx cctx p_ext c_ext
    parent level no path msg h
  rcases hm with ⟨_, _, hm⟩ | ⟨_, ⟨e, he, hne, hdef⟩, _⟩ | ⟨_, _, hf, hm⟩ | ⟨_, _, _, m, _, hm⟩
  · rw [hm]
    intro he
    have h2 := congrArg (fun t : Option String => t.map (fun u => u.data.reverse.take 2)) he
    simp at h2
  · exact absurd hdef (hd e he hne)
  · rw [hfind] at hf hm
    obtain ⟨e, he, hhead⟩ := lyplg_type_identity_find_failure_message _ _ _ _ _ hf
    rw [he] at hm
    rw [hm]
    intro hs
    have h2 := log_message_of_err_head e 'I' (by decide) hhead _ hs
    simp at h2
  · rw [hm]
    intro he
    have h2 := congrArg (fun t : Option String => t.map (fun u => u.data.head?)) he
    simp at h2

/-- C13: when the parent statement of the instance is neither a module nor a submodule,
`revision_label_scheme_compile` returns `LY_EVALID`, leaves the instance as it was and
makes one call, `lyplg_ext_log` with `Extension <name> is allowed only at the top level
of a YANG module or submodule, but it is placed in "<parent-stmt>" statement.`, where
`<parent-stmt>` is `ly_stmt2str` of the parent statement kind: for every argument, parent
extension list and context. When the parent is a module or a submodule, every call of
`lyplg_ext_log` is that of the duplicate check, of the failure of Find (with the message
of Find as the format) or of the subtyping check; and, Find being the operation the
specification describes, no message logged is a placement text, whatever the extension
name and the statement kind in it. -/
theorem revision_label_scheme_compile_placement (ext : externals) (cx : compile_externals)
    (cctx : lysc_ctx) (p_ext : lysp_ext_instance) (c_ext : lysc_ext_instance)
    (parent : lysc_module) :
    ((c_ext.parent_stmt ≠ LY_STMT_MODULE ∧ c_ext.parent_stmt ≠ LY_STMT_SUBMODULE) →
      revision_label_scheme_compile ext cx cctx p_ext c_ext parent
        = { ret := LY_EVALID, c_ext := c_ext,
            trace := [ext_event.lyplg_ext_log LY_LLERR LY_EVALID (lysc_ctx_get_path cctx)
              (some ("Extension " ++ p_ext.name
                ++ " is allowed only at the top level of a YANG module or submodule, but it is placed in \""
                ++ cx.ly_stmt2str c_ext.parent_stmt ++ "\" statement."))] })
    ∧ ((c_ext.parent_stmt = LY_STMT_MODULE ∨ c_ext.parent_stmt = LY_STMT_SUBMODULE) →
        ∀ level no path msg, ext_event.lyplg_ext_log level no path msg
            ∈ (revision_label_scheme_compile ext cx cctx p_ext c_ext parent).trace →
          msg = some ("Extension " ++ p_ext.name ++ " is instantiated multiple times.")
          ∨ (msg = log_message_of_err
                (ext.identity_find c_ext.argument LY_VALUE_SCHEMA parent.parsed none).err
              ∧ (ext.identity_find c_ext.argument LY_VALUE_SCHEMA parent.parsed none).ret
                  ≠ LY_SUCCESS)
          ∨ ∃ m, msg = some ("Argument of the " ++ p_ext.name
                ++ " extension must be an identity derived from "
                ++ (lysc_ctx_get_ctx cctx).ident_module_name { mod := m, index := 0 } ++ ":"
                ++ (lysc_ctx_get_ctx cctx).ident_name { mod := m, index := 0 } ++ "."))
    ∧ ((c_ext.parent_stmt = LY_STMT_MODULE ∨ c_ext.parent_stmt = LY_STMT_SUBMODULE) →
        ext.identity_find = lyplg_type_identity_find (lysc_ctx_get_ctx cctx) →
        ∀ level no path msg, ext_event.lyplg_ext_log level no path msg
            ∈ (revision_label_scheme_compile ext cx cctx p_ext c_ext parent).trace →
          ∀ name stmt : String,
            msg ≠ some ("Extension " ++ name
              ++ " is allowed only at the top level of a YANG module or submodule, but it is placed in \""
              ++ stmt ++ "\" statement.")) := by
  refine ⟨?_, ?_, ?_⟩
  · rintro ⟨h1, h2⟩
    apply revision_label_scheme_compile.cases ext cx cctx p_ext c_ext parent (P := fun r => r = _)
    · intro _ _; rfl
    · intro hp; rcases hp with hp | hp
      · exact absurd hp h1
      · exact absurd hp h2
    · intro hp; rcases hp with hp | hp
      · exact absurd hp h1
      · exact absurd hp h2
    · intro hp; rcases hp with hp | hp
      · exact absurd hp h1
      · exact absurd hp h2
    · intro hp; rcases hp with hp | hp
      · exact absurd hp h1
      · exact absurd hp h2
    · intro hp; rcases hp with hp | hp
      · exact absurd hp h1
      · exact absurd hp h2
  · intro hp level no path msg h
    obtain ⟨_, _, _, hm⟩ := revision_label_scheme_compile.log_events ext cx cctx p_ext c_ext
      parent level no path msg h
    rcases hm with ⟨h1, h2, _⟩ | ⟨_, _, hm⟩ | ⟨_, _, hf, hm⟩ | ⟨_, _, _, m, _, hm⟩
    · rcases hp with hp | hp
      · exact absurd hp h1
      · exact absurd hp h2
    · exact Or.inl hm
    · exact Or.inr (Or.inl ⟨hm, hf⟩)
    · exact Or.inr (Or.inr ⟨m, hm⟩)
  · intro hp hfind level no path msg h name stmt
    exact revision_label_scheme_compile.no_placement_text ext cx cctx p_ext c_ext parent hp hfind
      level no path msg h name stmt

/-- The claim C13 in the runs of the test: for the instance inside an `identity`
statement the placement text with `identity` is logged; for the instance at the top level
of module `aa` whose argument is not derived from the scheme base, the message logged is
not a placement text. -/
theorem revision_label_scheme_compile_placement_witness :
    cx_rev.ly_stmt2str c_ext_in_identity.parent_stmt = "identity"
    ∧ revision_label_scheme_compile (spec_externals ctx_rev []) cx_rev cctx_aa p_ext_rev
        c_ext_in_identity parent_aa
      = { ret := LY_EVALID, c_ext := c_ext_in_identity,
          trace := [ext_event.lyplg_ext_log LY_LLERR LY_EVALID (lysc_ctx_get_path cctx_aa)
            (some ("Extension " ++ p_ext_rev.name
              ++ " is allowed only at the top level of a YANG module or submodule, but it is placed in \""
              ++ cx_rev.ly_stmt2str c_ext_in_identity.parent_stmt ++ "\" statement."))] }
    ∧ (∀ level no path msg, ext_event.lyplg_ext_log level no path msg
          ∈ (revision_label_scheme_compile (spec_externals ctx_rev []) cx_rev cctx_aa p_ext_rev
              c_ext_testver parent_aa).trace →
        ∀ name stmt : String,
          msg ≠ some ("Extension " ++ name
            ++ " is allowed only at the top level of a YANG module or submodule, but it is placed in \""
            ++ stmt ++ "\" statement.")) :=
  ⟨by decide,
   (revision_label_scheme_compile_placement (spec_externals ctx_rev []) cx_rev cctx_aa p_ext_rev
      c_ext_in_identity parent_aa).1 ⟨by decide, by decide⟩,
   (revision_label_scheme_compile_placement (spec_externals ctx_rev []) cx_rev cctx_aa p_ext_rev
      c_ext_testver parent_aa).2.2 (Or.inl rfl) rfl⟩

/-- C14: for an instance at a module or submodule, when the parent's compiled extension
list holds, at any position, an entry other than the instance itself with the definition
of the instance, `revision_label_scheme_compile` returns `LY_EVALID`, leaves the instance
as it was and makes one call, `lyplg_ext_log` with `Extension <name> is instantiated
multiple times.`. When the list holds no such entry, every call of `lyplg_ext_log` is that
of the placement check, of the failure of Find (with the message of Find as the format) or
of the subtyping check; and, Find being the operation the specification describes, no
message logged is a duplicate text, whatever the extension name in it. Hence the
compilation fails whenever two entries of the list have the definition of the
instance. -/
theorem revision_label_scheme_compile_duplicate (ext : externals) (cx : compile_externals)
    (cctx : lysc_ctx) (p_ext : lysp_ext_instance) (c_ext : lysc_ext_instance)
    (parent : lysc_module) :
    ((c_ext.parent_stmt = LY_STMT_MODULE ∨ c_ext.parent_stmt = LY_STMT_SUBMODULE) →
      ∀ before after e, parent.exts = before ++ e :: after →
        e.addr ≠ c_ext.addr → e.«def» = c_ext.«def» →
        revision_label_scheme_compile ext cx cctx p_ext c_ext parent
          = { ret := LY_EVALID, c_ext := c_ext,
              trace := [ext_event.lyplg_ext_log LY_LLERR LY_EVALID (lysc_ctx_get_path cctx)
                (some ("Extension " ++ p_ext.name ++ " is instantiated multiple times."))] })
    ∧ ((∀ e ∈ parent.exts, e.addr ≠ c_ext.addr → e.«def» ≠ c_ext.«def») →
        ∀ level no path msg, ext_event.lyplg_ext_log level no path msg
            ∈ (revision_label_scheme_compile ext cx cctx p_ext c_ext parent).trace →
          msg = some ("Extension " ++ p_ext.name
              ++ " is allowed only at the top level of a YANG module or submodule, but it is placed in \""
              ++ cx.ly_stmt2str c_ext.parent_stmt ++ "\" statement.")
          ∨ (msg = log_message_of_err
                (ext.identity_find c_ext.argument LY_VALUE_SCHEMA parent.parsed none).err
              ∧ (ext.identity_find c_ext.argument LY_VALUE_SCHEMA parent.parsed none).ret
                  ≠ LY_SUCCESS)
          ∨ ∃ m, msg = some ("Argument of the " ++ p_ext.name
                ++ " extension must be an identity derived from "
                ++ (lysc_ctx_get_ctx cctx).ident_module_name { mod := m, index := 0 } ++ ":"
                ++ (lysc_ctx_get_ctx cctx).ident_name { mod := m, index := 0 } ++ "."))
    ∧ ((∀ e ∈ parent.exts, e.addr ≠ c_ext.addr → e.«def» ≠ c_ext.«def») →
        ext.identity_find = lyplg_type_identity_find (lysc_ctx_get_ctx cctx) →
        ∀ level no path msg, ext_event.lyplg_ext_log level no path msg
            ∈ (revision_label_scheme_compile ext cx cctx p_ext c_ext parent).trace →
          ∀ name : String, msg ≠ some ("Extension " ++ name ++ " is instantiated multiple times."))
    ∧ (∀ e1 ∈ parent.exts, ∀ e2 ∈ parent.exts, e1.addr ≠ e2.addr →
        e1.«def» = c_ext.«def» → e2.«def» = c_ext.«def» →
        (revision_label_scheme_compile ext cx cctx p_ext c_ext parent).ret = LY_EVALID
        ∧ (revision_label_scheme_compile ext cx cctx p_ext c_ext parent).c_ext = c_ext) := by
  refine ⟨?_, ?_, ?_, ?_⟩
  · intro hp before after e hl hne hdef
    have hex : ∃ x ∈ parent.exts, x.addr ≠ c_ext.addr ∧ x.«def» = c_ext.«def» :=
      ⟨e, by rw [hl]; simp, hne, hdef⟩
    apply revision_label_scheme_compile.cases ext cx cctx p_ext c_ext parent (P := fun r => r = _)
    · intro h1 h2
      rcases hp with hp | hp
      · exact absurd hp h1
      · exact absurd hp h2
    · intro _ _; rfl
    · intro _ h; exact absurd hex h
    · intro _ h; exact absurd hex h
    · intro _ h; exact absurd hex h
    · intro _ h; exact absurd hex h
  · intro hall level no path msg h
    obtain ⟨_, _, _, hm⟩ := revision_label_scheme_compile.log_events ext cx cctx p_ext c_ext
      parent level no path msg h
    rcases hm with ⟨_, _, hm⟩ | ⟨_, ⟨e, he, hne, hdef⟩, _⟩ | ⟨_, _, hf, hm⟩ | ⟨_, _, _, m, _, hm⟩
    · exact Or.inl hm
    · exact absurd hdef (hall e he hne)
    · exact Or.inr (Or.inl ⟨hm, hf⟩)
    · exact Or.inr (Or.inr ⟨m, hm⟩)
  · intro hall hfind level no path msg h name
    exact revision_label_scheme_compile.no_duplicate_text ext cx cctx p_ext c_ext parent hall
      hfind level no path msg h name
  · intro e1 he1 e2 he2 hne hd1 hd2
    have hex : ∃ x ∈ parent.exts, x.addr ≠ c_ext.addr ∧ x.«def» = c_ext.«def» := by
      by_cases h : e1.addr = c_ext.addr
      · exact ⟨e2, he2, fun h2 => hne (h.trans h2.symm), hd2⟩
      · exact ⟨e1, he1, h, hd1⟩
    apply revision_label_scheme_compile.cases ext cx cctx p_ext c_ext parent
      (P := fun r => r.ret = LY_EVALID ∧ r.c_ext = c_ext)
    · intro _ _; exact ⟨rfl, rfl⟩
    · intro _ _; exact ⟨rfl, rfl⟩
    · intro _ h; exact absurd hex h
    · intro _ h; exact absurd hex h
    · intro _ h; exact absurd hex h
    · intro _ h; exact absurd hex h

/-- The claim C14 in the runs of the test: in the module that holds two instances the
compile of the first one, which the other follows, fails with the duplicate text; in the
module `aa` that holds one instance, whose argument is not derived from the scheme base,
the message logged is not a duplicate text. -/
theorem revision_label_scheme_compile_duplicate_witness :
    revision_label_scheme_compile (spec_externals ctx_rev []) cx_rev cctx_aa p_ext_rev
        c_ext_testver parent_aa_twice
      = { ret := LY_EVALID, c_ext := c_ext_testver,
          trace := [ext_event.lyplg_ext_log LY_LLERR LY_EVALID (lysc_ctx_get_path cctx_aa)
            (some ("Extension " ++ p_ext_rev.name ++ " is instantiated multiple times."))] }
    ∧ (∀ level no path msg, ext_event.lyplg_ext_log level no path msg
          ∈ (revision_label_scheme_compile (spec_externals ctx_rev []) cx_rev cctx_aa p_ext_rev
              c_ext_testver parent_aa).trace →
        ∀ name : String, msg ≠ some ("Extension " ++ name ++ " is instantiated multiple times.")) :=
  ⟨(revision_label_scheme_compile_duplicate (spec_externals ctx_rev []) cx_rev cctx_aa p_ext_rev
      c_ext_testver parent_aa_twice).1 (Or.inl rfl) [c_ext_testver] [] c_ext_second rfl
      (by decide) rfl,
   (revision_label_scheme_compile_duplicate (spec_externals ctx_rev []) cx_rev cctx_aa p_ext_rev
      c_ext_testver parent_aa).2.2.1 (by decide) rfl⟩

/-! ## revision_label_scheme_compile: the subtyping check -/

/-- C15: for a correctly placed, non-duplicated instance whose argument Find resolves to
an identity that is not derived from the scheme base, `revision_label_scheme_compile`
returns `LY_EVALID`, leaves the payload as it was and, after the module lookup, Find and
the subtyping check, logs one record: its message is `Argument of the <name> extension
must be an identity derived from <base-module>:<base-name>.`, which names the required
base by its qualified name, `ietf-yang-revisions` and the name of the first identity of
that module; its path is the context path of the instance, which ends with the offending
argument. -/
theorem revision_label_scheme_compile_not_derived (ext : externals) (cx : compile_externals)
    (cctx : lysc_ctx) (p_ext : lysp_ext_instance) (c_ext : lysc_ext_instance)
    (parent : lysc_module) (m : Nat) (module_name : String)
    (hp : c_ext.parent_stmt = LY_STMT_MODULE ∨ c_ext.parent_stmt = LY_STMT_SUBMODULE)
    (hd : ∀ e ∈ parent.exts, e.addr ≠ c_ext.addr → e.«def» ≠ c_ext.«def»)
    (hm : ly_ctx_get_module (lysc_ctx_get_ctx cctx) REVISIONS_NAME REVISIONS_REV = some m)
    (hf : (ext.identity_find c_ext.argument LY_VALUE_SCHEMA parent.parsed none).ret = LY_SUCCESS)
    (hi : ext.identity_isderived { mod := m, index := 0 }
      (ext.identity_find c_ext.argument LY_VALUE_SCHEMA parent.parsed none).ident ≠ LY_SUCCESS)
    (hpath : lysc_ctx_get_path cctx = lysc_ctx.instance_path module_name p_ext c_ext) :
    revision_label_scheme_compile ext cx cctx p_ext c_ext parent
      = { ret := LY_EVALID, c_ext := c_ext,
          trace := [ext_event.ly_ctx_get_module "ietf-yang-revisions" "2021-11-04",
            ext_event.identity_find c_ext.argument LY_VALUE_SCHEMA parent.parsed,
            ext_event.identity_isderived { mod := m, index := 0 }
              (ext.identity_find c_ext.argument LY_VALUE_SCHEMA parent.parsed none).ident,
            ext_event.lyplg_ext_log LY_LLERR LY_EVALID
              (lysc_ctx.instance_path module_name p_ext c_ext)
              (some ("Argument of the " ++ p_ext.name
                ++ " extension must be an identity derived from "
                ++ "ietf-yang-revisions" ++ ":"
                ++ (((lysc_ctx_get_ctx cctx).module_at m).identities.getD 0 default).name
                ++ "."))] }
    ∧ c_ext.argument.data <:+ (lysc_ctx.instance_path module_name p_ext c_ext).data
    ∧ ("ietf-yang-revisions" ++ ":"
          ++ (((lysc_ctx_get_ctx cctx).module_at m).identities.getD 0 default).name).data
        <:+: ("Argument of the " ++ p_ext.name
                ++ " extension must be an identity derived from "
                ++ "ietf-yang-revisions" ++ ":"
                ++ (((lysc_ctx_get_ctx cctx).module_at m).identities.getD 0 default).name
                ++ ".").data
    ∧ (lysc_ctx_get_ctx cctx).ident_module_name { mod := m, index := 0 } = "ietf-yang-revisions"
    ∧ (lysc_ctx_get_ctx cctx).ident_name { mod := m, index := 0 }
        = (((lysc_ctx_get_ctx cctx).module_at m).identities.getD 0 default).name := by
  have hs := ly_ctx_get_module_eq_some _ _ _ _ hm
  have hname : (lysc_ctx_get_ctx cctx).ident_module_name { mod := m, index := 0 }
      = "ietf-yang-revisions" := hs.2.1
  refine ⟨?_, ?_, ?_, hname, rfl⟩
  · rw [← hpath]
    apply revision_label_scheme_compile.cases ext cx cctx p_ext c_ext parent (P := fun r => r = _)
    · intro h1 h2
      rcases hp with hp | hp
      · exact absurd hp h1
      · exact absurd hp h2
    · rintro _ ⟨e, he, hne, hdef⟩
      exact absurd hdef (hd e he hne)
    · intro _ _ h
      rw [hm] at h
      cases h
    · intro _ _ _ _ h
      exact absurd hf h
    · intro _ _ m2 hm2 _ _
      have hmm : m2 = m := by
        rw [hm] at hm2
        exact (Option.some.inj hm2).symm
      subst hmm
      rw [hname]
      rfl
    · intro _ _ m2 hm2 _ h
      have hmm : m2 = m := by
        rw [hm] at hm2
        exact (Option.some.inj hm2).symm
      subst hmm
      exact absurd h hi
  · unfold lysc_ctx.instance_path
    rw [String.data_append]
    exact List.suffix_append _ _
  · refine ⟨("Argument of the " ++ p_ext.name
        ++ " extension must be an identity derived from ").data, (".").data, ?_⟩
    simp only [String.data_append, List.append_assoc]

/-- The claim C15 in the run of the test: module `aa`, whose `testver-scheme` has no
base. The record logged has the message the test expects and the path
`/aa:{extension='rev:revision-label-scheme'}/testver-scheme`. -/
theorem revision_label_scheme_compile_not_derived_witness :
    lysc_ctx_get_path cctx_aa = lysc_ctx.instance_path "aa" p_ext_rev c_ext_testver
    ∧ revision_label_scheme_compile (spec_externals ctx_rev []) cx_rev cctx_aa p_ext_rev
        c_ext_testver parent_aa
      = { ret := LY_EVALID, c_ext := c_ext_testver,
          trace := [ext_event.ly_ctx_get_module "ietf-yang-revisions" "2021-11-04",
            ext_event.identity_find "testver-scheme" LY_VALUE_SCHEMA parent_aa.parsed,
            ext_event.identity_isderived { mod := 0, index := 0 } { mod := 2, index := 0 },
            ext_event.lyplg_ext_log LY_LLERR LY_EVALID
              (lysc_ctx.instance_path "aa" p_ext_rev c_ext_testver)
              (some ("Argument of the " ++ "rev:revision-label-scheme"
                ++ " extension must be an identity derived from "
                ++ "ietf-yang-revisions" ++ ":" ++ "revision-label-scheme-base" ++ "."))] }
    ∧ ("testver-scheme" : String).data
        <:+ (lysc_ctx.instance_path "aa" p_ext_rev c_ext_testver).data :=
  ⟨by decide,
   (revision_label_scheme_compile_not_derived (spec_externals ctx_rev []) cx_rev cctx_aa p_ext_rev
      c_ext_testver parent_aa 0 "aa" (Or.inl rfl) (by decide) (by decide) (by decide) (by decide)
      (by decide)).1,
   (revision_label_scheme_compile_not_derived (spec_externals ctx_rev []) cx_rev cctx_aa p_ext_rev
      c_ext_testver parent_aa 0 "aa" (Or.inl rfl) (by decide) (by decide) (by decide) (by decide)
      (by decide)).2.1⟩

/-! ## revision_label_scheme_compile: every failing step logs once -/

theorem split_qname_qualified (m n : String) (h : ':' ∉ m.data) :
    split_qname (m ++ ":" ++ n) = (some m, n) := by
  unfold split_qname
  have hall : ∀ a ∈ m.data, (fun c : Char => decide (c ≠ ':')) a = true := by
    intro a ha
    have : a ≠ ':' := fun e => h (e ▸ ha)
    simpa using this
  have hd : (m ++ ":" ++ n).data = m.data ++ ':' :: n.data := by
    simp [String.data_append]
  rw [hd, List.span_eq_take_drop, List.takeWhile_append_of_pos hall,
    List.dropWhile_append_of_pos hall]
  simp

/-- The first entry of a list that satisfies a test is found at its index. -/
theorem ly_ctx.findIdx_of_first {α : Type} [Inhabited α] (l : List α) (p : α → Bool) (i : Nat)
    (hi : i < l.length) (hp : p (l.getD i default) = true)
    (hfirst : ∀ j, j < i → p (l.getD j default) = false) :
    l.findIdx? p = some i := by
  rw [List.findIdx?_eq_some_iff_getElem]
  refine ⟨hi, ?_, ?_⟩
  · rw [List.getD_eq_getElem _ _ hi] at hp
    exact hp
  · intro j hji
    have := hfirst j hji
    rw [List.getD_eq_getElem _ _ (Nat.lt_trans hji hi)] at this
    simp [this]

/-- In a registry where a module name names one module, an identity name names one
identity of its module and a module name holds no colon, Find in the JSON format resolves
the canonical string `<module-name>:<identity-name>` of an identity to that identity. -/
theorem lyplg_type_identity_find_canonical_name (ctx : ly_ctx) (ident : ident_ptr)
    (pdata : prefix_data) (node : Option lysc_node)
    (hcolon : ':' ∉ (ctx.ident_module_name ident).data)
    (hmod : ident.mod < ctx.modules.length)
    (humod : ∀ j, j < ident.mod → (ctx.module_at j).name ≠ (ctx.module_at ident.mod).name)
    (hidx : ident.index < (ctx.module_at ident.mod).identities.length)
    (huid : ∀ j, j < ident.index →
      ((ctx.module_at ident.mod).identities.getD j default).name ≠ (ctx.ident_at ident).name) :
    lyplg_type_identity_find ctx (canonical_name ctx ident) LY_VALUE_JSON pdata node
      = { ret := LY_SUCCESS, ident := ident, err := none } := by
  have hq : split_qname (canonical_name ctx ident)
      = (some (ctx.ident_module_name ident), ctx.ident_name ident) :=
    split_qname_qualified _ _ hcolon
  have hm : ctx.modules.findIdx? (fun m => decide (m.name = ctx.ident_module_name ident))
      = some ident.mod := by
    apply ly_ctx.findIdx_of_first _ _ _ hmod
    · simp [ly_ctx.ident_module_name, ly_ctx.module_at]
    · intro j hj
      have := humod j hj
      simpa [ly_ctx.ident_module_name, ly_ctx.module_at] using this
  have hi : (ctx.module_at ident.mod).identities.findIdx?
      (fun i => decide (i.name = ctx.ident_name ident)) = some ident.index := by
    apply ly_ctx.findIdx_of_first _ _ _ hidx
    · simp [ly_ctx.ident_name, ly_ctx.ident_at]
    · intro j hj
      have := huid j hj
      simpa [ly_ctx.ident_name] using this
  unfold lyplg_type_identity_find
  simp only [hq, resolve_module, hm, hi]

/-- With Find as the specification describes it, in a registry where a module name names
one module and an identity name one identity of its module: a value stored successfully
from a format other than the canonical one prints in JSON as `<module-name>:<identity-name>`,
and storing that string in the JSON format with the same type descriptor, options, hints
and schema node in the same context succeeds and gives a value that compares equal,
whenever the hint check, the status check and the interning do not fail for it. The
enabled check of the second store is the one the first store has passed. -/
theorem lyplg_type_store_identityref.restore_printed_find (ext : externals) (ctx : ly_ctx)
    (type : lysc_type_identityref) (value : String) (options : Nat) (format : LY_VALUE_FORMAT)
    (pdata pdata' : prefix_data) (hints : Nat) (ctx_node : Option lysc_node) (unres : Nat)
    (hfind : ext.identity_find = lyplg_type_identity_find ctx)
    (hfmt : format ≠ LY_VALUE_CANON)
    (hok : (lyplg_type_store_identityref ext ctx type value options format pdata hints
      ctx_node unres).ret = LY_SUCCESS)
    (hcolon : ':' ∉ (ctx.ident_module_name (ext.identity_find value format pdata ctx_node).ident).data)
    (hmod : (ext.identity_find value format pdata ctx_node).ident.mod < ctx.modules.length)
    (humod : ∀ j, j < (ext.identity_find value format pdata ctx_node).ident.mod →
      (ctx.module_at j).name
        ≠ (ctx.module_at (ext.identity_find value format pdata ctx_node).ident.mod).name)
    (hidx : (ext.identity_find value format pdata ctx_node).ident.index
      < (ctx.module_at (ext.identity_find value format pdata ctx_node).ident.mod).identities.length)
    (huid : ∀ j, j < (ext.identity_find value format pdata ctx_node).ident.index →
      ((ctx.module_at (ext.identity_find value format pdata ctx_node).ident.mod).identities.getD j
        default).name ≠ (ctx.ident_at (ext.identity_find value format pdata ctx_node).ident).name)
    (hh : (ext.check_hints hints
      (canonical_name ctx (ext.identity_find value format pdata ctx_node).ident) type.basetype).1
        = LY_SUCCESS)
    (hst : ∀ node, ctx_node = some node →
      (ext.check_status node (ctx.ident_at (ext.identity_find value format pdata ctx_node).ident).flags
        LY_VALUE_JSON pdata'
        (ctx.ident_name (ext.identity_find value format pdata ctx_node).ident)).1 = LY_SUCCESS)
    (ha : ext.asprintf_fails
      (canonical_name ctx (ext.identity_find value format pdata ctx_node).ident) = false)
    (hd : ext.lydict_insert_zc
      (canonical_name ctx (ext.identity_find value format pdata ctx_node).ident) = LY_SUCCESS) :
    (lyplg_type_print_identityref ext ctx
        (lyplg_type_store_identityref ext ctx type value options format pdata hints ctx_node
          unres).storage LY_VALUE_JSON pdata').ret
      = some (canonical_name ctx (ext.identity_find value format pdata ctx_node).ident)
    ∧ (lyplg_type_store_identityref ext ctx type
        (canonical_name ctx (ext.identity_find value format pdata ctx_node).ident) options
        LY_VALUE_JSON pdata' hints ctx_node unres).ret = LY_SUCCESS
    ∧ lyplg_type_compare_identityref
        (lyplg_type_store_identityref ext ctx type
          (canonical_name ctx (ext.identity_find value format pdata ctx_node).ident) options
          LY_VALUE_JSON pdata' hints ctx_node unres).storage
        (lyplg_type_store_identityref ext ctx type value options format pdata hints
          ctx_node unres).storage = LY_SUCCESS := by
  have hs1 := lyplg_type_store_identityref.success_storage ext ctx type value options format pdata
    hints ctx_node unres hok
  have hfc := lyplg_type_identity_find_canonical_name ctx
    (ext.identity_find value format pdata ctx_node).ident pdata' ctx_node hcolon hmod humod hidx
    huid
  have hp : (lyplg_type_print_identityref ext ctx
      (lyplg_type_store_identityref ext ctx type value options format pdata hints ctx_node
        unres).storage LY_VALUE_JSON pdata').ret
      = some (canonical_name ctx (ext.identity_find value format pdata ctx_node).ident) := by
    rw [hs1]
    simp [lyplg_type_print_identityref, hfmt]
  have hf2 : ext.identity_find
      (canonical_name ctx (ext.identity_find value format pdata ctx_node).ident) LY_VALUE_JSON
      pdata' ctx_node
      = { ret := LY_SUCCESS, ident := (ext.identity_find value format pdata ctx_node).ident,
          err := none } := by
    rw [hfind] at hfc ⊢
    exact hfc
  have h := lyplg_type_store_identityref_restore_printed ext ctx type value options format pdata
    pdata' hints ctx_node unres
    (canonical_name ctx (ext.identity_find value format pdata ctx_node).ident) hok hp hh
    (by rw [hf2]) (by rw [hf2]) hst ha hd
  exact ⟨hp, h.2.1, h.2.2.1⟩

end Libyang
